import Mathlib

/-! # Jack: a CXL Fabric Manager CLI

A verification development over a shallow embedding of the request encoder
(`cmd_encoder.c`), the option parser helpers (`options.c`) and the response
handlers (`fmapi_handler.c`) of the `jack` command line tool.

Conventions of the embedding

* A C string is the list of its characters before the terminating NUL.
* Machine integers are natural numbers or integers; a conversion that can lose
  bits is written out (`% 256` for a store into a `__u8`, `to_int` for the
  conversion of an `unsigned long` into an `int`).
* Undefined behaviour of the C program (a write past the end of a local buffer,
  signed overflow of a loop counter, the dereference of a NULL pointer) is the
  result `none`.
* What a function prints, and the calls it makes into the pthread, MCTP, FM API
  and Emulator API libraries, are part of its result, in the order they happen.
-/

namespace Jack

/-! ## options.c: numeric conversion and range expansion -/

/-- Largest value of an `unsigned long` (LP64). -/
def ULONG_MAX : Nat := 2 ^ 64 - 1

/-- The `isspace` class of the C locale: space, and the controls 9 to 13. -/
def isspace (c : Char) : Bool :=
  c.toNat == 32 || (9 ≤ c.toNat && c.toNat ≤ 13)

/-- Value of a character as a digit, for bases up to 36, as `strtoul` reads it. -/
def digit_value (c : Char) : Option Nat :=
  if 48 ≤ c.toNat ∧ c.toNat ≤ 57 then some (c.toNat - 48)
  else if 97 ≤ c.toNat ∧ c.toNat ≤ 122 then some (c.toNat - 87)
  else if 65 ≤ c.toNat ∧ c.toNat ≤ 90 then some (c.toNat - 55)
  else none

/-- The digit loop of `strtoul`: consume digits valid in `base`, stop at the
first other character. The value is not yet clamped. -/
def scan_digits (base : Nat) : List Char → Nat → Nat
  | [], acc => acc
  | c :: rest, acc =>
    match digit_value c with
    | some d => if d < base then scan_digits base rest (acc * base + d) else acc
    | none => acc

/-- Skip the optional `0x` or `0X` that `strtoul` accepts in base 16. -/
def skip_0x (s : List Char) : List Char :=
  match s with
  | a :: b :: rest => if a = '0' ∧ (b = 'x' ∨ b = 'X') then rest else s
  | _ => s

/-- The libc function `strtoul(s, NULL, base)` for base 10 and base 16: leading
white space, an optional sign, (base 16) an optional `0x`, then digits. No digit
gives 0; a value above `ULONG_MAX` gives `ULONG_MAX`; a minus sign negates the
value as an `unsigned long`. -/
def strtoul (s : List Char) (base : Nat) : Nat :=
  let s1 := s.dropWhile isspace
  let neg := s1.head? = some '-'
  let s2 := if s1.head? = some '-' ∨ s1.head? = some '+' then s1.tail else s1
  let s3 := if base = 16 then skip_0x s2 else s2
  let v := scan_digits base s3 0
  if v > ULONG_MAX then ULONG_MAX
  else if neg then (2 ^ 64 - v) % 2 ^ 64
  else v

/-- `hexordec_to_ul`: base 16 when the argument starts with `0x`, else base 10. -/
def hexordec_to_ul (arg : List Char) : Nat :=
  match arg with
  | a :: b :: _ => if a = '0' ∧ b = 'x' then strtoul arg 16 else strtoul arg 10
  | _ => strtoul arg 10

/-- Conversion of an `unsigned long` to `int` (two's complement, 32 bits). -/
def to_int (n : Nat) : Int :=
  if n % 2 ^ 32 < 2 ^ 31 then ((n % 2 ^ 32 : Nat) : Int)
  else ((n % 2 ^ 32 : Nat) : Int) - 2 ^ 32

/-- Largest value of an `int`. -/
def INT_MAX : Int := 2 ^ 31 - 1

/-- Local state of `range_to_u8_array`: `start`, the text held in `tmp[0..t)`
(the rest of `tmp` is zero), the bytes stored in `dst[0..d)`, and `d`. -/
structure range_state where
  start : Int
  tmp : List Char
  dst : List Nat
  d : Nat
deriving DecidableEq, Repr

/-- The loop `for (i = start ; i <= end ; i++) dst[d++] = i;`. The counter
overflows when `end` is `INT_MAX`. Each store keeps the low 8 bits of `i`. -/
def expand_range (st : range_state) (e : Int) : Option range_state :=
  if e = INT_MAX then none
  else
    let n := (e - st.start + 1).toNat
    some { start := st.start, tmp := st.tmp,
           dst := st.dst ++ (List.range n).map (fun (k : Nat) => ((st.start + (k : Int)) % 256).toNat),
           d := st.d + n }

/-- The store `dst[d++] = hexordec_to_ul(tmp)` followed by the reset of `tmp`. -/
def put_scalar (st : range_state) : range_state :=
  { start := st.start, tmp := [],
    dst := st.dst ++ [hexordec_to_ul st.tmp % 256], d := st.d + 1 }

/-- One iteration of the `while (src[s] != 0)` loop of `range_to_u8_array`.
`tmp` has 256 bytes and must stay NUL terminated: a character stored at index
255 or above is undefined behaviour. -/
def range_step (st : range_state) (c : Char) : Option range_state :=
  if c = ',' then
    if st.start ≥ 0 then
      (expand_range { st with tmp := [] } (to_int (hexordec_to_ul st.tmp))).map
        (fun r => { r with start := -1 })
    else if st.tmp.length > 0 then some (put_scalar st)
    else some st
  else if c = '-' then
    if st.start < 0 ∧ st.tmp.length > 0 then
      some { st with start := to_int (hexordec_to_ul st.tmp), tmp := [] }
    else some st
  else
    if st.tmp.length < 255 then some { st with tmp := st.tmp ++ [c] }
    else none

/-- The `while` loop of `range_to_u8_array` over the characters of `src`. -/
def range_loop : List Char → range_state → Option range_state
  | [], st => some st
  | c :: rest, st =>
    match range_step st c with
    | some st1 => range_loop rest st1
    | none => none

/-- The code after the loop: flush the text that is still held in `tmp`. -/
def range_finish (st : range_state) : Option range_state :=
  if st.start ≥ 0 ∧ st.tmp.length > 0 then
    expand_range { st with tmp := [] } (to_int (hexordec_to_ul st.tmp))
  else if st.tmp.length > 0 then some (put_scalar st)
  else some st

/-- `range_to_u8_array(dst, src)`: the bytes stored in `dst[0..d)` and the
return value `d`. -/
def range_to_u8_array (src : List Char) : Option (List Nat × Nat) :=
  match range_loop src { start := -1, tmp := [], dst := [], d := 0 } with
  | some st =>
    match range_finish st with
    | some r => some (r.dst, r.d)
    | none => none
  | none => none

/-! ### Range expressions as the specification describes them -/

/-- A decimal digit character. -/
def is_dec_digit (c : Char) : Bool := 48 ≤ c.toNat && c.toNat ≤ 57

/-- A hexadecimal digit character. -/
def is_hex_digit (c : Char) : Bool :=
  (48 ≤ c.toNat && c.toNat ≤ 57) || (97 ≤ c.toNat && c.toNat ≤ 102) ||
    (65 ≤ c.toNat && c.toNat ≤ 70)

/-- Value of a hexadecimal digit character. -/
def hex_digit (c : Char) : Nat :=
  if c.toNat ≤ 57 then c.toNat - 48
  else if 97 ≤ c.toNat then c.toNat - 87
  else c.toNat - 55

/-- Value of a string of decimal digits. -/
def decimal_value (w : List Char) : Nat :=
  w.foldl (fun a c => a * 10 + (c.toNat - 48)) 0

/-- Value of a string of hexadecimal digits. -/
def hex_value (w : List Char) : Nat :=
  w.foldl (fun a c => a * 16 + hex_digit c) 0

/-- A numeral of a range expression: a non-empty string of decimal digits, or
`0x` followed by a non-empty string of hexadecimal digits. -/
def is_numeral (w : List Char) : Bool :=
  match w with
  | a :: b :: rest =>
    if a = '0' ∧ b = 'x' then !rest.isEmpty && rest.all is_hex_digit
    else w.all is_dec_digit
  | _ => !w.isEmpty && w.all is_dec_digit

/-- The number a numeral denotes. -/
def numeral_value (w : List Char) : Nat :=
  match w with
  | a :: b :: rest => if a = '0' ∧ b = 'x' then hex_value rest else decimal_value w
  | _ => decimal_value w

/-- An item of a range expression: a scalar, or an inclusive range `lo-hi`. -/
inductive range_item where
  | scalar (w : List Char)
  | range (lo hi : List Char)
deriving DecidableEq, Repr

/-- The text of an item. -/
def range_item.text : range_item → List Char
  | .scalar w => w
  | .range lo hi => lo ++ '-' :: hi

/-- The values an item lists: the scalar, or every value from `lo` to `hi`. -/
def range_item.values : range_item → List Nat
  | .scalar w => [numeral_value w]
  | .range lo hi => List.range' (numeral_value lo) (numeral_value hi + 1 - numeral_value lo)

/-- First value of an item. -/
def range_item.first : range_item → Nat
  | .scalar w => numeral_value w
  | .range lo _ => numeral_value lo

/-- Last value of an item. -/
def range_item.last : range_item → Nat
  | .scalar w => numeral_value w
  | .range _ hi => numeral_value hi

/-- A well-formed item: numerals that fit the 255 characters of `tmp` and
denote values of a `__u8`. -/
def range_item.wf : range_item → Prop
  | .scalar w => is_numeral w = true ∧ w.length < 255 ∧ numeral_value w ≤ 255
  | .range lo hi =>
    is_numeral lo = true ∧ lo.length < 255 ∧ numeral_value lo ≤ 255 ∧
    is_numeral hi = true ∧ hi.length < 255 ∧ numeral_value hi ≤ 255

instance range_item.decidable_wf (it : range_item) : Decidable it.wf := by
  cases it <;> (unfold range_item.wf; infer_instance)

/-- The text of a range expression: the items separated by commas. -/
def expr_text : List range_item → List Char
  | [] => []
  | [it] => it.text
  | it :: rest => it.text ++ ',' :: expr_text rest

/-- The values a range expression lists, in the order of its items. -/
def expr_values (items : List range_item) : List Nat :=
  items.flatMap range_item.values

/-! ## Declarations of `fmapi.h`, `mctp.h` and `cxlstate.h` used by the sources

These headers belong to libraries outside the repository. The enumerations are
given as closed types with a constructor for every enumerator the sources name
and one constructor for any other value of the field; the structures have the
fields the sources read or write. A C array is a total map from index to
element: the capacities are declared in the absent headers. -/

/-- FM API message category [FMMT]. `other` is any value that is neither
`FMMT_REQ` nor `FMMT_RESP`. -/
inductive FMMT where
  | REQ
  | RESP
  | other (n : Nat)
deriving DecidableEq, Repr

/-- FM API opcodes [FMOP]. `other` is an opcode that is none of the named ones. -/
inductive FMOP where
  | ISC_BOS
  | ISC_ID
  | ISC_MSG_LIMIT_GET
  | ISC_MSG_LIMIT_SET
  | PSC_ID
  | PSC_PORT
  | PSC_PORT_CTRL
  | PSC_CFG
  | VSC_INFO
  | VSC_BIND
  | VSC_UNBIND
  | VSC_AER
  | MPC_TMC
  | MPC_CFG
  | MPC_MEM
  | MCC_INFO
  | MCC_ALLOC_GET
  | MCC_ALLOC_SET
  | MCC_QOS_CTRL_GET
  | MCC_QOS_CTRL_SET
  | MCC_QOS_STAT
  | MCC_QOS_BW_ALLOC_GET
  | MCC_QOS_BW_ALLOC_SET
  | MCC_QOS_BW_LIMIT_GET
  | MCC_QOS_BW_LIMIT_SET
  | other (code : Nat)
deriving DecidableEq, Repr

/-- MCTP message types [MCMT]. `other` is a type that is none of the named ones. -/
inductive MCMT where
  | CONTROL
  | CSE
  | CXLFMAPI
  | CXLCCI
  | other (n : Nat)
deriving DecidableEq, Repr

/-- FM API return code `FMRC_SUCCESS` (CXL return code 0000h). -/
def FMRC_SUCCESS : Nat := 0

/-- FM API return code `FMRC_BACKGROUND_OP_STARTED` (CXL return code 0001h). -/
def FMRC_BACKGROUND_OP_STARTED : Nat := 1

/-- Config space transaction type `FMCT_READ`. -/
def FMCT_READ : Nat := 0

/-- Config space transaction type `FMCT_WRITE`. -/
def FMCT_WRITE : Nat := 1

/-- Decoded FM API header (`struct fmapi_hdr`), the fields the handlers read. -/
structure fmapi_hdr where
  category : FMMT
  opcode : FMOP
  return_code : Nat
  len : Nat
deriving DecidableEq, Repr

structure fmapi_isc_bos where
  running : Nat
  pcnt : Nat
  opcode : Nat
  rc : Nat
  ext : Nat
deriving DecidableEq, Repr

structure fmapi_isc_id_rsp where
  vid : Nat
  did : Nat
  svid : Nat
  ssid : Nat
  sn : Nat
  size : Nat
deriving DecidableEq, Repr

structure fmapi_isc_msg_limit where
  limit : Nat
deriving DecidableEq, Repr

structure fmapi_psc_id_rsp where
  ingress_port : Nat
  num_ports : Nat
  num_vcss : Nat
  num_vppbs : Nat
  active_vppbs : Nat
  num_decoders : Nat
  active_ports : Nat → Nat
  active_vcss : Nat → Nat

structure fmapi_psc_port_info where
  ppid : Nat
  state : Nat
  dv : Nat
  dt : Nat
  cv : Nat
  mlw : Nat
  nlw : Nat
  speeds : Nat
  mls : Nat
  cls : Nat
  ltssm : Nat
  lane : Nat
  lane_rev : Nat
  perst : Nat
  prsnt : Nat
  pwrctrl : Nat
  num_ld : Nat
deriving DecidableEq, Repr

structure fmapi_psc_port_rsp where
  num : Nat
  list : Nat → fmapi_psc_port_info

structure fmapi_psc_cfg_req where
  ppid : Nat
  reg : Nat
  ext : Nat
  fdbe : Nat
  type : Nat
deriving DecidableEq, Repr

structure fmapi_psc_cfg_rsp where
  data : Nat → Nat

structure fmapi_vsc_ppb_stat_blk where
  status : Nat
  ppid : Nat
  ldid : Nat
deriving DecidableEq, Repr

structure fmapi_vsc_info_blk where
  vcsid : Nat
  state : Nat
  uspid : Nat
  num : Nat
  list : Nat → fmapi_vsc_ppb_stat_blk

structure fmapi_vsc_info_rsp where
  num : Nat
  list : Nat → fmapi_vsc_info_blk

structure fmapi_mpc_cfg_req where
  ppid : Nat
  ldid : Nat
  reg : Nat
  ext : Nat
  fdbe : Nat
  type : Nat
deriving DecidableEq, Repr

structure fmapi_mpc_cfg_rsp where
  data : Nat → Nat

structure fmapi_mpc_mem_rsp where
  len : Nat
  data : Nat → Nat

structure fmapi_mpc_tmc_req where
  ppid : Nat
deriving DecidableEq, Repr

structure fmapi_mcc_info_rsp where
  size : Nat
  num : Nat
  epc : Nat
  ttr : Nat
deriving DecidableEq, Repr

structure fmapi_mcc_alloc_blk where
  rng1 : Nat
  rng2 : Nat
deriving DecidableEq, Repr

structure fmapi_mcc_alloc_get_rsp where
  total : Nat
  granularity : Nat
  start : Nat
  num : Nat
  list : Nat → fmapi_mcc_alloc_blk

structure fmapi_mcc_alloc_set_rsp where
  num : Nat
  start : Nat
  list : Nat → fmapi_mcc_alloc_blk

structure fmapi_mcc_qos_ctrl where
  epc_en : Nat
  ttr_en : Nat
  egress_mod_pcnt : Nat
  egress_sev_pcnt : Nat
  sample_interval : Nat
  rcb : Nat
  comp_interval : Nat
deriving DecidableEq, Repr

structure fmapi_mcc_qos_stat_rsp where
  bp_avg_pcnt : Nat
deriving DecidableEq, Repr

structure fmapi_mcc_qos_bw_alloc where
  num : Nat
  start : Nat
  list : Nat → Nat

structure fmapi_mcc_qos_bw_limit where
  num : Nat
  start : Nat
  list : Nat → Nat

/-- The object union of a tunneled message, one view for each member that
`cci_handler` and `cci_update` read. -/
structure cci_obj where
  mcc_info_rsp : fmapi_mcc_info_rsp
  mcc_alloc_get_rsp : fmapi_mcc_alloc_get_rsp
  mcc_alloc_set_rsp : fmapi_mcc_alloc_set_rsp
  mcc_qos_ctrl : fmapi_mcc_qos_ctrl
  mcc_qos_stat_rsp : fmapi_mcc_qos_stat_rsp
  mcc_qos_bw_alloc : fmapi_mcc_qos_bw_alloc
  mcc_qos_bw_limit : fmapi_mcc_qos_bw_limit

/-- A tunneled FM API message after `fmapi_deserialize`: header and object. -/
structure cci_msg where
  hdr : fmapi_hdr
  obj : cci_obj

/-- Response of the tunnel management command: the MCTP type tag of the inner
message and the inner message. -/
structure fmapi_mpc_tmc_rsp where
  type : MCMT
  msg : cci_msg

/-- The object union of a request, one view for each member the handlers read. -/
structure fmapi_req_obj where
  psc_cfg_req : fmapi_psc_cfg_req
  mpc_cfg_req : fmapi_mpc_cfg_req
  mpc_tmc_req : fmapi_mpc_tmc_req
deriving DecidableEq, Repr

/-- The object union of a response, one view for each member the handlers read. -/
structure fmapi_rsp_obj where
  isc_bos : fmapi_isc_bos
  isc_id_rsp : fmapi_isc_id_rsp
  isc_msg_limit : fmapi_isc_msg_limit
  psc_id_rsp : fmapi_psc_id_rsp
  psc_port_rsp : fmapi_psc_port_rsp
  psc_cfg_rsp : fmapi_psc_cfg_rsp
  vsc_info_rsp : fmapi_vsc_info_rsp
  mpc_tmc_rsp : fmapi_mpc_tmc_rsp
  mpc_cfg_rsp : fmapi_mpc_cfg_rsp
  mpc_mem_rsp : fmapi_mpc_mem_rsp

/-- A request (`struct fmapi_msg`) after `fmapi_deserialize`. The codec is a
library outside the repository; a message is given by its decoded parts. -/
structure fmapi_req where
  hdr : fmapi_hdr
  obj : fmapi_req_obj
deriving DecidableEq, Repr

/-- A response (`struct fmapi_msg`) after `fmapi_deserialize`. -/
structure fmapi_rsp where
  hdr : fmapi_hdr
  obj : fmapi_rsp_obj

/-- Multi logical device state (`struct cxl_mld`). `cfgspace` holds one pointer
for each logical device: `none` is NULL. -/
structure cxl_mld where
  memory_size : Nat
  num : Nat
  epc : Nat
  ttr : Nat
  granularity : Nat
  epc_en : Nat
  ttr_en : Nat
  egress_mod_pcnt : Nat
  egress_sev_pcnt : Nat
  sample_interval : Nat
  rcb : Nat
  comp_interval : Nat
  bp_avg_pcnt : Nat
  rng1 : Nat → Nat
  rng2 : Nat → Nat
  alloc_bw : Nat → Nat
  bw_limit : Nat → Nat
  cfgspace : Nat → Option (Nat → Nat)

/-- Port state (`struct cxl_port`). `mld` is a pointer: `none` is NULL. -/
structure cxl_port where
  state : Nat
  dv : Nat
  dt : Nat
  cv : Nat
  mlw : Nat
  nlw : Nat
  speeds : Nat
  mls : Nat
  cls : Nat
  ltssm : Nat
  lane : Nat
  lane_rev : Nat
  perst : Nat
  prsnt : Nat
  pwrctrl : Nat
  ld : Nat
  cfgspace : Nat → Nat
  mld : Option cxl_mld

structure cxl_vppb where
  bind_status : Nat
  ppid : Nat
  ldid : Nat
deriving DecidableEq, Repr

/-- Virtual CXL switch state (`struct cxl_vcs`). -/
structure cxl_vcs where
  vcsid : Nat
  state : Nat
  uspid : Nat
  num : Nat
  vppbs : Nat → cxl_vppb

/-- The Switch State Cache (`struct cxl_switch`, the global `cxls`). -/
structure cxl_switch where
  bos_opcode : Nat
  bos_rc : Nat
  bos_running : Nat
  bos_pcnt : Nat
  bos_ext : Nat
  vid : Nat
  did : Nat
  svid : Nat
  ssid : Nat
  sn : Nat
  max_msg_size_n : Nat
  msg_rsp_limit_n : Nat
  ingress_port : Nat
  num_ports : Nat
  num_vcss : Nat
  num_vppbs : Nat
  active_vppbs : Nat
  num_decoders : Nat
  ports : Nat → cxl_port
  vcss : Nat → cxl_vcs

/-- The zero filled object of `calloc(1, sizeof(struct cxl_mld))`. -/
def cxl_mld_calloc : cxl_mld :=
  { memory_size := 0, num := 0, epc := 0, ttr := 0, granularity := 0, epc_en := 0,
    ttr_en := 0, egress_mod_pcnt := 0, egress_sev_pcnt := 0, sample_interval := 0,
    rcb := 0, comp_interval := 0, bp_avg_pcnt := 0,
    rng1 := fun _ => 0, rng2 := fun _ => 0, alloc_bw := fun _ => 0,
    bw_limit := fun _ => 0, cfgspace := fun _ => none }

/-- Size in bytes of the buffer that `calloc(1, sizeof(PCLN_CFG))` allocates
for the config space of a logical device. `PCLN_CFG` is declared in a header
outside the repository; it is a length constant, an integer, so that `sizeof`
gives the size of an `int`. The theorems use this size only as the bound of
the buffer. -/
def SIZEOF_PCLN_CFG : Nat := 4

/-- The zero filled buffer of `calloc(1, sizeof(PCLN_CFG))`: the bytes at the
indices below `SIZEOF_PCLN_CFG`. The map is total only as a carrier: an access
at an index from `SIZEOF_PCLN_CFG` on is outside the buffer and is rejected
where it is made (`mld_cfg_store`). -/
def cfgspace_calloc : Nat → Nat := fun _ => 0

/-! ## fmapi_handler.c -/

/-- What a handler prints. A block of `printf` calls that formats a decoded
object is one event carrying that object (the name tables `fmrc`, `fmmt` and
the number formats belong to libraries); fixed text is kept as text. -/
inductive printed where
  | text (s : String)
  | not_a_response (category : FMMT)
  | tunneled_not_a_response (category : FMMT)
  | error_rc (return_code : Nat)
  | bad_tunnel_type (type : MCMT)
  | isc_bos (o : fmapi_isc_bos) (opcode : FMOP)
  | isc_id (o : fmapi_isc_id_rsp)
  | isc_msg_limit (o : fmapi_isc_msg_limit)
  | psc_id (o : fmapi_psc_id_rsp) (active_ports active_vcss : Nat)
  | print_ports (o : fmapi_psc_port_rsp)
  | cfg_data (d0 d1 d2 d3 : Nat)
  | vsc_info (o : fmapi_vsc_info_rsp)
  | mpc_mem (o : fmapi_mpc_mem_rsp)
  | mcc_info (o : fmapi_mcc_info_rsp)
  | mcc_alloc_get (o : fmapi_mcc_alloc_get_rsp)
  | mcc_alloc_set (o : fmapi_mcc_alloc_set_rsp)
  | mcc_qos_ctrl (o : fmapi_mcc_qos_ctrl)
  | mcc_qos_stat (o : fmapi_mcc_qos_stat_rsp)
  | mcc_qos_bw_alloc (o : fmapi_mcc_qos_bw_alloc)
  | mcc_qos_bw_limit (o : fmapi_mcc_qos_bw_limit)

/-- The two counting loops of the `FMOP_PSC_ID` case: the number of set bits
in the 32 bytes of a bitmap. -/
def count_active (a : Nat → Nat) : Nat :=
  (List.range 32).foldl
    (fun n i => (List.range 8).foldl
      (fun n k => if (a i >>> k) &&& 1 ≠ 0 then n + 1 else n) n) 0

/-- `cci_handler(m, payload)`: the return value and what is printed. After
the `switch` the function sets `rv = 0`, also on the `default` branch. -/
def cci_handler (msg : cci_msg) : Nat × List printed :=
  if msg.hdr.category ≠ FMMT.RESP then
    (1, [printed.tunneled_not_a_response msg.hdr.category])
  else if msg.hdr.return_code ≠ FMRC_SUCCESS ∧
      msg.hdr.return_code ≠ FMRC_BACKGROUND_OP_STARTED then
    (msg.hdr.return_code, [printed.error_rc msg.hdr.return_code])
  else
    let out : List printed :=
      match msg.hdr.opcode with
      | FMOP.MCC_INFO => [printed.mcc_info msg.obj.mcc_info_rsp]
      | FMOP.MCC_ALLOC_GET => [printed.mcc_alloc_get msg.obj.mcc_alloc_get_rsp]
      | FMOP.MCC_ALLOC_SET => [printed.mcc_alloc_set msg.obj.mcc_alloc_set_rsp]
      | FMOP.MCC_QOS_CTRL_GET => [printed.mcc_qos_ctrl msg.obj.mcc_qos_ctrl]
      | FMOP.MCC_QOS_CTRL_SET => [printed.mcc_qos_ctrl msg.obj.mcc_qos_ctrl]
      | FMOP.MCC_QOS_STAT => [printed.mcc_qos_stat msg.obj.mcc_qos_stat_rsp]
      | FMOP.MCC_QOS_BW_ALLOC_GET => [printed.mcc_qos_bw_alloc msg.obj.mcc_qos_bw_alloc]
      | FMOP.MCC_QOS_BW_ALLOC_SET => [printed.mcc_qos_bw_alloc msg.obj.mcc_qos_bw_alloc]
      | FMOP.MCC_QOS_BW_LIMIT_GET => [printed.mcc_qos_bw_limit msg.obj.mcc_qos_bw_limit]
      | FMOP.MCC_QOS_BW_LIMIT_SET => [printed.mcc_qos_bw_limit msg.obj.mcc_qos_bw_limit]
      | _ => []
    (0, out)

/-- Result of `cci_update`: the cache after the call, the return value and
what is printed. -/
structure cci_update_result where
  cxls : cxl_switch
  rv : Nat
  out : List printed

/-- Store `p` as `cxls->ports[ppid]`. -/
def set_port (cxls : cxl_switch) (ppid : Nat) (p : cxl_port) : cxl_switch :=
  { cxls with ports := Function.update cxls.ports ppid p }

/-- Apply `f` to the object `cxls->ports[ppid].mld` points to. The pointer is
dereferenced: NULL is undefined behaviour. -/
def with_mld (cxls : cxl_switch) (ppid : Nat) (f : cxl_mld → cxl_mld) : Option cxl_switch :=
  match (cxls.ports ppid).mld with
  | none => none
  | some m => some (set_port cxls ppid { cxls.ports ppid with mld := some (f m) })

/-- The loop `for i < num: arr[i + start] = list[i]`. -/
def store_list (num start : Nat) (list : Nat → Nat) (arr : Nat → Nat) : Nat → Nat :=
  (List.range num).foldl (fun a i => Function.update a (i + start) (list i)) arr

/-- The loop of the `FMOP_MCC_INFO` case: allocate the config space buffer of
every logical device below `num` that has none. -/
def alloc_cfgspace (num : Nat) (cs : Nat → Option (Nat → Nat)) : Nat → Option (Nat → Nat) :=
  (List.range num).foldl
    (fun c i =>
      match c i with
      | none => Function.update c i (some cfgspace_calloc)
      | some _ => c) cs

/-- The `FMOP_MCC_INFO` case of `cci_update`. -/
def cci_update_info (cxls : cxl_switch) (ppid : Nat) (o : fmapi_mcc_info_rsp) : cxl_switch :=
  let p := cxls.ports ppid
  let mld : cxl_mld :=
    match p.mld with
    | none => cxl_mld_calloc
    | some m => m
  let mld := { mld with memory_size := o.size, num := o.num, epc := o.epc, ttr := o.ttr }
  let mld := { mld with cfgspace := alloc_cfgspace o.num mld.cfgspace }
  set_port cxls ppid { p with ld := o.num, mld := some mld }

/-- The `switch` of `cci_update`. In the cases with only a loop the pointer
`mld` is dereferenced inside the loop, so not at all when `num` is 0. -/
def cci_update_switch (cxls : cxl_switch) (ppid : Nat) (msg : cci_msg) : Option cxl_switch :=
  match msg.hdr.opcode with
  | FMOP.MCC_INFO => some (cci_update_info cxls ppid msg.obj.mcc_info_rsp)
  | FMOP.MCC_ALLOC_GET =>
    let o := msg.obj.mcc_alloc_get_rsp
    with_mld cxls ppid (fun mld =>
      { mld with
        granularity := o.granularity
        rng1 := store_list o.num o.start (fun i => (o.list i).rng1) mld.rng1
        rng2 := store_list o.num o.start (fun i => (o.list i).rng2) mld.rng2 })
  | FMOP.MCC_ALLOC_SET =>
    let o := msg.obj.mcc_alloc_set_rsp
    if o.num = 0 then some cxls
    else with_mld cxls ppid (fun mld =>
      { mld with
        rng1 := store_list o.num o.start (fun i => (o.list i).rng1) mld.rng1
        rng2 := store_list o.num o.start (fun i => (o.list i).rng2) mld.rng2 })
  | FMOP.MCC_QOS_CTRL_GET | FMOP.MCC_QOS_CTRL_SET =>
    let o := msg.obj.mcc_qos_ctrl
    with_mld cxls ppid (fun mld =>
      { mld with
        epc_en := o.epc_en
        ttr_en := o.ttr_en
        egress_mod_pcnt := o.egress_mod_pcnt
        egress_sev_pcnt := o.egress_sev_pcnt
        sample_interval := o.sample_interval
        rcb := o.rcb
        comp_interval := o.comp_interval })
  | FMOP.MCC_QOS_STAT =>
    with_mld cxls ppid (fun mld =>
      { mld with bp_avg_pcnt := msg.obj.mcc_qos_stat_rsp.bp_avg_pcnt })
  | FMOP.MCC_QOS_BW_ALLOC_GET | FMOP.MCC_QOS_BW_ALLOC_SET =>
    let o := msg.obj.mcc_qos_bw_alloc
    if o.num = 0 then some cxls
    else with_mld cxls ppid (fun mld =>
      { mld with alloc_bw := store_list o.num o.start o.list mld.alloc_bw })
  | FMOP.MCC_QOS_BW_LIMIT_GET | FMOP.MCC_QOS_BW_LIMIT_SET =>
    let o := msg.obj.mcc_qos_bw_limit
    if o.num = 0 then some cxls
    else with_mld cxls ppid (fun mld =>
      { mld with bw_limit := store_list o.num o.start o.list mld.bw_limit })
  | _ => some cxls

/-- `cci_update(m, ppid, payload)` on the cache `cxls`. After the `switch` the
function sets `rv = 0`, also on the `default` branch. -/
def cci_update (cxls : cxl_switch) (ppid : Nat) (msg : cci_msg) : Option cci_update_result :=
  if msg.hdr.category ≠ FMMT.RESP then
    some { cxls := cxls, rv := 1, out := [printed.tunneled_not_a_response msg.hdr.category] }
  else if msg.hdr.return_code ≠ FMRC_SUCCESS ∧
      msg.hdr.return_code ≠ FMRC_BACKGROUND_OP_STARTED then
    some { cxls := cxls, rv := msg.hdr.return_code,
           out := [printed.error_rc msg.hdr.return_code] }
  else
    match cci_update_switch cxls ppid msg with
    | none => none
    | some c => some { cxls := c, rv := 0, out := [] }

/-- The message buffers of an action. -/
inductive mctp_msg_ref where
  | req
  | rsp
deriving DecidableEq, Repr

/-- Result of `fmapi_handler`: the return value, what is printed, and the
message buffers pushed on the free pool `m->msgs`. -/
structure fmapi_handler_result where
  rv : Nat
  out : List printed
  pushed : List mctp_msg_ref

/-- `fmapi_handler(m, mr, mm)` with `mr` the response and `mm` the request of
the action, as `run` calls it. The request only serves the decoder. `rv`
starts at 1; the label `end` pushes `mm`. -/
def fmapi_handler (_req : fmapi_req) (rsp : fmapi_rsp) : fmapi_handler_result :=
  if rsp.hdr.category ≠ FMMT.RESP then
    { rv := 1, out := [printed.not_a_response rsp.hdr.category],
      pushed := [mctp_msg_ref.req] }
  else if rsp.hdr.return_code ≠ FMRC_SUCCESS ∧
      rsp.hdr.return_code ≠ FMRC_BACKGROUND_OP_STARTED then
    { rv := rsp.hdr.return_code, out := [printed.error_rc rsp.hdr.return_code],
      pushed := [mctp_msg_ref.req] }
  else
    match rsp.hdr.opcode with
    | FMOP.ISC_BOS =>
      { rv := 0, out := [printed.isc_bos rsp.obj.isc_bos rsp.hdr.opcode],
        pushed := [mctp_msg_ref.req] }
    | FMOP.ISC_ID =>
      { rv := 0, out := [printed.isc_id rsp.obj.isc_id_rsp], pushed := [mctp_msg_ref.req] }
    | FMOP.ISC_MSG_LIMIT_GET | FMOP.ISC_MSG_LIMIT_SET =>
      { rv := 0, out := [printed.isc_msg_limit rsp.obj.isc_msg_limit],
        pushed := [mctp_msg_ref.req] }
    | FMOP.PSC_ID =>
      { rv := 0,
        out := [printed.psc_id rsp.obj.psc_id_rsp
          (count_active rsp.obj.psc_id_rsp.active_ports)
          (count_active rsp.obj.psc_id_rsp.active_vcss)],
        pushed := [mctp_msg_ref.req] }
    | FMOP.PSC_PORT =>
      { rv := 0, out := [printed.print_ports rsp.obj.psc_port_rsp],
        pushed := [mctp_msg_ref.req] }
    | FMOP.PSC_PORT_CTRL => { rv := 0, out := [], pushed := [mctp_msg_ref.req] }
    | FMOP.PSC_CFG =>
      { rv := 0,
        out := [printed.cfg_data (rsp.obj.psc_cfg_rsp.data 0) (rsp.obj.psc_cfg_rsp.data 1)
          (rsp.obj.psc_cfg_rsp.data 2) (rsp.obj.psc_cfg_rsp.data 3)],
        pushed := [mctp_msg_ref.req] }
    | FMOP.VSC_INFO =>
      { rv := 0, out := [printed.vsc_info rsp.obj.vsc_info_rsp],
        pushed := [mctp_msg_ref.req] }
    | FMOP.VSC_BIND =>
      { rv := 0,
        out := if rsp.hdr.return_code = FMRC_BACKGROUND_OP_STARTED then
            [printed.text "Bind operation started in the background\n"]
          else [],
        pushed := [mctp_msg_ref.req] }
    | FMOP.VSC_UNBIND =>
      { rv := 0,
        out := if rsp.hdr.return_code = FMRC_BACKGROUND_OP_STARTED then
            [printed.text "Unbind operation started in the background\n"]
          else [],
        pushed := [mctp_msg_ref.req] }
    | FMOP.VSC_AER => { rv := 0, out := [], pushed := [mctp_msg_ref.req] }
    | FMOP.MPC_TMC =>
      if rsp.obj.mpc_tmc_rsp.type ≠ MCMT.CXLCCI then
        { rv := 1, out := [printed.bad_tunnel_type rsp.obj.mpc_tmc_rsp.type],
          pushed := [mctp_msg_ref.req] }
      else
        -- rv = cci_handler(m, o->msg); break; then rv = 0
        { rv := 0, out := (cci_handler rsp.obj.mpc_tmc_rsp.msg).2,
          pushed := [mctp_msg_ref.req] }
    | FMOP.MPC_CFG =>
      { rv := 0,
        out := [printed.cfg_data (rsp.obj.mpc_cfg_rsp.data 0) (rsp.obj.mpc_cfg_rsp.data 1)
          (rsp.obj.mpc_cfg_rsp.data 2) (rsp.obj.mpc_cfg_rsp.data 3)],
        pushed := [mctp_msg_ref.req] }
    | FMOP.MPC_MEM =>
      { rv := 0, out := [printed.mpc_mem rsp.obj.mpc_mem_rsp],
        pushed := [mctp_msg_ref.req] }
    | _ => { rv := 1, out := [], pushed := [mctp_msg_ref.req] }

/-- The library calls `fmapi_update` makes besides the cache accesses. -/
inductive sys_call where
  | pthread_mutex_lock
  | pthread_mutex_unlock
  | mctp_retire
deriving DecidableEq, Repr

/-- Result of `fmapi_update`: the cache after the call, the return value,
what is printed, and the lock and retire calls in the order they are made. -/
structure fmapi_update_result where
  cxls : cxl_switch
  rv : Nat
  out : List printed
  calls : List sys_call

/-- The body of the loop of the `FMOP_PSC_PORT` case: copy one port record
into `cxls->ports[x->ppid]`. -/
def psc_port_store (cxls : cxl_switch) (x : fmapi_psc_port_info) : cxl_switch :=
  set_port cxls x.ppid
    { cxls.ports x.ppid with
      state := x.state
      dv := x.dv
      dt := x.dt
      cv := x.cv
      mlw := x.mlw
      nlw := x.nlw
      speeds := x.speeds
      mls := x.mls
      cls := x.cls
      ltssm := x.ltssm
      lane := x.lane
      lane_rev := x.lane_rev
      perst := x.perst
      prsnt := x.prsnt
      pwrctrl := x.pwrctrl
      ld := x.num_ld }

/-- The four conditional stores of the config space cases. Every store goes
to the same index `reg`. -/
def cfg_store (fdbe reg : Nat) (data : Nat → Nat) (cs : Nat → Nat) : Nat → Nat :=
  let cs := if fdbe &&& 0x01 ≠ 0 then Function.update cs reg (data 0) else cs
  let cs := if fdbe &&& 0x02 ≠ 0 then Function.update cs reg (data 1) else cs
  let cs := if fdbe &&& 0x04 ≠ 0 then Function.update cs reg (data 2) else cs
  let cs := if fdbe &&& 0x08 ≠ 0 then Function.update cs reg (data 3) else cs
  cs

/-- The body of the outer loop of the `FMOP_VSC_INFO` case. -/
def vsc_info_store (cxls : cxl_switch) (x : fmapi_vsc_info_blk) : cxl_switch :=
  let v := cxls.vcss x.vcsid
  let vppbs := (List.range x.num).foldl
    (fun vp k => Function.update vp k
      { vp k with
        bind_status := (x.list k).status
        ppid := (x.list k).ppid
        ldid := (x.list k).ldid }) v.vppbs
  { cxls with
    vcss := Function.update cxls.vcss x.vcsid
      { vcsid := x.vcsid, state := x.state, uspid := x.uspid, num := x.num, vppbs := vppbs } }

/-- One store `m->cfgspace[ldid][reg] = v` of the `FMOP_MPC_CFG` case, with
`m = cxls->ports[ppid].mld`. Both pointers are dereferenced, and the code does
not compare `reg` with the size of the buffer: a store at an index from
`SIZEOF_PCLN_CFG` on is a write outside the allocated buffer (`none`). -/
def mld_cfg_store (cxls : cxl_switch) (ppid ldid reg v : Nat) : Option cxl_switch :=
  match (cxls.ports ppid).mld with
  | none => none
  | some m =>
    match m.cfgspace ldid with
    | none => none
    | some buf =>
      if reg < SIZEOF_PCLN_CFG then
        some (set_port cxls ppid
          { cxls.ports ppid with
            mld := some { m with
              cfgspace :=
                Function.update m.cfgspace ldid (some (Function.update buf reg v)) } })
      else none

/-- The four conditional stores of the `FMOP_MPC_CFG` case. -/
def mpc_cfg_update (cxls : cxl_switch) (q : fmapi_mpc_cfg_req) (data : Nat → Nat) :
    Option cxl_switch :=
  let reg := (q.ext <<< 8) ||| q.reg
  let step (bit k : Nat) (c : Option cxl_switch) : Option cxl_switch :=
    match c with
    | none => none
    | some s => if q.fdbe &&& bit ≠ 0 then mld_cfg_store s q.ppid q.ldid reg (data k) else some s
  step 0x08 3 (step 0x04 2 (step 0x02 1 (step 0x01 0 (some cxls))))

/-- The `switch` of `fmapi_update`, entered with the lock held. The result is
the cache and `true` when the case ends in `break`, `false` when it jumps to
`end` past `rv = 0`. -/
def fmapi_update_switch (cxls : cxl_switch) (req : fmapi_req) (rsp : fmapi_rsp) :
    Option (cxl_switch × Bool × List printed) :=
  match rsp.hdr.opcode with
  | FMOP.ISC_BOS =>
    let o := rsp.obj.isc_bos
    some ({ cxls with
      bos_opcode := o.opcode
      bos_rc := o.rc
      bos_running := o.running
      bos_pcnt := o.pcnt
      bos_ext := o.ext }, true, [])
  | FMOP.ISC_ID =>
    let o := rsp.obj.isc_id_rsp
    some ({ cxls with
      vid := o.vid
      did := o.did
      svid := o.svid
      ssid := o.ssid
      sn := o.sn
      max_msg_size_n := o.size }, true, [])
  | FMOP.ISC_MSG_LIMIT_GET | FMOP.ISC_MSG_LIMIT_SET =>
    some ({ cxls with msg_rsp_limit_n := rsp.obj.isc_msg_limit.limit }, true, [])
  | FMOP.PSC_ID =>
    let o := rsp.obj.psc_id_rsp
    some ({ cxls with
      ingress_port := o.ingress_port
      num_ports := o.num_ports
      num_vcss := o.num_vcss
      num_vppbs := o.num_vppbs
      active_vppbs := o.active_vppbs
      num_decoders := o.num_decoders }, true, [])
  | FMOP.PSC_PORT =>
    let o := rsp.obj.psc_port_rsp
    some ((List.range o.num).foldl (fun c i => psc_port_store c (o.list i)) cxls, true, [])
  | FMOP.PSC_PORT_CTRL => some (cxls, true, [])
  | FMOP.PSC_CFG =>
    let q := req.obj.psc_cfg_req
    if q.type = FMCT_READ then
      let p := cxls.ports q.ppid
      let reg := (q.ext <<< 8) ||| q.reg
      some (set_port cxls q.ppid
        { p with cfgspace := cfg_store q.fdbe reg rsp.obj.psc_cfg_rsp.data p.cfgspace },
        true, [])
    else some (cxls, true, [])
  | FMOP.VSC_INFO =>
    let o := rsp.obj.vsc_info_rsp
    some ((List.range o.num).foldl (fun c i => vsc_info_store c (o.list i)) cxls, true, [])
  | FMOP.VSC_BIND => some (cxls, true, [])
  | FMOP.VSC_UNBIND => some (cxls, true, [])
  | FMOP.VSC_AER => some (cxls, true, [])
  | FMOP.MPC_TMC =>
    let o := rsp.obj.mpc_tmc_rsp
    if o.type ≠ MCMT.CXLCCI then
      some (cxls, false, [printed.bad_tunnel_type o.type])
    else
      -- rv = cci_update(m, req.obj.mpc_tmc_req.ppid, o->msg); break;
      match cci_update cxls req.obj.mpc_tmc_req.ppid o.msg with
      | none => none
      | some r => some (r.cxls, true, r.out)
  | FMOP.MPC_CFG =>
    let q := req.obj.mpc_cfg_req
    if q.type = FMCT_READ then
      match mpc_cfg_update cxls q rsp.obj.mpc_cfg_rsp.data with
      | none => none
      | some c => some (c, true, [])
    else some (cxls, true, [])
  | FMOP.MPC_MEM => some (cxls, true, [])
  | _ => some (cxls, false, [])

/-- `fmapi_update(m, ma)` on the cache `cxls`, with the decoded request and
response of the action. `rv` starts at 1. The two checks jump to `end` before
the lock is taken; `end` unlocks and retires the action. A case that ends in
`break` reaches `rv = 0`, which also overwrites the value of `cci_update`. -/
def fmapi_update (cxls : cxl_switch) (req : fmapi_req) (rsp : fmapi_rsp) :
    Option fmapi_update_result :=
  if rsp.hdr.category ≠ FMMT.RESP then
    some { cxls := cxls, rv := 1, out := [printed.not_a_response rsp.hdr.category],
           calls := [sys_call.pthread_mutex_unlock, sys_call.mctp_retire] }
  else if rsp.hdr.return_code ≠ FMRC_SUCCESS ∧
      rsp.hdr.return_code ≠ FMRC_BACKGROUND_OP_STARTED then
    some { cxls := cxls, rv := rsp.hdr.return_code,
           out := [printed.error_rc rsp.hdr.return_code],
           calls := [sys_call.pthread_mutex_unlock, sys_call.mctp_retire] }
  else
    match fmapi_update_switch cxls req rsp with
    | none => none
    | some (c, finished, out) =>
      some { cxls := c, rv := if finished then 0 else 1, out := out,
             calls := [sys_call.pthread_mutex_lock, sys_call.pthread_mutex_unlock,
               sys_call.mctp_retire] }

/-! ## options.h and cmd_encoder.c -/

/-- CLI options [CLOP], the index type of the global array `opts`. -/
inductive CLOP where
  | VERBOSITY
  | TCP_PORT
  | CMD
  | INFILE
  | PRNT_OPTS
  | MCTP_EID
  | MCTP_TYPE
  | VCSID
  | PPID
  | VPPBID
  | LDID
  | ALL
  | UNBIND_MODE
  | PORT_CONTROL
  | REGISTER
  | EXT_REGISTER
  | FDBE
  | LDBE
  | WRITE
  | OFFSET
  | LEN
  | LD_RNG1
  | LD_RNG2
  | CONGEST_ENABLE
  | TEMP_THROTTLE
  | EGRESS_MOD_PCNT
  | EGRESS_SEV_PCNT
  | BP_SAMPLE_INTVL
  | REQCMPBASIS
  | CCINTERVAL
  | QOS_ALLOCATED
  | QOS_LIMIT
  | AER_ERROR
  | AER_HEADER
  | DATA
  | OUTFILE
  | MCTP_VERBOSITY
  | DEVICE
  | NUM
  | LIMIT
  | TCP_ADDRESS
  | NO_INIT
deriving DecidableEq, Repr

/-- One parsed command line parameter (`struct opt`). `buf` and `str` are
pointers: `none` is NULL. -/
structure opt where
  set : Nat
  u8 : Nat
  u16 : Nat
  u32 : Nat
  u64 : Nat
  val : Int
  num : Nat
  len : Nat
  str : Option (List Char)
  buf : Option (List Nat)
deriving DecidableEq, Repr

/-- An option as `calloc` leaves it. -/
def opt_zero : opt :=
  { set := 0, u8 := 0, u16 := 0, u32 := 0, u64 := 0, val := 0, num := 0, len := 0,
    str := none, buf := none }

@[match_pattern] def CLCM_NULL : Int := 0
@[match_pattern] def CLCM_AER : Int := 1
@[match_pattern] def CLCM_PORT_BIND : Int := 2
@[match_pattern] def CLCM_PORT_CONFIG : Int := 3
@[match_pattern] def CLCM_PORT_CTRL : Int := 4
@[match_pattern] def CLCM_PORT_UNBIND : Int := 5
@[match_pattern] def CLCM_LD_CONFIG : Int := 6
@[match_pattern] def CLCM_LD_MEM : Int := 7
@[match_pattern] def CLCM_MCTP : Int := 8
@[match_pattern] def CLCM_MCTP_GET_EID : Int := 9
@[match_pattern] def CLCM_MCTP_GET_TYPE : Int := 10
@[match_pattern] def CLCM_MCTP_GET_UUID : Int := 11
@[match_pattern] def CLCM_MCTP_GET_VER : Int := 12
@[match_pattern] def CLCM_MCTP_SET_EID : Int := 13
@[match_pattern] def CLCM_SET_LD_ALLOCATIONS : Int := 14
@[match_pattern] def CLCM_SET_QOS_ALLOCATED : Int := 15
@[match_pattern] def CLCM_SET_QOS_CONTROL : Int := 16
@[match_pattern] def CLCM_SET_QOS_LIMIT : Int := 17
@[match_pattern] def CLCM_SHOW_PORT : Int := 18
@[match_pattern] def CLCM_SHOW_LD_ALLOCATIONS : Int := 19
@[match_pattern] def CLCM_SHOW_LD_INFO : Int := 20
@[match_pattern] def CLCM_SHOW_QOS_ALLOCATED : Int := 21
@[match_pattern] def CLCM_SHOW_QOS_CONTROL : Int := 22
@[match_pattern] def CLCM_SHOW_QOS_LIMIT : Int := 23
@[match_pattern] def CLCM_SHOW_QOS_STATUS : Int := 24
@[match_pattern] def CLCM_SHOW_SWITCH : Int := 25
@[match_pattern] def CLCM_SHOW_VCS : Int := 26
@[match_pattern] def CLCM_SHOW_DEV : Int := 27
@[match_pattern] def CLCM_PORT_CONN : Int := 28
@[match_pattern] def CLCM_PORT_DISCONN : Int := 29
@[match_pattern] def CLCM_SHOW_IDENTITY : Int := 30
@[match_pattern] def CLCM_SHOW_MSG_LIMIT : Int := 31
@[match_pattern] def CLCM_SET_MSG_LIMIT : Int := 32
@[match_pattern] def CLCM_SHOW_BOS : Int := 33
@[match_pattern] def CLCM_LIST : Int := 34

@[match_pattern] def CLPC_ASSERT : Int := 0
@[match_pattern] def CLPC_DEASSERT : Int := 1
@[match_pattern] def CLPC_RESET : Int := 2

@[match_pattern] def CLPU_WAIT : Int := 0
@[match_pattern] def CLPU_MANAGED : Int := 1
@[match_pattern] def CLPU_SURPRISE : Int := 2

/-- Physical port control opcodes [FMPO] of `fmapi.h`. -/
inductive FMPO where
  | ASSERT_PERST
  | DEASSERT_PERST
  | RESET_PPB
deriving DecidableEq, Repr

/-- Unbind options [FMUB] of `fmapi.h`; `zero` is the literal 0 the encoder
starts from. -/
inductive FMUB where
  | zero
  | WAIT
  | MANAGED_HOT_REMOVE
  | SURPRISE_HOT_REMOVE
deriving DecidableEq, Repr

/-- The write data handed to `fmapi_fill_mpc_mem`: the address of the
immediate `opts[CLOP_DATA].u32`, or the buffer read from the input file. -/
inductive mem_data where
  | immediate (u32 : Nat)
  | buffer (buf : Option (List Nat))
deriving DecidableEq, Repr

/-- The calls `submit_cli_request` makes into the FM API, Emulator API and
MCTP libraries and into the three submit functions, with their arguments. The
fill functions of a tunneled request write the local `sub`,
`fmapi_fill_mpc_tmc` wraps `sub` into `msg`, every other fill writes the
message that the following submit sends. -/
inductive lib_call where
  | fmapi_fill_vsc_aer (vcsid vppbid error : Nat) (header : Option (List Nat))
  | fmapi_fill_vsc_bind (vcsid vppbid ppid ldid : Nat)
  | fmapi_fill_psc_cfg (ppid reg ext fdbe type data : Nat)
  | emapi_fill_conn (ppid device : Nat)
  | emapi_fill_disconn (ppid all : Nat)
  | fmapi_fill_psc_port_ctrl (ppid : Nat) (opcode : FMPO)
  | fmapi_fill_vsc_unbind (vcsid vppbid : Nat) (option : FMUB)
  | fmapi_fill_mpc_cfg (ppid ldid reg ext fdbe type data : Nat)
  | fmapi_fill_mpc_mem (ppid ldid offset : Nat) (len : Int) (fdbe ldbe type : Nat)
      (data : mem_data)
  | mctp_ctrl_fill_get_eid
  | mctp_ctrl_fill_get_type
  | mctp_ctrl_fill_get_uuid
  | mctp_ctrl_fill_get_ver (type : Nat)
  | mctp_ctrl_fill_set_eid (eid : Nat)
  | fmapi_fill_isc_set_msg_limit (limit : Nat)
  | fmapi_fill_mcc_set_alloc (start : Nat) (num : Int) (rng1 rng2 : Option (List Nat))
  | fmapi_fill_mcc_set_qos_alloc (start : Nat) (num : Int) (list : Option (List Nat))
  | fmapi_fill_mcc_set_qos_ctrl (epc ttr mod sev si rcb ci : Nat)
  | fmapi_fill_mcc_set_qos_limit (start : Nat) (num : Int) (list : Option (List Nat))
  | fmapi_fill_isc_bos
  | fmapi_fill_isc_id
  | fmapi_fill_isc_get_msg_limit
  | fmapi_fill_psc_get_ports (num : Nat) (list : Option (List Nat))
  | fmapi_fill_psc_get_port (ppid : Nat)
  | fmapi_fill_psc_get_all_ports
  | fmapi_fill_mcc_get_alloc (start limit : Nat)
  | fmapi_fill_mcc_get_info
  | fmapi_fill_mcc_get_qos_alloc (start num : Nat)
  | fmapi_fill_mcc_get_qos_ctrl
  | fmapi_fill_mcc_get_qos_limit (start num : Nat)
  | fmapi_fill_mcc_get_qos_status
  | fmapi_fill_psc_id
  | emapi_fill_listdev (a b : Nat)
  | fmapi_fill_vsc_get_vcs (vcsid start num : Nat)
  | fmapi_fill_mpc_tmc (ppid : Nat) (type : MCMT)
  | submit_fmapi (retry : Nat)
  | submit_emapi (retry : Nat)
  | submit_ctrl (retry : Nat)
deriving DecidableEq, Repr

/-- The value of a local that is preset and overwritten when the option is set:
`x = d; if (opts[o].set) x = v;`. -/
def opt_or (o : opt) (v d : Nat) : Nat := if o.set ≠ 0 then v else d

/-- `submit_cli_request(m, user_data)` on the option array `opts`: the library
calls it makes, in order. The list is empty exactly when the function jumps to
`end` (or leaves the `switch`) without a submit call, and then it returns NULL;
otherwise it returns what the submit call returns. -/
def submit_cli_request (opts : CLOP → opt) : List lib_call :=
  match (opts CLOP.CMD).val with
  | CLCM_NULL => []
  | CLCM_AER =>
    let vcsid := opt_or (opts CLOP.VCSID) (opts CLOP.VCSID).u8 0
    let vppbid := opt_or (opts CLOP.VPPBID) (opts CLOP.VPPBID).u8 0
    if (opts CLOP.AER_ERROR).set = 0 then []
    else if (opts CLOP.AER_HEADER).set = 0 then []
    else
      [lib_call.fmapi_fill_vsc_aer vcsid vppbid (opts CLOP.AER_ERROR).u32
          (opts CLOP.AER_HEADER).buf,
        lib_call.submit_fmapi 0]
  | CLCM_PORT_BIND =>
    let vcsid := opt_or (opts CLOP.VCSID) (opts CLOP.VCSID).u8 0
    let ppid := opt_or (opts CLOP.PPID) (opts CLOP.PPID).u8 0
    let vppbid := opt_or (opts CLOP.VPPBID) (opts CLOP.VPPBID).u8 0
    let ldid := opt_or (opts CLOP.LDID) (opts CLOP.LDID).u16 0xFFFF
    [lib_call.fmapi_fill_vsc_bind vcsid vppbid ppid ldid, lib_call.submit_fmapi 0]
  | CLCM_PORT_CONFIG =>
    let ppid := opt_or (opts CLOP.PPID) (opts CLOP.PPID).u8 0
    let reg := opt_or (opts CLOP.REGISTER) (opts CLOP.REGISTER).u8 0
    let ext := opt_or (opts CLOP.EXT_REGISTER) (opts CLOP.EXT_REGISTER).u8 0
    let fdbe := opt_or (opts CLOP.FDBE) (opts CLOP.FDBE).u8 0x1
    let type := opt_or (opts CLOP.WRITE) FMCT_WRITE 0
    [lib_call.fmapi_fill_psc_cfg ppid reg ext fdbe type (opts CLOP.DATA).u32,
      lib_call.submit_fmapi 0]
  | CLCM_PORT_CONN =>
    [lib_call.emapi_fill_conn (opts CLOP.PPID).u8 (opts CLOP.DEVICE).u8,
      lib_call.submit_emapi 0]
  | CLCM_PORT_DISCONN =>
    [lib_call.emapi_fill_disconn (opts CLOP.PPID).u8 (opts CLOP.ALL).set,
      lib_call.submit_emapi 0]
  | CLCM_PORT_CTRL =>
    let ppid := opt_or (opts CLOP.PPID) (opts CLOP.PPID).u8 0
    match (opts CLOP.PORT_CONTROL).val with
    | CLPC_ASSERT =>
      [lib_call.fmapi_fill_psc_port_ctrl ppid FMPO.ASSERT_PERST, lib_call.submit_fmapi 0]
    | CLPC_DEASSERT =>
      [lib_call.fmapi_fill_psc_port_ctrl ppid FMPO.DEASSERT_PERST, lib_call.submit_fmapi 0]
    | CLPC_RESET =>
      [lib_call.fmapi_fill_psc_port_ctrl ppid FMPO.RESET_PPB, lib_call.submit_fmapi 0]
    | _ => []
  | CLCM_PORT_UNBIND =>
    let vcsid := opt_or (opts CLOP.VCSID) (opts CLOP.VCSID).u8 0
    let vppbid := opt_or (opts CLOP.VPPBID) (opts CLOP.VPPBID).u8 0xFFFF
    let option : Option FMUB :=
      if (opts CLOP.UNBIND_MODE).set ≠ 0 then
        match (opts CLOP.UNBIND_MODE).val with
        | CLPU_WAIT => some FMUB.WAIT
        | CLPU_MANAGED => some FMUB.MANAGED_HOT_REMOVE
        | CLPU_SURPRISE => some FMUB.SURPRISE_HOT_REMOVE
        | _ => none
      else some FMUB.zero
    match option with
    | none => []
    | some ub => [lib_call.fmapi_fill_vsc_unbind vcsid vppbid ub, lib_call.submit_fmapi 0]
  | CLCM_LD_CONFIG =>
    let ppid := opt_or (opts CLOP.PPID) (opts CLOP.PPID).u8 0
    let reg := opt_or (opts CLOP.REGISTER) (opts CLOP.REGISTER).u8 0
    let ext := opt_or (opts CLOP.EXT_REGISTER) (opts CLOP.EXT_REGISTER).u8 0
    let fdbe := opt_or (opts CLOP.FDBE) (opts CLOP.FDBE).u8 1
    let type := opt_or (opts CLOP.WRITE) FMCT_WRITE FMCT_READ
    let ldid := opt_or (opts CLOP.LDID) (opts CLOP.LDID).u16 0
    [lib_call.fmapi_fill_mpc_cfg ppid ldid reg ext fdbe type (opts CLOP.DATA).u32,
      lib_call.submit_fmapi 0]
  | CLCM_LD_MEM =>
    let ppid := opt_or (opts CLOP.PPID) (opts CLOP.PPID).u8 0
    let fdbe := opt_or (opts CLOP.FDBE) (opts CLOP.FDBE).u8 0xF
    let ldbe := opt_or (opts CLOP.LDBE) (opts CLOP.LDBE).u8 0xF
    let type := opt_or (opts CLOP.WRITE) FMCT_WRITE FMCT_READ
    let ldid := opt_or (opts CLOP.LDID) (opts CLOP.LDID).u16 0
    let len : Int := if (opts CLOP.LEN).set ≠ 0 then to_int (opts CLOP.LEN).len else 0
    let offset := opt_or (opts CLOP.OFFSET) (opts CLOP.OFFSET).u64 0
    let data : mem_data :=
      if (opts CLOP.INFILE).set ≠ 0 then mem_data.buffer (opts CLOP.INFILE).buf
      else mem_data.immediate (opts CLOP.DATA).u32
    [lib_call.fmapi_fill_mpc_mem ppid ldid offset len fdbe ldbe type data,
      lib_call.submit_fmapi 0]
  | CLCM_MCTP => []
  | CLCM_MCTP_GET_EID => [lib_call.mctp_ctrl_fill_get_eid, lib_call.submit_ctrl 0]
  | CLCM_MCTP_GET_TYPE => [lib_call.mctp_ctrl_fill_get_type, lib_call.submit_ctrl 0]
  | CLCM_MCTP_GET_UUID => [lib_call.mctp_ctrl_fill_get_uuid, lib_call.submit_ctrl 0]
  | CLCM_MCTP_GET_VER =>
    [lib_call.mctp_ctrl_fill_get_ver (opts CLOP.MCTP_TYPE).u8, lib_call.submit_ctrl 0]
  | CLCM_MCTP_SET_EID =>
    [lib_call.mctp_ctrl_fill_set_eid (opts CLOP.MCTP_EID).u8, lib_call.submit_ctrl 0]
  | CLCM_SET_MSG_LIMIT =>
    [lib_call.fmapi_fill_isc_set_msg_limit (opts CLOP.LIMIT).u8, lib_call.submit_fmapi 0]
  | CLCM_SET_LD_ALLOCATIONS =>
    let num := to_int (opts CLOP.LD_RNG1).num
    let start := opt_or (opts CLOP.LDID) (opts CLOP.LDID).u16 0
    [lib_call.fmapi_fill_mcc_set_alloc start num (opts CLOP.LD_RNG1).buf (opts CLOP.LD_RNG2).buf,
      lib_call.fmapi_fill_mpc_tmc (opts CLOP.PPID).u8 MCMT.CXLCCI,
      lib_call.submit_fmapi 0]
  | CLCM_SET_QOS_ALLOCATED =>
    let num := to_int (opts CLOP.QOS_ALLOCATED).num
    let start := opt_or (opts CLOP.LDID) (opts CLOP.LDID).u16 0
    if (opts CLOP.QOS_ALLOCATED).set = 0 then []
    else
      [lib_call.fmapi_fill_mcc_set_qos_alloc start num (opts CLOP.QOS_ALLOCATED).buf,
        lib_call.fmapi_fill_mpc_tmc (opts CLOP.PPID).u8 MCMT.CXLCCI,
        lib_call.submit_fmapi 0]
  | CLCM_SET_QOS_CONTROL =>
    let epc := opt_or (opts CLOP.CONGEST_ENABLE) 1 0
    let ttr := opt_or (opts CLOP.TEMP_THROTTLE) 1 0
    let mod := opt_or (opts CLOP.EGRESS_MOD_PCNT) (opts CLOP.EGRESS_MOD_PCNT).u8 0
    let sev := opt_or (opts CLOP.EGRESS_SEV_PCNT) (opts CLOP.EGRESS_SEV_PCNT).u8 0
    let si := opt_or (opts CLOP.BP_SAMPLE_INTVL) (opts CLOP.BP_SAMPLE_INTVL).u8 0
    let rcb := opt_or (opts CLOP.REQCMPBASIS) (opts CLOP.REQCMPBASIS).u16 0
    let ci := opt_or (opts CLOP.CCINTERVAL) (opts CLOP.CCINTERVAL).u8 0
    [lib_call.fmapi_fill_mcc_set_qos_ctrl epc ttr mod sev si rcb ci,
      lib_call.fmapi_fill_mpc_tmc (opts CLOP.PPID).u8 MCMT.CXLCCI,
      lib_call.submit_fmapi 0]
  | CLCM_SET_QOS_LIMIT =>
    let num := to_int (opts CLOP.QOS_LIMIT).num
    let start := opt_or (opts CLOP.LDID) (opts CLOP.LDID).u16 0
    if (opts CLOP.QOS_LIMIT).set = 0 then []
    else
      [lib_call.fmapi_fill_mcc_set_qos_limit start num (opts CLOP.QOS_LIMIT).buf,
        lib_call.fmapi_fill_mpc_tmc (opts CLOP.PPID).u8 MCMT.CXLCCI,
        lib_call.submit_fmapi 0]
  | CLCM_SHOW_BOS => [lib_call.fmapi_fill_isc_bos, lib_call.submit_fmapi 0]
  | CLCM_SHOW_IDENTITY => [lib_call.fmapi_fill_isc_id, lib_call.submit_fmapi 0]
  | CLCM_SHOW_MSG_LIMIT => [lib_call.fmapi_fill_isc_get_msg_limit, lib_call.submit_fmapi 0]
  | CLCM_SHOW_PORT =>
    if (opts CLOP.PPID).set ≠ 0 then
      if (opts CLOP.PPID).num > 0 then
        [lib_call.fmapi_fill_psc_get_ports (opts CLOP.PPID).num (opts CLOP.PPID).buf,
          lib_call.submit_fmapi 0]
      else
        [lib_call.fmapi_fill_psc_get_port (opts CLOP.PPID).u8, lib_call.submit_fmapi 0]
    else if (opts CLOP.ALL).set ≠ 0 then
      [lib_call.fmapi_fill_psc_get_all_ports, lib_call.submit_fmapi 0]
    else []
  | CLCM_SHOW_LD_ALLOCATIONS =>
    [lib_call.fmapi_fill_mcc_get_alloc 0 0,
      lib_call.fmapi_fill_mpc_tmc (opts CLOP.PPID).u8 MCMT.CXLCCI,
      lib_call.submit_fmapi 0]
  | CLCM_SHOW_LD_INFO =>
    [lib_call.fmapi_fill_mcc_get_info,
      lib_call.fmapi_fill_mpc_tmc (opts CLOP.PPID).u8 MCMT.CXLCCI,
      lib_call.submit_fmapi 0]
  | CLCM_SHOW_QOS_ALLOCATED =>
    let num := opt_or (opts CLOP.NUM) (opts CLOP.NUM).u8 255
    let start := opt_or (opts CLOP.LDID) ((opts CLOP.LDID).u16 % 256) 0
    [lib_call.fmapi_fill_mcc_get_qos_alloc start num,
      lib_call.fmapi_fill_mpc_tmc (opts CLOP.PPID).u8 MCMT.CXLCCI,
      lib_call.submit_fmapi 0]
  | CLCM_SHOW_QOS_CONTROL =>
    [lib_call.fmapi_fill_mcc_get_qos_ctrl,
      lib_call.fmapi_fill_mpc_tmc (opts CLOP.PPID).u8 MCMT.CXLCCI,
      lib_call.submit_fmapi 0]
  | CLCM_SHOW_QOS_LIMIT =>
    let num := opt_or (opts CLOP.NUM) (opts CLOP.NUM).u8 255
    let start := opt_or (opts CLOP.LDID) ((opts CLOP.LDID).u16 % 256) 0
    [lib_call.fmapi_fill_mcc_get_qos_limit start num,
      lib_call.fmapi_fill_mpc_tmc (opts CLOP.PPID).u8 MCMT.CXLCCI,
      lib_call.submit_fmapi 0]
  | CLCM_SHOW_QOS_STATUS =>
    [lib_call.fmapi_fill_mcc_get_qos_status,
      lib_call.fmapi_fill_mpc_tmc (opts CLOP.PPID).u8 MCMT.CXLCCI,
      lib_call.submit_fmapi 0]
  | CLCM_SHOW_SWITCH => [lib_call.fmapi_fill_psc_id, lib_call.submit_fmapi 0]
  | CLCM_SHOW_DEV =>
    let a := if (opts CLOP.ALL).set ≠ 0 then 0 else opt_or (opts CLOP.DEVICE) 1 0
    let b := opt_or (opts CLOP.DEVICE) (opts CLOP.DEVICE).u8 0
    [lib_call.emapi_fill_listdev a b, lib_call.submit_emapi 0]
  | CLCM_SHOW_VCS =>
    let vcsid := opt_or (opts CLOP.VCSID) (opts CLOP.VCSID).u8 0
    [lib_call.fmapi_fill_vsc_get_vcs vcsid 0 255, lib_call.submit_fmapi 0]
  | _ => []

/-- The block that stores a physical port id argument (`pr_show_port` on
`ARGP_KEY_ARG`, `pr_common` on key `p`): a list when the first 256 characters
hold a comma or a dash, a scalar otherwise. `buf` has 256 bytes, all zero
before `range_to_u8_array` fills it: more than 256 stored values run past it. -/
def parse_ppid (o : opt) (arg : List Char) : Option opt :=
  if (arg.take 256).any (fun c => c = ',' || c = '-') then
    match range_to_u8_array arg with
    | none => none
    | some (dst, d) =>
      if d ≤ 256 then
        some { o with set := 1, buf := some (dst ++ List.replicate (256 - d) 0), num := d,
                      len := d * 1 }
      else none
  else some { o with set := 1, u8 := hexordec_to_ul arg % 256 }

/-- The option array after `show port` with one positional argument: the
command is set and the argument is stored in `opts[CLOP_PPID]`. -/
def opts_show_port (arg : List Char) : Option (CLOP → opt) :=
  match parse_ppid opt_zero arg with
  | none => none
  | some o =>
    some (fun k =>
      if k = CLOP.CMD then { opt_zero with set := 1, val := CLCM_SHOW_PORT }
      else if k = CLOP.PPID then o
      else opt_zero)

/-- An option array for `show port`: the given port id option, and the `all`
flag with the given value. -/
def opts_show_port_with (ppid : opt) (all : Nat) : CLOP → opt :=
  fun k =>
    if k = CLOP.CMD then { opt_zero with set := 1, val := CLCM_SHOW_PORT }
    else if k = CLOP.PPID then ppid
    else if k = CLOP.ALL then { opt_zero with set := all }
    else opt_zero

/-- The case labels of the `switch` of `fmapi_handler` and `fmapi_update`. -/
def fmapi_handled (op : FMOP) : Bool :=
  match op with
  | FMOP.ISC_BOS | FMOP.ISC_ID | FMOP.ISC_MSG_LIMIT_GET | FMOP.ISC_MSG_LIMIT_SET
  | FMOP.PSC_ID | FMOP.PSC_PORT | FMOP.PSC_PORT_CTRL | FMOP.PSC_CFG
  | FMOP.VSC_INFO | FMOP.VSC_BIND | FMOP.VSC_UNBIND | FMOP.VSC_AER
  | FMOP.MPC_TMC | FMOP.MPC_CFG | FMOP.MPC_MEM => true
  | _ => false

/-- The opcodes whose case in `fmapi_update` stores response fields into the
cache. -/
def defines_cache_fields (op : FMOP) : Bool :=
  match op with
  | FMOP.ISC_BOS | FMOP.ISC_ID | FMOP.ISC_MSG_LIMIT_GET | FMOP.ISC_MSG_LIMIT_SET
  | FMOP.PSC_ID | FMOP.PSC_PORT | FMOP.PSC_CFG | FMOP.VSC_INFO | FMOP.MPC_CFG => true
  | _ => false

/-- Port `ppid` has an MLD record whose buffer for logical device `ldid` is
allocated. -/
def has_ld_cfgspace (cxls : cxl_switch) (ppid ldid : Nat) : Prop :=
  ∃ m buf, (cxls.ports ppid).mld = some m ∧ m.cfgspace ldid = some buf

/-- The pointers a response makes `fmapi_update` dereference are valid: for
`FMOP_MPC_CFG` the LD config space buffer is allocated and the register index
of the request lies inside it; for a tunnel response the port has an MLD
record, which the device info case allocates itself. -/
def pointers_valid (cxls : cxl_switch) (req : fmapi_req) (rsp : fmapi_rsp) : Prop :=
  match rsp.hdr.opcode with
  | FMOP.MPC_CFG =>
    has_ld_cfgspace cxls req.obj.mpc_cfg_req.ppid req.obj.mpc_cfg_req.ldid ∧
      ((req.obj.mpc_cfg_req.ext <<< 8) ||| req.obj.mpc_cfg_req.reg) < SIZEOF_PCLN_CFG
  | FMOP.MPC_TMC =>
    (cxls.ports req.obj.mpc_tmc_req.ppid).mld.isSome = true ∨
      rsp.obj.mpc_tmc_rsp.msg.hdr.opcode = FMOP.MCC_INFO
  | _ => True

/-- A state transformer `g` is absolute on the observation `ob` when it either
keeps the observed value or sets it to a value that does not depend on the
state. Stores of response fields into the cache are of this kind. -/
def absolute_on {σ γ : Type} (ob : σ → γ) (g : σ → σ) : Prop :=
  (∀ s, ob (g s) = ob s) ∨ (∃ c, ∀ s, ob (g s) = c)

/-! ### Sample data -/

/-- A port with every field zero and no MLD. -/
def cxl_port_zero : cxl_port :=
  { state := 0, dv := 0, dt := 0, cv := 0, mlw := 0, nlw := 0, speeds := 0, mls := 0,
    cls := 0, ltssm := 0, lane := 0, lane_rev := 0, perst := 0, prsnt := 0, pwrctrl := 0,
    ld := 0, cfgspace := fun _ => 0, mld := none }

/-- A virtual switch with every field zero. -/
def cxl_vcs_zero : cxl_vcs :=
  { vcsid := 0, state := 0, uspid := 0, num := 0,
    vppbs := fun _ => { bind_status := 0, ppid := 0, ldid := 0 } }

/-- The cache with every field zero and no MLD on any port. -/
def cxl_switch_zero : cxl_switch :=
  { bos_opcode := 0, bos_rc := 0, bos_running := 0, bos_pcnt := 0, bos_ext := 0,
    vid := 0, did := 0, svid := 0, ssid := 0, sn := 0, max_msg_size_n := 0,
    msg_rsp_limit_n := 0, ingress_port := 0, num_ports := 0, num_vcss := 0,
    num_vppbs := 0, active_vppbs := 0, num_decoders := 0,
    ports := fun _ => cxl_port_zero, vcss := fun _ => cxl_vcs_zero }

/-- A port record with every field zero. -/
def port_info_zero : fmapi_psc_port_info :=
  { ppid := 0, state := 0, dv := 0, dt := 0, cv := 0, mlw := 0, nlw := 0, speeds := 0,
    mls := 0, cls := 0, ltssm := 0, lane := 0, lane_rev := 0, perst := 0, prsnt := 0,
    pwrctrl := 0, num_ld := 0 }

/-- A tunneled object with every field zero. -/
def cci_obj_zero : cci_obj :=
  { mcc_info_rsp := { size := 0, num := 0, epc := 0, ttr := 0 },
    mcc_alloc_get_rsp :=
      { total := 0, granularity := 0, start := 0, num := 0,
        list := fun _ => { rng1 := 0, rng2 := 0 } },
    mcc_alloc_set_rsp := { num := 0, start := 0, list := fun _ => { rng1 := 0, rng2 := 0 } },
    mcc_qos_ctrl :=
      { epc_en := 0, ttr_en := 0, egress_mod_pcnt := 0, egress_sev_pcnt := 0,
        sample_interval := 0, rcb := 0, comp_interval := 0 },
    mcc_qos_stat_rsp := { bp_avg_pcnt := 0 },
    mcc_qos_bw_alloc := { num := 0, start := 0, list := fun _ => 0 },
    mcc_qos_bw_limit := { num := 0, start := 0, list := fun _ => 0 } }

/-- A successful response header with the given opcode. -/
def rsp_hdr (op : FMOP) (rc : Nat) : fmapi_hdr :=
  { category := FMMT.RESP, opcode := op, return_code := rc, len := 0 }

/-- A response object with every field zero: the tunneled message is a
successful response with opcode `FMOP_MCC_INFO`, and the tunnel tag is
`MCMT_CXLCCI`. -/
def rsp_obj_zero : fmapi_rsp_obj :=
  { isc_bos := { running := 0, pcnt := 0, opcode := 0, rc := 0, ext := 0 },
    isc_id_rsp := { vid := 0, did := 0, svid := 0, ssid := 0, sn := 0, size := 0 },
    isc_msg_limit := { limit := 0 },
    psc_id_rsp :=
      { ingress_port := 0, num_ports := 0, num_vcss := 0, num_vppbs := 0, active_vppbs := 0,
        num_decoders := 0, active_ports := fun _ => 0, active_vcss := fun _ => 0 },
    psc_port_rsp := { num := 0, list := fun _ => port_info_zero },
    psc_cfg_rsp := { data := fun _ => 0 },
    vsc_info_rsp :=
      { num := 0,
        list := fun _ =>
          { vcsid := 0, state := 0, uspid := 0, num := 0,
            list := fun _ => { status := 0, ppid := 0, ldid := 0 } } },
    mpc_tmc_rsp :=
      { type := MCMT.CXLCCI,
        msg := { hdr := rsp_hdr FMOP.MCC_INFO FMRC_SUCCESS, obj := cci_obj_zero } },
    mpc_cfg_rsp := { data := fun _ => 0 },
    mpc_mem_rsp := { len := 0, data := fun _ => 0 } }

/-- A request object with every field zero. -/
def req_obj_zero : fmapi_req_obj :=
  { psc_cfg_req := { ppid := 0, reg := 0, ext := 0, fdbe := 0, type := 0 },
    mpc_cfg_req := { ppid := 0, ldid := 0, reg := 0, ext := 0, fdbe := 0, type := 0 },
    mpc_tmc_req := { ppid := 0 } }

/-- A request with the given opcode and every object field zero. -/
def req_zero (op : FMOP) : fmapi_req :=
  { hdr := { category := FMMT.REQ, opcode := op, return_code := 0, len := 0 },
    obj := req_obj_zero }

/-- A response with the given header and every object field zero. -/
def rsp_zero (hdr : fmapi_hdr) : fmapi_rsp :=
  { hdr := hdr, obj := rsp_obj_zero }

/-- A tunnel response whose inner message carries the tag of the FM API
message type instead of `MCMT_CXLCCI`. -/
def rsp_tunnel_mismatch : fmapi_rsp :=
  { hdr := rsp_hdr FMOP.MPC_TMC FMRC_SUCCESS,
    obj := { rsp_obj_zero with
      mpc_tmc_rsp := { rsp_obj_zero.mpc_tmc_rsp with type := MCMT.CXLFMAPI } } }

/-- A port state response with one record, of port 3, at index 0. -/
def rsp_one_port : fmapi_rsp :=
  { hdr := rsp_hdr FMOP.PSC_PORT FMRC_SUCCESS,
    obj := { rsp_obj_zero with
      psc_port_rsp :=
        { num := 1, list := fun _ => { port_info_zero with ppid := 3, state := 2, prsnt := 1 } } } }

/-- A port state message whose header category is REQUEST. -/
def rsp_not_response : fmapi_rsp :=
  { rsp_one_port with hdr := { rsp_hdr FMOP.PSC_PORT FMRC_SUCCESS with category := FMMT.REQ } }

/-- A tunneled device info message whose header category is REQUEST. -/
def cci_msg_not_response : cci_msg :=
  { hdr := { rsp_hdr FMOP.MCC_INFO FMRC_SUCCESS with category := FMMT.REQ },
    obj := { cci_obj_zero with mcc_info_rsp := { size := 0, num := 8, epc := 0, ttr := 0 } } }

/-- A tunnel response that carries `cci_msg_not_response`. -/
def rsp_tunnel_not_response : fmapi_rsp :=
  { hdr := rsp_hdr FMOP.MPC_TMC FMRC_SUCCESS,
    obj := { rsp_obj_zero with
      mpc_tmc_rsp := { type := MCMT.CXLCCI, msg := cci_msg_not_response } } }

/-- The request `show ld info` of port 4: a tunnel management command. -/
def req_ld_info_4 : fmapi_req :=
  { hdr := { category := FMMT.REQ, opcode := FMOP.MPC_TMC, return_code := 0, len := 0 },
    obj := { req_obj_zero with mpc_tmc_req := { ppid := 4 } } }

/-- A tunneled device info response that reports 8 logical devices. -/
def rsp_ld_info_8 : fmapi_rsp :=
  { hdr := rsp_hdr FMOP.MPC_TMC FMRC_SUCCESS,
    obj := { rsp_obj_zero with
      mpc_tmc_rsp :=
        { type := MCMT.CXLCCI,
          msg :=
            { hdr := rsp_hdr FMOP.MCC_INFO FMRC_SUCCESS,
              obj := { cci_obj_zero with
                mcc_info_rsp := { size := 0, num := 8, epc := 0, ttr := 0 } } } } } }

/-! ### The decoding steps of the handlers -/

/-- Object kind tags [FMOB] handed to `fmapi_deserialize`: the header, or the
value of `fmapi_fmob_req` or of `fmapi_fmob_rsp` at an opcode. -/
inductive FMOB where
  | HDR
  | req (op : FMOP)
  | rsp (op : FMOP)
deriving DecidableEq, Repr

/-- One call of `fmapi_deserialize`: the kind tag, and the request object
passed as decode context (`none` is NULL). -/
structure deserialize_call where
  kind : FMOB
  context : Option fmapi_req_obj
deriving DecidableEq, Repr

/-- The calls of `fmapi_deserialize` in `fmapi_handler` and in `fmapi_update`
(steps 2, 3, 4 and 6, the same in both): request header, request object with
the kind of the request opcode, response header, and, when the two checks
pass, the response object with the kind of `rsp.hdr.opcode` and the request
object as context. -/
def fmapi_deserialize_calls (req : fmapi_req) (rsp : fmapi_rsp) : List deserialize_call :=
  [{ kind := FMOB.HDR, context := none },
   { kind := FMOB.req req.hdr.opcode, context := none },
   { kind := FMOB.HDR, context := none }] ++
    (if rsp.hdr.category ≠ FMMT.RESP then []
     else if rsp.hdr.return_code ≠ FMRC_SUCCESS ∧
         rsp.hdr.return_code ≠ FMRC_BACKGROUND_OP_STARTED then []
     else [{ kind := FMOB.rsp rsp.hdr.opcode, context := some req.obj }])

/-- The port state response `rsp_one_port` with the header opcode replaced by
`FMOP_VSC_BIND`. -/
def rsp_one_port_as_bind : fmapi_rsp :=
  { rsp_one_port with hdr := rsp_hdr FMOP.VSC_BIND FMRC_SUCCESS }


/-- A port config space read of port 0, register 0, all four bytes enabled. -/
def req_psc_cfg_read : fmapi_req :=
  { hdr := { category := FMMT.REQ, opcode := FMOP.PSC_CFG, return_code := 0, len := 0 },
    obj := { req_obj_zero with
      psc_cfg_req := { ppid := 0, reg := 0, ext := 0, fdbe := 0xF, type := FMCT_READ } } }

/-- The response to it, with the data bytes 0x11, 0x22, 0x33, 0x44. -/
def rsp_psc_cfg_data : fmapi_rsp :=
  { hdr := rsp_hdr FMOP.PSC_CFG FMRC_SUCCESS,
    obj := { rsp_obj_zero with
      psc_cfg_rsp := { data := fun k => 0x11 * (k + 1) } } }

/-- An LD config space read of port 4, logical device 0, register 0, all four
bytes enabled. -/
def req_mpc_cfg_read : fmapi_req :=
  { hdr := { category := FMMT.REQ, opcode := FMOP.MPC_CFG, return_code := 0, len := 0 },
    obj := { req_obj_zero with
      mpc_cfg_req :=
        { ppid := 4, ldid := 0, reg := 0, ext := 0, fdbe := 0xF, type := FMCT_READ } } }

/-- The response to it, with the data bytes 0x11, 0x22, 0x33, 0x44. -/
def rsp_mpc_cfg_data : fmapi_rsp :=
  { hdr := rsp_hdr FMOP.MPC_CFG FMRC_SUCCESS,
    obj := { rsp_obj_zero with
      mpc_cfg_rsp := { data := fun k => 0x11 * (k + 1) } } }

/-- A port config space write of port 0. -/
def req_psc_cfg_write : fmapi_req :=
  { hdr := { category := FMMT.REQ, opcode := FMOP.PSC_CFG, return_code := 0, len := 0 },
    obj := { req_obj_zero with
      psc_cfg_req := { ppid := 0, reg := 0, ext := 0, fdbe := 0xF, type := FMCT_WRITE } } }


/-! ### Sequences of responses -/

/-- Device type [FMDT] of a multi-logical device, as `fmapi.h` numbers it. -/
def FMDT_CXL_TYPE_3_POOLED : Nat := 5

/-- Apply the responses of a list of actions to the cache with `fmapi_update`,
in order; each action is the decoded request and response. -/
def apply_all (cxls : cxl_switch) : List (fmapi_req × fmapi_rsp) → Option cxl_switch
  | [] => some cxls
  | x :: l =>
    match fmapi_update cxls x.1 x.2 with
    | none => none
    | some r => apply_all r.cxls l

/-- The action is a device info response applied for port `ppid`: a tunnel
response that passes the checks of `fmapi_update` and of `cci_update`, whose
tunneled opcode is `FMOP_MCC_INFO` and whose request names port `ppid`. -/
def is_device_info (ppid : Nat) (x : fmapi_req × fmapi_rsp) : Prop :=
  x.2.hdr.category = FMMT.RESP ∧
    (x.2.hdr.return_code = FMRC_SUCCESS ∨
      x.2.hdr.return_code = FMRC_BACKGROUND_OP_STARTED) ∧
    x.2.hdr.opcode = FMOP.MPC_TMC ∧
    x.2.obj.mpc_tmc_rsp.type = MCMT.CXLCCI ∧
    x.2.obj.mpc_tmc_rsp.msg.hdr.category = FMMT.RESP ∧
    (x.2.obj.mpc_tmc_rsp.msg.hdr.return_code = FMRC_SUCCESS ∨
      x.2.obj.mpc_tmc_rsp.msg.hdr.return_code = FMRC_BACKGROUND_OP_STARTED) ∧
    x.2.obj.mpc_tmc_rsp.msg.hdr.opcode = FMOP.MCC_INFO ∧
    x.1.obj.mpc_tmc_req.ppid = ppid

instance is_device_info.decidable (ppid : Nat) (x : fmapi_req × fmapi_rsp) :
    Decidable (is_device_info ppid x) := by
  unfold is_device_info
  infer_instance


/-! ### Indices of the per-LD arrays -/

/-- The first index `o->start` and the length `o->num` of the list that the
case of `cci_update` for the opcode of `msg` copies into the per-LD arrays;
`(0, 0)` for the cases without such a loop. -/
def cci_ld_range (msg : cci_msg) : Nat × Nat :=
  match msg.hdr.opcode with
  | FMOP.MCC_ALLOC_GET => (msg.obj.mcc_alloc_get_rsp.start, msg.obj.mcc_alloc_get_rsp.num)
  | FMOP.MCC_ALLOC_SET => (msg.obj.mcc_alloc_set_rsp.start, msg.obj.mcc_alloc_set_rsp.num)
  | FMOP.MCC_QOS_BW_ALLOC_GET | FMOP.MCC_QOS_BW_ALLOC_SET =>
    (msg.obj.mcc_qos_bw_alloc.start, msg.obj.mcc_qos_bw_alloc.num)
  | FMOP.MCC_QOS_BW_LIMIT_GET | FMOP.MCC_QOS_BW_LIMIT_SET =>
    (msg.obj.mcc_qos_bw_limit.start, msg.obj.mcc_qos_bw_limit.num)
  | _ => (0, 0)

/-- The indices `i + o->start` for `i < o->num` that the loops of `cci_update`
use on `rng1`, `rng2`, `alloc_bw` and `bw_limit`, in the order of the loop. -/
def cci_ld_indices (msg : cci_msg) : List Nat :=
  (List.range (cci_ld_range msg).2).map (fun i => i + (cci_ld_range msg).1)

/-- A tunneled bandwidth allocation response with one entry, for logical
device 10. -/
def rsp_bw_alloc_10 : fmapi_rsp :=
  { hdr := rsp_hdr FMOP.MPC_TMC FMRC_SUCCESS,
    obj := { rsp_obj_zero with
      mpc_tmc_rsp :=
        { type := MCMT.CXLCCI,
          msg :=
            { hdr := rsp_hdr FMOP.MCC_QOS_BW_ALLOC_GET FMRC_SUCCESS,
              obj := { cci_obj_zero with
                mcc_qos_bw_alloc := { num := 1, start := 10, list := fun _ => 0x55 } } } } } }

/-- A tunneled device info response that reports 2 logical devices. -/
def rsp_ld_info_2 : fmapi_rsp :=
  { hdr := rsp_hdr FMOP.MPC_TMC FMRC_SUCCESS,
    obj := { rsp_obj_zero with
      mpc_tmc_rsp :=
        { type := MCMT.CXLCCI,
          msg :=
            { hdr := rsp_hdr FMOP.MCC_INFO FMRC_SUCCESS,
              obj := { cci_obj_zero with
                mcc_info_rsp := { size := 0, num := 2, epc := 0, ttr := 0 } } } } } }

/-- An LD config space read of port 4, logical device 5, register 0, all four
bytes enabled. -/
def req_mpc_cfg_read_ld5 : fmapi_req :=
  { hdr := { category := FMMT.REQ, opcode := FMOP.MPC_CFG, return_code := 0, len := 0 },
    obj := { req_obj_zero with
      mpc_cfg_req :=
        { ppid := 4, ldid := 5, reg := 0, ext := 0, fdbe := 0xF, type := FMCT_READ } } }


/-- What a case of `cci_update` other than device info does to the per-LD
arrays of the MLD record `m`, giving `m1`: `num` is kept, no index outside
`cci_ld_indices` changes, and entry `i` of the list of the response is at
index `i + start` of the arrays of its opcode. -/
def cci_ld_effect (msg : cci_msg) (m m1 : cxl_mld) : Prop :=
  m1.num = m.num ∧
    (∀ j, j ∉ cci_ld_indices msg →
      m1.rng1 j = m.rng1 j ∧ m1.rng2 j = m.rng2 j ∧
        m1.alloc_bw j = m.alloc_bw j ∧ m1.bw_limit j = m.bw_limit j) ∧
    (msg.hdr.opcode = FMOP.MCC_ALLOC_GET →
      ∀ i, i < msg.obj.mcc_alloc_get_rsp.num →
        m1.rng1 (i + msg.obj.mcc_alloc_get_rsp.start) =
            (msg.obj.mcc_alloc_get_rsp.list i).rng1 ∧
          m1.rng2 (i + msg.obj.mcc_alloc_get_rsp.start) =
            (msg.obj.mcc_alloc_get_rsp.list i).rng2) ∧
    (msg.hdr.opcode = FMOP.MCC_ALLOC_SET →
      ∀ i, i < msg.obj.mcc_alloc_set_rsp.num →
        m1.rng1 (i + msg.obj.mcc_alloc_set_rsp.start) =
            (msg.obj.mcc_alloc_set_rsp.list i).rng1 ∧
          m1.rng2 (i + msg.obj.mcc_alloc_set_rsp.start) =
            (msg.obj.mcc_alloc_set_rsp.list i).rng2) ∧
    (msg.hdr.opcode = FMOP.MCC_QOS_BW_ALLOC_GET ∨
        msg.hdr.opcode = FMOP.MCC_QOS_BW_ALLOC_SET →
      ∀ i, i < msg.obj.mcc_qos_bw_alloc.num →
        m1.alloc_bw (i + msg.obj.mcc_qos_bw_alloc.start) = msg.obj.mcc_qos_bw_alloc.list i) ∧
    (msg.hdr.opcode = FMOP.MCC_QOS_BW_LIMIT_GET ∨
        msg.hdr.opcode = FMOP.MCC_QOS_BW_LIMIT_SET →
      ∀ i, i < msg.obj.mcc_qos_bw_limit.num →
        m1.bw_limit (i + msg.obj.mcc_qos_bw_limit.start) = msg.obj.mcc_qos_bw_limit.list i)


/-- The zero cache after a device info response for port 4 that reports 8
logical devices. -/
def cxl_switch_mld8 : cxl_switch :=
  cci_update_info cxl_switch_zero 4 { size := 0, num := 8, epc := 0, ttr := 0 }

/-- The MLD record of port 4 in `cxl_switch_mld8`. -/
def cxl_mld8 : cxl_mld :=
  { cxl_mld_calloc with num := 8, cfgspace := alloc_cfgspace 8 cxl_mld_calloc.cfgspace }


/-- The option array with only the command set. -/
def opts_cmd (cmd : Int) : CLOP → opt :=
  fun k => if k = CLOP.CMD then { opt_zero with set := 1, val := cmd } else opt_zero

/-- The option array with the command and one more option. -/
def opts_cmd_with (cmd : Int) (j : CLOP) (o : opt) : CLOP → opt :=
  fun k =>
    if k = CLOP.CMD then { opt_zero with set := 1, val := cmd }
    else if k = j then o
    else opt_zero


/-! ### options.c: the last call of the command parsers -/

/-- Size of the buffer for the input file of `ld mem` (`options.h`). -/
def CLMR_MAX_LD_MEM_LEN : Nat := 4096

/-- The `ARGP_KEY_END` block of the parser of the command in
`opts[CLOP_CMD].val` (every command parser stores its command on each call):
"Last call. Verify parameters. Fill in missing values". The result is `none`
when the block ends the process (`print_help` and `exit`, or `argp_error`),
and the option array it leaves otherwise. `file` is the content of the input
file of `ld mem` as `fopen` and `fread` deliver it, `none` when the file cannot
be opened or the buffer cannot be allocated. -/
def key_end (file : Option (List Nat)) (opts : CLOP → opt) : Option (CLOP → opt) :=
  let unset (k : CLOP) : Prop := (opts k).set = 0
  let need_ppid : Option (CLOP → opt) := if unset CLOP.PPID then none else some opts
  match (opts CLOP.CMD).val with
  | CLCM_AER =>
    if unset CLOP.VCSID ∨ unset CLOP.VPPBID ∨ unset CLOP.AER_ERROR ∨ unset CLOP.AER_HEADER
    then none else some opts
  | CLCM_SHOW_DEV =>
    if unset CLOP.DEVICE then
      some (Function.update opts CLOP.ALL { opts CLOP.ALL with set := 1 })
    else some opts
  | CLCM_SHOW_PORT =>
    if unset CLOP.PPID then
      some (Function.update opts CLOP.ALL { opts CLOP.ALL with set := 1 })
    else some opts
  | CLCM_SHOW_VCS =>
    if unset CLOP.VCSID then
      some (Function.update opts CLOP.ALL { opts CLOP.ALL with set := 1 })
    else some opts
  | CLCM_PORT_BIND =>
    if unset CLOP.VCSID ∨ unset CLOP.PPID ∨ unset CLOP.VPPBID then none else some opts
  | CLCM_PORT_UNBIND =>
    if unset CLOP.VCSID ∨ unset CLOP.VPPBID then none
    else if unset CLOP.UNBIND_MODE then
      some (Function.update opts CLOP.UNBIND_MODE
        { opts CLOP.UNBIND_MODE with set := 1, val := CLPU_SURPRISE })
    else some opts
  | CLCM_PORT_CONFIG => need_ppid
  | CLCM_PORT_CONN => need_ppid
  | CLCM_PORT_DISCONN => if unset CLOP.PPID ∧ unset CLOP.ALL then none else some opts
  | CLCM_PORT_CTRL =>
    if unset CLOP.PPID then none
    else if unset CLOP.PORT_CONTROL then
      some (Function.update opts CLOP.PORT_CONTROL
        { opts CLOP.PORT_CONTROL with set := 1, val := CLPC_RESET })
    else some opts
  | CLCM_LD_CONFIG => need_ppid
  | CLCM_LD_MEM =>
    if unset CLOP.PPID ∨ unset CLOP.LEN then none
    else if (opts CLOP.LEN).len = 0 then none
    else if (opts CLOP.INFILE).set ≠ 0 then
      match file with
      | none => none
      | some bytes =>
        let rv := min bytes.length CLMR_MAX_LD_MEM_LEN
        if rv = 0 then none
        else
          some (Function.update opts CLOP.INFILE
            { opts CLOP.INFILE with
              buf := some (bytes.take rv ++ List.replicate (CLMR_MAX_LD_MEM_LEN - rv) 0)
              len := rv })
    else some opts
  | CLCM_SHOW_QOS_ALLOCATED => need_ppid
  | CLCM_SHOW_QOS_CONTROL => need_ppid
  | CLCM_SHOW_QOS_LIMIT => need_ppid
  | CLCM_SHOW_QOS_STATUS => need_ppid
  | CLCM_SHOW_LD_ALLOCATIONS => need_ppid
  | CLCM_SHOW_LD_INFO => need_ppid
  | CLCM_SET_LD_ALLOCATIONS =>
    if unset CLOP.LD_RNG1 ∨ unset CLOP.LD_RNG2 then none else need_ppid
  | CLCM_SET_MSG_LIMIT => if unset CLOP.LIMIT then none else some opts
  | CLCM_SET_QOS_ALLOCATED => if unset CLOP.QOS_ALLOCATED then none else need_ppid
  | CLCM_SET_QOS_CONTROL => need_ppid
  | CLCM_SET_QOS_LIMIT => if unset CLOP.QOS_LIMIT then none else need_ppid
  | _ => some opts

/-- The option array of `port bind` with virtual switch 1, port 2 and
vPPB 3. -/
def opts_bind : CLOP → opt :=
  fun k =>
    if k = CLOP.CMD then { opt_zero with set := 1, val := CLCM_PORT_BIND }
    else if k = CLOP.VCSID then { opt_zero with set := 1, u8 := 1 }
    else if k = CLOP.PPID then { opt_zero with set := 1, u8 := 2 }
    else if k = CLOP.VPPBID then { opt_zero with set := 1, u8 := 3 }
    else opt_zero


/-- The fill calls that `submit_cli_request` makes on its local `sub`, the
message that `fmapi_fill_mpc_tmc` then takes as its last argument. -/
def writes_sub : lib_call → Bool
  | lib_call.fmapi_fill_mcc_set_alloc _ _ _ _ => true
  | lib_call.fmapi_fill_mcc_set_qos_alloc _ _ _ => true
  | lib_call.fmapi_fill_mcc_set_qos_ctrl _ _ _ _ _ _ _ => true
  | lib_call.fmapi_fill_mcc_set_qos_limit _ _ _ => true
  | lib_call.fmapi_fill_mcc_get_alloc _ _ => true
  | lib_call.fmapi_fill_mcc_get_info => true
  | lib_call.fmapi_fill_mcc_get_qos_alloc _ _ => true
  | lib_call.fmapi_fill_mcc_get_qos_ctrl => true
  | lib_call.fmapi_fill_mcc_get_qos_limit _ _ => true
  | lib_call.fmapi_fill_mcc_get_qos_status => true
  | _ => false

/-- The commands of `submit_cli_request` that address a multi-logical device. -/
def is_mld_command (cmd : Int) : Bool :=
  decide (cmd = CLCM_SET_LD_ALLOCATIONS ∨ cmd = CLCM_SET_QOS_ALLOCATED ∨
    cmd = CLCM_SET_QOS_CONTROL ∨ cmd = CLCM_SET_QOS_LIMIT ∨
    cmd = CLCM_SHOW_LD_ALLOCATIONS ∨ cmd = CLCM_SHOW_LD_INFO ∨
    cmd = CLCM_SHOW_QOS_ALLOCATED ∨ cmd = CLCM_SHOW_QOS_CONTROL ∨
    cmd = CLCM_SHOW_QOS_LIMIT ∨ cmd = CLCM_SHOW_QOS_STATUS)


/-! ### cmd_encoder.c: the submit functions -/

/-- Seconds of the command timeout handed to `mctp_submit`. -/
def JKLN_CMD_TIMEOUT_SEC : Nat := 10

/-- Nanoseconds of the command timeout handed to `mctp_submit`. -/
def JKLN_CMD_TIMEOUT_NSEC : Nat := 0

/-- The functions and the constant of the FM API library that `submit_fmapi`
uses, for message objects of type `Obj`: the byte count `fmapi_serialize`
returns for an object and a kind tag, the header `fmapi_fill_hdr` leaves for
the arguments (category, tag, opcode, background, len, rc, ext), and the
length `FMLN_HDR` of a serialized header. -/
structure fmapi_library (Obj : Type) where
  fmapi_serialize : Obj → FMOB → Nat
  fmapi_fill_hdr : fmapi_hdr → FMMT → Nat → FMOP → Nat → Nat → Nat → Nat → fmapi_hdr
  FMLN_HDR : Nat

/-- The local `buf` of `submit_fmapi` when it is handed to `mctp_submit`:
`hdr` is the header serialized with `FMOB_HDR`, `payload` the object
serialized with the kind tag `kind`. -/
structure fmapi_buf (Obj : Type) where
  hdr : fmapi_hdr
  payload : Obj
  kind : FMOB

/-- The arguments of a call of `mctp_submit`: message type, buffer, length,
retry count and the timeout `delta`. -/
structure mctp_submit_call (Buf : Type) where
  type : MCMT
  buf : Buf
  len : Nat
  retry : Int
  tv_sec : Nat
  tv_nsec : Nat

/-- `submit_fmapi(m, msg, retry, ...)` with `msg = {hdr, obj}`: the call of
`mctp_submit` it ends in. -/
def submit_fmapi {Obj : Type} (lib : fmapi_library Obj) (hdr : fmapi_hdr) (obj : Obj)
    (retry : Int) : mctp_submit_call (fmapi_buf Obj) :=
  let kind := FMOB.req hdr.opcode
  let len := lib.fmapi_serialize obj kind
  let hdr1 := lib.fmapi_fill_hdr hdr FMMT.REQ 0 hdr.opcode 0 len 0 0
  { type := MCMT.CXLFMAPI
    buf := { hdr := hdr1, payload := obj, kind := kind }
    len := hdr1.len + lib.FMLN_HDR
    retry := retry
    tv_sec := JKLN_CMD_TIMEOUT_SEC
    tv_nsec := JKLN_CMD_TIMEOUT_NSEC }

/-- Emulator API message types [EMMT]. -/
inductive EMMT where
  | REQ
  | RSP
  | other (n : Nat)
deriving DecidableEq, Repr

/-- Emulator API object kind tags [EMOB]: the header, or the value of
`emapi_emob_req` at an opcode. -/
inductive EMOB where
  | HDR
  | req (opcode : Nat)
deriving DecidableEq, Repr

/-- Emulator API header (`struct emapi_hdr`), the fields the sources use. -/
structure emapi_hdr where
  type : EMMT
  opcode : Nat
  rc : Nat
  len : Nat
  a : Nat
  b : Nat
deriving DecidableEq, Repr

/-- The functions and the constant of the Emulator API library that
`submit_emapi` uses: the byte count `emapi_serialize` returns, the header
`emapi_fill_hdr` leaves for its seven arguments after the header, and the
length `EMLN_HDR` of a serialized header. -/
structure emapi_library (Obj : Type) where
  emapi_serialize : Obj → EMOB → Nat
  emapi_fill_hdr : emapi_hdr → EMMT → Nat → Nat → Nat → Nat → Nat → Nat → emapi_hdr
  EMLN_HDR : Nat

/-- The local `buf` of `submit_emapi` when it is handed to `mctp_submit`. -/
structure emapi_buf (Obj : Type) where
  hdr : emapi_hdr
  payload : Obj
  kind : EMOB

/-- `submit_emapi(m, msg, retry, ...)` with `msg = {hdr, obj}`: the call of
`mctp_submit` it ends in. -/
def submit_emapi {Obj : Type} (lib : emapi_library Obj) (hdr : emapi_hdr) (obj : Obj)
    (retry : Int) : mctp_submit_call (emapi_buf Obj) :=
  let kind := EMOB.req hdr.opcode
  let len := lib.emapi_serialize obj kind
  let hdr1 := lib.emapi_fill_hdr hdr EMMT.REQ 0 0 hdr.opcode len hdr.a hdr.b
  { type := MCMT.CSE
    buf := { hdr := hdr1, payload := obj, kind := kind }
    len := hdr1.len + lib.EMLN_HDR
    retry := retry
    tv_sec := JKLN_CMD_TIMEOUT_SEC
    tv_nsec := JKLN_CMD_TIMEOUT_NSEC }

/-- MCTP control header (`struct mctp_ctrl_hdr`), the fields the sources
use. -/
structure mctp_ctrl_hdr where
  req : Nat
  datagram : Nat
  inst : Nat
  cmd : Nat
deriving DecidableEq, Repr

/-- MCTP control message (`struct mctp_ctrl_msg`). -/
structure mctp_ctrl_msg (Obj : Type) where
  hdr : mctp_ctrl_hdr
  obj : Obj
  len : Nat

/-- `submit_ctrl(m, msg, retry, ...)`: the call of `mctp_submit` it ends in;
the buffer is the message itself, with the header fields and the length it has
stored. `mctp_len_ctrl` and `MCLN_CTRL` are of the MCTP library. -/
def submit_ctrl {Obj : Type} (mctp_len_ctrl : mctp_ctrl_hdr → Nat) (MCLN_CTRL : Nat)
    (msg : mctp_ctrl_msg Obj) (retry : Int) : mctp_submit_call (mctp_ctrl_msg Obj) :=
  let hdr := { msg.hdr with req := 1, datagram := 0, inst := 0 }
  let msg := { msg with hdr := hdr, len := mctp_len_ctrl hdr }
  { type := MCMT.CONTROL
    buf := msg
    len := msg.len + MCLN_CTRL
    retry := retry
    tv_sec := JKLN_CMD_TIMEOUT_SEC
    tv_nsec := JKLN_CMD_TIMEOUT_NSEC }

/-- A sample FM API library: `fmapi_fill_hdr` stores its arguments, the byte
count of a serialized object is 4 plus its tunnel port id (an arbitrary
choice), and a header has 12 bytes. -/
def fmapi_library_sample : fmapi_library fmapi_req_obj :=
  { fmapi_serialize := fun o _ => o.mpc_tmc_req.ppid + 4
    fmapi_fill_hdr := fun _ c _ o _ l r _ =>
      { category := c, opcode := o, return_code := r, len := l }
    FMLN_HDR := 12 }

/-- A sample Emulator API library: `emapi_fill_hdr` stores its arguments. -/
def emapi_library_sample : emapi_library Nat :=
  { emapi_serialize := fun o _ => o
    emapi_fill_hdr := fun _ t _ r o l a b =>
      { type := t, opcode := o, rc := r, len := l, a := a, b := b }
    EMLN_HDR := 12 }


/-- A tunnel response whose outer header reports SUCCESS and whose tunneled
device info message carries the return code 2. -/
def rsp_tunnel_inner_error : fmapi_rsp :=
  { hdr := rsp_hdr FMOP.MPC_TMC FMRC_SUCCESS,
    obj := { rsp_obj_zero with
      mpc_tmc_rsp :=
        { type := MCMT.CXLCCI,
          msg := { hdr := rsp_hdr FMOP.MCC_INFO 2, obj := cci_obj_zero } } } }


/-! ### Lock discipline -/

/-- A sequence of calls respects the lock, starting with the lock held `held`
times by the caller: `pthread_mutex_unlock` is only called while the lock is
held, and at the end every acquisition has been released. -/
def lock_balanced : List sys_call → Nat → Bool
  | [], held => held == 0
  | sys_call.pthread_mutex_lock :: l, held => lock_balanced l (held + 1)
  | sys_call.pthread_mutex_unlock :: l, held => decide (0 < held) && lock_balanced l (held - 1)
  | sys_call.mctp_retire :: l, held => lock_balanced l held


/-! ## emapi_handler.c and ctrl_handler.c -/

/-- Emulator API return code `EMRC_SUCCESS`. -/
def EMRC_SUCCESS : Nat := 0

/-- Emulator API return code `EMRC_BACKGROUND_OP_STARTED`. -/
def EMRC_BACKGROUND_OP_STARTED : Nat := 1

/-- Emulator API opcode `EMOP_EVENT` (0x00). -/
def EMOP_EVENT : Nat := 0

/-- Emulator API opcode `EMOP_LIST_DEV` (0x01). -/
def EMOP_LIST_DEV : Nat := 1

/-- Emulator API opcode `EMOP_CONN_DEV` (0x02). -/
def EMOP_CONN_DEV : Nat := 2

/-- Emulator API opcode `EMOP_DISCON_DEV` (0x03). -/
def EMOP_DISCON_DEV : Nat := 3

/-- One entry of the device list of an Emulator API response. -/
structure emapi_dev where
  id : Nat
  name : List Char
deriving DecidableEq, Repr

/-- An Emulator API message as `emapi_handler` decodes it: the value that
`emapi_deserialize` returns for the header (0 when it fails), the header, and
the device list of the payload. -/
structure emapi_rsp where
  hdr_len : Nat
  hdr : emapi_hdr
  dev : Nat → emapi_dev

/-- What `emapi_handler` prints. -/
inductive em_printed where
  | error_rc (rc : Nat)
  | dev (id : Nat) (name : List Char)
deriving DecidableEq, Repr

/-- Result of `emapi_handler`: the return value, what is printed, and the
message buffers pushed on the free pool `m->msgs`. -/
structure emapi_handler_result where
  rv : Nat
  out : List em_printed
  pushed : List mctp_msg_ref
deriving DecidableEq, Repr

/-- `emapi_handler(m, mm)` on the decoded message. `rv` starts at 1; the label
`end` pushes `mm`. -/
def emapi_handler (mm : mctp_msg_ref) (msg : emapi_rsp) : emapi_handler_result :=
  if msg.hdr_len = 0 then { rv := 1, out := [], pushed := [mm] }
  else if msg.hdr.type ≠ EMMT.RSP then { rv := 1, out := [], pushed := [mm] }
  else if msg.hdr.rc ≠ EMRC_SUCCESS ∧ msg.hdr.rc ≠ EMRC_BACKGROUND_OP_STARTED then
    { rv := msg.hdr.rc, out := [em_printed.error_rc msg.hdr.rc], pushed := [mm] }
  else if msg.hdr.opcode = EMOP_EVENT then { rv := 0, out := [], pushed := [mm] }
  else if msg.hdr.opcode = EMOP_LIST_DEV then
    { rv := 0,
      out := (List.range msg.hdr.a).map
        (fun i => em_printed.dev (msg.dev i).id (msg.dev i).name),
      pushed := [mm] }
  else if msg.hdr.opcode = EMOP_CONN_DEV then { rv := 0, out := [], pushed := [mm] }
  else if msg.hdr.opcode = EMOP_DISCON_DEV then { rv := 0, out := [], pushed := [mm] }
  else { rv := 1, out := [], pushed := [mm] }

/-- MCTP control completion code `MCCC_SUCCESS`. -/
def MCCC_SUCCESS : Nat := 0

/-- MCTP control command codes [MCCM] with a printing case in `ctrl_handler`,
as DSP0236 numbers them. -/
def MCCM_RESERVED : Nat := 0

/-- MCTP control command Set Endpoint ID. -/
def MCCM_SET_ENDPOINT_ID : Nat := 1

/-- MCTP control command Get Endpoint ID. -/
def MCCM_GET_ENDPOINT_ID : Nat := 2

/-- MCTP control command Get Endpoint UUID. -/
def MCCM_GET_ENDPOINT_UUID : Nat := 3

/-- MCTP control command Get MCTP Version Support. -/
def MCCM_GET_VERSION_SUPPORT : Nat := 4

/-- MCTP control command Get Message Type Support. -/
def MCCM_GET_MESSAGE_TYPE_SUPPORT : Nat := 5

/-- The object union of an MCTP control response, one field for each member
that `ctrl_handler` reads. -/
structure mctp_ctrl_obj where
  comp_code : Nat
  set_eid_rsp_eid : Nat
  get_eid_rsp_eid : Nat
  uuid : List Nat
  ver_count : Nat
  versions : Nat → Nat
  type_count : Nat
  list : Nat → Nat

/-- What `ctrl_handler` prints. -/
inductive ctrl_printed where
  | failed (cmd comp_code : Nat)
  | eid (eid : Nat)
  | uuid (uuid : List Nat)
  | version (i ver : Nat)
  | msg_type (i type : Nat)
deriving DecidableEq, Repr

/-- Result of `ctrl_handler`. -/
structure ctrl_handler_result where
  rv : Nat
  out : List ctrl_printed
  pushed : List mctp_msg_ref
deriving DecidableEq, Repr

/-- `ctrl_handler(m, mm)` on the message in `mm->payload`. `rv` starts at 1;
the value of `mctp_sprnt_ver` stored in `rv` is overwritten by `rv = 0` after
the `switch`; the label `end` pushes `mm`. -/
def ctrl_handler (mm : mctp_msg_ref) (msg : mctp_ctrl_msg mctp_ctrl_obj) :
    ctrl_handler_result :=
  if msg.obj.comp_code ≠ MCCC_SUCCESS then
    { rv := 1, out := [ctrl_printed.failed msg.hdr.cmd msg.obj.comp_code], pushed := [mm] }
  else if msg.hdr.cmd = MCCM_RESERVED then { rv := 0, out := [], pushed := [mm] }
  else if msg.hdr.cmd = MCCM_SET_ENDPOINT_ID then
    { rv := 0, out := [ctrl_printed.eid msg.obj.set_eid_rsp_eid], pushed := [mm] }
  else if msg.hdr.cmd = MCCM_GET_ENDPOINT_ID then
    { rv := 0, out := [ctrl_printed.eid msg.obj.get_eid_rsp_eid], pushed := [mm] }
  else if msg.hdr.cmd = MCCM_GET_ENDPOINT_UUID then
    { rv := 0, out := [ctrl_printed.uuid msg.obj.uuid], pushed := [mm] }
  else if msg.hdr.cmd = MCCM_GET_VERSION_SUPPORT then
    { rv := 0,
      out := (List.range msg.obj.ver_count).map
        (fun i => ctrl_printed.version i (msg.obj.versions i)),
      pushed := [mm] }
  else if msg.hdr.cmd = MCCM_GET_MESSAGE_TYPE_SUPPORT then
    { rv := 0,
      out := (List.range msg.obj.type_count).map
        (fun i => ctrl_printed.msg_type i (msg.obj.list i)),
      pushed := [mm] }
  else { rv := 1, out := [], pushed := [mm] }

/-! ## main.c -/

/-- The action that a submit call hands back to `run`: the type of its
response message and the decoded messages the handler of that type reads. -/
inductive mctp_action where
  | fmapi (req : fmapi_req) (rsp : fmapi_rsp)
  | emapi (rsp : emapi_rsp)
  | ctrl (rsp : mctp_ctrl_msg mctp_ctrl_obj)
  | other (type : MCMT)

/-- What `run` does, in order: calls and printed lines. The handlers are
called with `ma->rsp` (and `ma->req` as third argument of `fmapi_handler`);
their return values are not used. -/
inductive run_step where
  | init_switch
  | list
  | submit_cli_request (calls : List lib_call)
  | ma_was_null
  | cli_submit_timed_out
  | fmapi_handler (r : fmapi_handler_result)
  | emapi_handler (r : emapi_handler_result)
  | ctrl_handler (r : ctrl_handler_result)

/-- `run(m)` on the option array `opts`. `delivered` is what the submit call
inside `submit_cli_request` returns when it is made (`none` is NULL: the
request was not submitted or timed out), `timed_out` says whether `errno` is
`ETIMEDOUT` then. -/
def run (opts : CLOP → opt) (delivered : Option mctp_action) (timed_out : Bool) :
    List run_step :=
  if (opts CLOP.CMD).set = 0 then []
  else
    (if (opts CLOP.NO_INIT).set = 0 then [run_step.init_switch] else []) ++
      (if (opts CLOP.CMD).val = CLCM_LIST then [run_step.list]
       else
         let calls := submit_cli_request opts
         let ma := if calls = [] then none else delivered
         run_step.submit_cli_request calls ::
           (match ma with
            | none =>
              run_step.ma_was_null ::
                (if timed_out then [run_step.cli_submit_timed_out] else [])
            | some (mctp_action.fmapi req rsp) =>
              [run_step.fmapi_handler (fmapi_handler req rsp)]
            | some (mctp_action.emapi rsp) =>
              [run_step.emapi_handler (emapi_handler mctp_msg_ref.rsp rsp)]
            | some (mctp_action.ctrl rsp) =>
              [run_step.ctrl_handler (ctrl_handler mctp_msg_ref.rsp rsp)]
            | some (mctp_action.other _) => []))

/-- The value a handler call of `run` returned, if `run` called one. -/
def handler_rv : List run_step → Option Nat
  | [] => none
  | run_step.fmapi_handler r :: _ => some r.rv
  | run_step.emapi_handler r :: _ => some r.rv
  | run_step.ctrl_handler r :: _ => some r.rv
  | _ :: l => handler_rv l

/-- The message buffers that the steps of `run` push on the free pool. -/
def run_pushed : List run_step → List mctp_msg_ref
  | [] => []
  | run_step.fmapi_handler r :: l => r.pushed ++ run_pushed l
  | run_step.emapi_handler r :: l => r.pushed ++ run_pushed l
  | run_step.ctrl_handler r :: l => r.pushed ++ run_pushed l
  | _ :: l => run_pushed l

/-- What `main` does after the options are parsed, in order. -/
inductive main_step where
  | parse_failed
  | cxls_init
  | no_command
  | mctp_init
  | mctp_init_failed
  | mctp_set_handler (type : MCMT)
  | mctp_set_verbosity (level : Nat)
  | mctp_run (port address : Nat)
  | mctp_run_failed (rv : Int)
  | run (steps : List run_step)
  | mctp_stop
  | mctp_free
  | cxls_free
  | options_free

/-- `main(argc, argv)`: the return value and the steps. `parse_rv` is the
value of `options_parse`, `opts` the option array it leaves, `mctp_init_ok`
says whether `mctp_init` returns a transport, `mctp_run_rv` is the value of
`mctp_run`; `delivered` and `timed_out` are as in `run`. -/
def main (parse_rv : Int) (opts : CLOP → opt) (mctp_init_ok : Bool) (mctp_run_rv : Int)
    (delivered : Option mctp_action) (timed_out : Bool) : Int × List main_step :=
  if parse_rv ≠ 0 then (parse_rv, [main_step.parse_failed])
  else if (opts CLOP.CMD).set = 0 then (1, [main_step.cxls_init, main_step.no_command])
  else if mctp_init_ok = false then
    (1, [main_step.cxls_init, main_step.mctp_init, main_step.mctp_init_failed])
  else
    let setup := [main_step.cxls_init, main_step.mctp_init,
      main_step.mctp_set_handler MCMT.CXLFMAPI, main_step.mctp_set_handler MCMT.CSE,
      main_step.mctp_set_handler MCMT.CONTROL,
      main_step.mctp_set_verbosity (opts CLOP.MCTP_VERBOSITY).u64,
      main_step.mctp_run (opts CLOP.TCP_PORT).u16 (opts CLOP.TCP_ADDRESS).u32]
    let stop := [main_step.mctp_free, main_step.cxls_free, main_step.options_free]
    if mctp_run_rv ≠ 0 then
      (mctp_run_rv, setup ++ [main_step.mctp_run_failed mctp_run_rv] ++ stop)
    else
      (0, setup ++ [main_step.run (run opts delivered timed_out), main_step.mctp_stop] ++ stop)

/-- An FM API action whose response carries the return code 2. -/
def action_failed : mctp_action :=
  mctp_action.fmapi (req_zero FMOP.PSC_PORT) (rsp_zero (rsp_hdr FMOP.PSC_PORT 2))


/-! ### fmapi_handler.c: the rows of `print_ports` -/

/-- Device type [FMDT] of a single logical device, as `fmapi.h` numbers it. -/
def FMDT_CXL_TYPE_3 : Nat := 4

/-- Size of the line buffer of `print_ports`, without the terminator. -/
def SHOW_PORT_BUF_LEN : Nat := 110

/-- The terminator `'\0'`. -/
def NUL : Char := Char.ofNat 0

/-- The widths of the table `cols`, up to the end marker. -/
def cols_width : List Nat := [3, 1, 10, 6, 2, 3, 8, 3, 3, 3, 3, 8, 8, 2, 16]

/-- The value of `i` when column `k` is written: `i += cols[k++].width + 2`
after each column before it. -/
def col_offset (k : Nat) : Nat := ((cols_width.take k).map (fun w => w + 2)).sum

/-- The name functions of the FM API library that `print_ports` calls: port
state, device type, device version, link speed and LTSSM state. -/
structure fmapi_names where
  fmps : Nat → List Char
  fmdt : Nat → List Char
  fmdv : Nat → List Char
  fmms : Nat → List Char
  fmls : Nat → List Char

/-- Store the characters `s` into `buf` from index `i` on. -/
def put (buf : Nat → Char) (i : Nat) (s : List Char) : Nat → Char :=
  fun k => if i ≤ k ∧ k < i + s.length then s.getD (k - i) ' ' else buf k

/-- `sprintf(&buf[i], "%s", s)` (and `"%d"` with the decimal digits as `s`):
the characters of `s` and a terminator. The buffer has
`SHOW_PORT_BUF_LEN + 1` bytes: a write past it is undefined behaviour. -/
def sprintf (buf : Nat → Char) (i : Nat) (s : List Char) : Option (Nat → Char) :=
  if i + s.length + 1 ≤ SHOW_PORT_BUF_LEN + 1 then some (put buf i (s ++ [NUL])) else none

/-- The test `(x >> v) & 0x01` of the two label loops. -/
def bit_set (x v : Nat) : Bool := decide ((x >>> v) &&& 0x01 ≠ 0)

/-- The label loops of columns 6 and 11: for `v < 8`, `buf[i+v]` becomes the
label `c + v` when bit `v` of `bits` is set and a space otherwise. -/
def bit_labels (buf : Nat → Char) (i bits : Nat) (c : Char) : Nat → Char :=
  (List.range 8).foldl
    (fun b v => Function.update b (i + v)
      (if bit_set bits v then Char.ofNat (c.toNat + v) else ' ')) buf

/-- The columns 0 to 13 of a row of `print_ports` for the record `p`, written
into the line buffer after `memset(buf, ' ', SHOW_PORT_BUF_LEN)` and
`buf[SHOW_PORT_BUF_LEN] = 0`. -/
def row_columns (S : fmapi_names) (p : fmapi_psc_port_info) : Option (Nat → Char) :=
  let buf : Nat → Char := fun k => if k = SHOW_PORT_BUF_LEN then NUL else ' '
  -- COL 0: Port number
  (sprintf buf (col_offset 0) (Nat.repr p.ppid).toList).bind fun buf =>
  -- COL 1: Present bit
  let buf := Function.update buf (col_offset 1) (if p.prsnt ≠ 0 then '+' else '-')
  -- COL 2: Port state
  (sprintf buf (col_offset 2) (S.fmps p.state)).bind fun buf =>
  -- COL 3: Type
  (if p.prsnt = 0 then sprintf buf (col_offset 3) ['-']
   else sprintf buf (col_offset 3) (S.fmdt p.dt)).bind fun buf =>
  -- COL 4: LD
  (if p.prsnt = 0 ∨ (p.dt ≠ FMDT_CXL_TYPE_3 ∧ p.dt ≠ FMDT_CXL_TYPE_3_POOLED) then
     sprintf buf (col_offset 4) ['-']
   else sprintf buf (col_offset 4) (Nat.repr p.num_ld).toList).bind fun buf =>
  -- COL 5: Ver
  (if p.prsnt = 0 then sprintf buf (col_offset 5) ['-']
   else sprintf buf (col_offset 5) (S.fmdv p.dv)).bind fun buf =>
  -- COL 6: CXL Versions
  (if p.prsnt = 0 then sprintf buf (col_offset 6) ['-']
   else some (bit_labels buf (col_offset 6) p.cv 'A')).bind fun buf =>
  -- COL 7: MLW
  (sprintf buf (col_offset 7) (Nat.repr p.mlw).toList).bind fun buf =>
  -- COL 8: NLW
  (if p.prsnt = 0 then sprintf buf (col_offset 8) ['-']
   else if p.nlw >>> 0 = 0 then sprintf buf (col_offset 8) (Nat.repr p.mlw).toList
   else sprintf buf (col_offset 8) (Nat.repr (p.nlw >>> 4)).toList).bind fun buf =>
  -- COL 9: MLS
  (sprintf buf (col_offset 9) (S.fmms p.mls)).bind fun buf =>
  -- COL 10: CLS
  (if p.prsnt = 0 then sprintf buf (col_offset 10) ['-']
   else sprintf buf (col_offset 10) (S.fmms p.cls)).bind fun buf =>
  -- COL 11: Dev Speeds
  (if p.prsnt = 0 then sprintf buf (col_offset 11) ['-']
   else some (bit_labels buf (col_offset 11) p.speeds '0')).bind fun buf =>
  -- COL 12: LTSSM
  (if p.prsnt = 0 then sprintf buf (col_offset 12) ['-']
   else sprintf buf (col_offset 12) (S.fmls p.ltssm)).bind fun buf =>
  -- COL 13: First Lane
  if p.prsnt = 0 then sprintf buf (col_offset 13) ['-']
  else sprintf buf (col_offset 13) (Nat.repr p.lane).toList

/-- Column 14 of a row of `print_ports`: the flags. -/
def row_flags (p : fmapi_psc_port_info) (buf : Nat → Char) : Nat → Char :=
  let buf := if p.lane_rev ≠ 0 then Function.update buf (col_offset 14 + 0) 'L' else buf
  let buf := if p.perst ≠ 0 then Function.update buf (col_offset 14 + 1) 'R' else buf
  let buf := if p.prsnt ≠ 0 then Function.update buf (col_offset 14 + 2) 'P' else buf
  let buf := if p.pwrctrl ≠ 0 then Function.update buf (col_offset 14 + 3) 'W' else buf
  buf

/-- The end of a row of `print_ports`: every terminator below
`SHOW_PORT_BUF_LEN` becomes a space, `buf[SHOW_PORT_BUF_LEN] = 0`, and `printf`
prints the characters before the first terminator. -/
def row_line (buf : Nat → Char) : List Char :=
  (List.range SHOW_PORT_BUF_LEN).map
    (fun k => if k < SHOW_PORT_BUF_LEN ∧ buf k = NUL then ' ' else buf k)

/-- The body of the loop `Print port rows` of `print_ports` for the record
`p`: the line handed to `printf`, without the newline. -/
def print_ports_row (S : fmapi_names) (p : fmapi_psc_port_info) : Option (List Char) :=
  (row_columns S p).map (fun buf => row_line (row_flags p buf))

/-- The rows that `print_ports` prints for the records of a response. -/
def print_ports_rows (S : fmapi_names) (o : fmapi_psc_port_rsp) :
    List (Option (List Char)) :=
  (List.range o.num).map (fun j => print_ports_row S (o.list j))

/-- The 8 characters of a label field: label `c + n` at column `n` when bit
`n` of `bits` is set, a space otherwise. -/
def label_field (bits : Nat) (c : Char) : List Char :=
  (List.range 8).map (fun n => if bit_set bits n then Char.ofNat (c.toNat + n) else ' ')

/-- The strings and numbers of a record are short enough for the line buffer
of `print_ports`, and those written before a label field end before it. -/
def row_fits (S : fmapi_names) (p : fmapi_psc_port_info) : Prop :=
  p.ppid < 65536 ∧ p.num_ld < 65536 ∧ p.mlw < 65536 ∧ p.nlw < 65536 ∧ p.lane < 65536 ∧
    (S.fmps p.state).length ≤ 30 ∧ (S.fmdt p.dt).length ≤ 33 ∧
    (S.fmdv p.dv).length ≤ 33 ∧ (S.fmms p.mls).length ≤ 11 ∧
    (S.fmms p.cls).length ≤ 33 ∧ (S.fmls p.ltssm).length ≤ 33

/-- Sample name functions: every name is "x". -/
def fmapi_names_sample : fmapi_names :=
  { fmps := fun _ => ['x'], fmdt := fun _ => ['x'], fmdv := fun _ => ['x'],
    fmms := fun _ => ['x'], fmls := fun _ => ['x'] }


/-! ### The TLP header of the `aer` command (`parse_u8_str`, `pr_aer`) -/

/-- Length of the TLP header in bytes. -/
def CLMR_AER_HEADER_LEN : Nat := 32

/-- The `while (*head != 0)` loop of `parse_u8_str` on the text before the
terminating NUL: `buf` takes two characters, `strtoul(buf, NULL, 16)` is stored
as a `__u8` and `head` moves on by two. With one character left `buf[1]` is the
terminator and `head = &head[2]` leaves the string, so that the next `*head`
is read outside it. -/
def parse_u8_loop : List Char → List Nat → Option (List Nat)
  | [], array => some array
  | [_], _ => none
  | a :: b :: rest, array => parse_u8_loop rest (array ++ [strtoul [a, b] 16 % 256])

/-- `parse_u8_str(dst, src)`: the bytes stored in `dst[0..i)` and the return
value `i`. A leading `0x` is skipped. -/
def parse_u8_str (src : List Char) : Option (List Nat × Nat) :=
  let head :=
    match src with
    | a :: b :: rest => if a = '0' ∧ b = 'x' then rest else src
    | _ => src
  (parse_u8_loop head []).map (fun array => (array, array.length))

/-- Outcome of case `t` of `pr_aer`: the option is stored, or `argp_error`
reports "Incorrect length of TLP Header" and the process exits. -/
inductive aer_header_result where
  | stored (o : opt)
  | incorrect_length
deriving DecidableEq, Repr

/-- Case `t` of `pr_aer` on `opts[CLOP_AER_HEADER]`. `o->buf` is allocated with
`CLMR_AER_HEADER_LEN` bytes, all zero, before `parse_u8_str` fills it, and the
length is compared afterwards: more than 32 stored bytes run past the buffer. -/
def pr_aer_header (o : opt) (arg : List Char) : Option aer_header_result :=
  match parse_u8_str arg with
  | none => none
  | some (array, num) =>
    if num ≤ CLMR_AER_HEADER_LEN then
      if num * 1 ≠ CLMR_AER_HEADER_LEN then some aer_header_result.incorrect_length
      else
        some (aer_header_result.stored
          { o with set := 1,
                   buf := some (array ++ List.replicate (CLMR_AER_HEADER_LEN - num) 0),
                   num := num, len := num * 1 })
    else none

/-- The bytes that a string of `2 * k` hexadecimal digits encodes: byte `i` is
the value of the digits `2 * i` and `2 * i + 1`. -/
def hex_bytes (w : List Char) (k : Nat) : List Nat :=
  (List.range k).map (fun i => 16 * hex_digit (w.getD (2 * i) '0') +
    hex_digit (w.getD (2 * i + 1) '0'))


/-! ### Range expressions with empty items -/

/-- The text of an item of an expression that may hold empty items: `none` is
the empty item, between two commas or at an end of the expression. -/
def item_text : Option range_item → List Char
  | none => []
  | some it => it.text

/-- The text of an expression that may hold empty items. -/
def items_text : List (Option range_item) → List Char
  | [] => []
  | [it] => item_text it
  | it :: rest => item_text it ++ ',' :: items_text rest

/-- The entries that the specification gives to an item: none for an empty
item, the value of a scalar, the inclusive run `a, a+1, ..., b` of a range
`a-b` with `a ≤ b`, and none for a range with `a > b`. -/
def item_entries : Option range_item → List Nat
  | none => []
  | some (range_item.scalar w) => [numeral_value w]
  | some (range_item.range lo hi) =>
    if numeral_value lo ≤ numeral_value hi then
      (List.range (numeral_value hi - numeral_value lo + 1)).map (fun k => numeral_value lo + k)
    else []


/-- The item `0-255`, which lists every value of a `__u8`. -/
def full_range : range_item := range_item.range ['0'] ['2', '5', '5']


/-- A tunnel response whose tunneled message is a successful QoS status
response that reports an average back pressure of 7 per cent. -/
def rsp_tunnel_qos_stat : fmapi_rsp :=
  { hdr := rsp_hdr FMOP.MPC_TMC FMRC_SUCCESS,
    obj := { rsp_obj_zero with
      mpc_tmc_rsp :=
        { type := MCMT.CXLCCI,
          msg :=
            { hdr := rsp_hdr FMOP.MCC_QOS_STAT FMRC_SUCCESS,
              obj := { cci_obj_zero with mcc_qos_stat_rsp := { bp_avg_pcnt := 7 } } } } } }


/-! ### The names of the options (`STR_CLOP`, `clop`) -/

/-- The value of each enumerator of `enum _CLOP` in `options.h`. -/
def CLOP.value : CLOP → Int
  | .VERBOSITY => 0
  | .TCP_PORT => 1
  | .CMD => 2
  | .INFILE => 3
  | .PRNT_OPTS => 4
  | .MCTP_EID => 5
  | .MCTP_TYPE => 6
  | .VCSID => 7
  | .PPID => 8
  | .VPPBID => 9
  | .LDID => 10
  | .ALL => 11
  | .UNBIND_MODE => 12
  | .PORT_CONTROL => 13
  | .REGISTER => 14
  | .EXT_REGISTER => 15
  | .FDBE => 16
  | .LDBE => 17
  | .WRITE => 18
  | .OFFSET => 19
  | .LEN => 20
  | .LD_RNG1 => 21
  | .LD_RNG2 => 22
  | .CONGEST_ENABLE => 23
  | .TEMP_THROTTLE => 24
  | .EGRESS_MOD_PCNT => 25
  | .EGRESS_SEV_PCNT => 26
  | .BP_SAMPLE_INTVL => 27
  | .REQCMPBASIS => 28
  | .CCINTERVAL => 29
  | .QOS_ALLOCATED => 30
  | .QOS_LIMIT => 31
  | .AER_ERROR => 32
  | .AER_HEADER => 33
  | .DATA => 34
  | .OUTFILE => 35
  | .MCTP_VERBOSITY => 36
  | .DEVICE => 37
  | .NUM => 38
  | .LIMIT => 39
  | .TCP_ADDRESS => 40
  | .NO_INIT => 41

/-- The enumerator `CLOP_MAX`, which follows `CLOP_NO_INIT = 41`. -/
def CLOP_MAX : Int := 42

/-- The table `char *STR_CLOP[]` of `options.c`, with the entries its
initializer lists. -/
def STR_CLOP : List (List Char) :=
  ["VERBOSITY".toList, "TCP_PORT".toList, "CMD".toList, "INFILE".toList, "PRNT_OPTS".toList,
    "MCTP_EID".toList, "MCTP_TYPE".toList, "VCSID".toList, "PPID".toList, "VPPBID".toList,
    "LDID".toList, "ALL".toList, "UNBIND_MODE".toList, "PORT_CONTROL".toList,
    "REGISTER".toList, "EXT_REGISTER".toList, "FDBE".toList, "LDBE".toList, "WRITE".toList,
    "OFFSET".toList, "LEN".toList, "LD_RNG1".toList, "LD_RNG2".toList,
    "CONGEST_ENABLE".toList, "TEMP_THROTTLE".toList, "EGRESS_MOD_PCNT".toList,
    "EGRESS_SEV_PCNT".toList, "BP_SAMPLE_INTVL".toList, "REQCMPBASIS".toList,
    "CCINTERVAL".toList, "QOS_ALLOCATED".toList, "QOS_LIMIT".toList, "AER_ERROR".toList,
    "AER_HEADER".toList, "DATA".toList, "OUTFILE".toList, "MCTP_VERBOSITY".toList,
    "CLOP_DEVICE".toList, "NUM".toList]

/-- `clop(u)`: NULL (`some none`) when `u >= CLOP_MAX`, else `STR_CLOP[u]`. An
index outside the table is a read outside the array (`none`). -/
def clop (u : Int) : Option (Option (List Char)) :=
  if u ≥ CLOP_MAX then some none
  else if u < 0 then none
  else (STR_CLOP[u.toNat]?).map some

/-- The first loop of `print_options_array`, which leaves in `maxlen` the
largest `strlen(clop(i))` for `i` from 0 to `CLOP_MAX - 1`. `strlen` needs a
string: a NULL pointer or an undefined one makes the loop undefined. -/
def print_options_maxlen : Option Nat :=
  (List.range CLOP_MAX.toNat).foldl
    (fun acc i =>
      match acc, clop (i : Int) with
      | some maxlen, some (some s) => some (if s.length > maxlen then s.length else maxlen)
      | _, _ => none)
    (some 0)


/-- The option array that the parser of the MLD command `cmd` leaves when the
only option on the command line is the physical port id `-p arg`: the command
is stored by the command parser and the argument by `pr_common`. -/
def opts_mld (cmd : Int) (arg : List Char) : Option (CLOP → opt) :=
  (parse_ppid opt_zero arg).map (fun o => opts_cmd_with cmd CLOP.PPID o)


/-- The port id option that `-p 4-4` leaves: the option is set, the list holds
the one port 4, the scalar `u8` was never written. -/
def opt_ppid_list_4 : opt :=
  { opt_zero with set := 1, buf := some (4 :: List.replicate 255 0), num := 1, len := 1 }

theorem char_ne_of_toNat_ne {c d : Char} (h : c.toNat ≠ d.toNat) : c ≠ d := by
  intro e
  exact h (by rw [e])

theorem dec_digit_bounds {c : Char} (h : is_dec_digit c = true) :
    48 ≤ c.toNat ∧ c.toNat ≤ 57 := by
  simpa [is_dec_digit] using h

theorem hex_digit_bounds {c : Char} (h : is_hex_digit c = true) :
    (48 ≤ c.toNat ∧ c.toNat ≤ 57) ∨ (97 ≤ c.toNat ∧ c.toNat ≤ 102) ∨
      (65 ≤ c.toNat ∧ c.toNat ≤ 70) := by
  simp only [is_hex_digit, Bool.or_eq_true, Bool.and_eq_true, decide_eq_true_eq] at h
  tauto

theorem scan_digits_dec (w : List Char) (acc : Nat)
    (h : ∀ c ∈ w, is_dec_digit c = true) :
    scan_digits 10 w acc = w.foldl (fun a c => a * 10 + (c.toNat - 48)) acc := by
  induction w generalizing acc with
  | nil => rfl
  | cons c rest ih =>
    have hc := dec_digit_bounds (h c (List.mem_cons_self _ _))
    have hd : digit_value c = some (c.toNat - 48) := by
      simp [digit_value, hc.1, hc.2]
    have hlt : c.toNat - 48 < 10 := by omega
    simp only [scan_digits, hd, hlt, if_true, List.foldl_cons]
    exact ih _ (fun x hx => h x (List.mem_cons_of_mem _ hx))

theorem digit_value_hex {c : Char} (h : is_hex_digit c = true) :
    digit_value c = some (hex_digit c) ∧ hex_digit c < 16 := by
  rcases hex_digit_bounds h with h1 | h1 | h1
  · have e1 : digit_value c = some (c.toNat - 48) := by simp [digit_value, h1.1, h1.2]
    have e2 : hex_digit c = c.toNat - 48 := by simp [hex_digit, h1.2]
    rw [e1, e2]
    exact ⟨rfl, by omega⟩
  · have n1 : ¬ (48 ≤ c.toNat ∧ c.toNat ≤ 57) := by omega
    have n2 : 97 ≤ c.toNat ∧ c.toNat ≤ 122 := by omega
    have e1 : digit_value c = some (c.toNat - 87) := by simp [digit_value, n1, n2]
    have n3 : ¬ c.toNat ≤ 57 := by omega
    have e2 : hex_digit c = c.toNat - 87 := by simp [hex_digit, n3, h1.1]
    rw [e1, e2]
    exact ⟨rfl, by omega⟩
  · have n1 : ¬ (48 ≤ c.toNat ∧ c.toNat ≤ 57) := by omega
    have n2 : ¬ (97 ≤ c.toNat ∧ c.toNat ≤ 122) := by omega
    have n4 : 65 ≤ c.toNat ∧ c.toNat ≤ 90 := by omega
    have e1 : digit_value c = some (c.toNat - 55) := by simp [digit_value, n1, n2, n4]
    have n3 : ¬ c.toNat ≤ 57 := by omega
    have n5 : ¬ 97 ≤ c.toNat := by omega
    have e2 : hex_digit c = c.toNat - 55 := by simp [hex_digit, n3, n5]
    rw [e1, e2]
    exact ⟨rfl, by omega⟩

theorem scan_digits_hex (w : List Char) (acc : Nat)
    (h : ∀ c ∈ w, is_hex_digit c = true) :
    scan_digits 16 w acc = w.foldl (fun a c => a * 16 + hex_digit c) acc := by
  induction w generalizing acc with
  | nil => rfl
  | cons c rest ih =>
    have hc := digit_value_hex (h c (List.mem_cons_self _ _))
    simp only [scan_digits, hc.1, hc.2, if_true, List.foldl_cons]
    exact ih _ (fun x hx => h x (List.mem_cons_of_mem _ hx))

/-- With a first character that is neither white space nor a sign, `strtoul`
is the digit loop followed by the clamp. -/
theorem strtoul_plain (a : Char) (t : List Char) (base : Nat)
    (hs : isspace a = false) (hm : a ≠ '-') (hp : a ≠ '+') :
    strtoul (a :: t) base =
      (if scan_digits base (if base = 16 then skip_0x (a :: t) else a :: t) 0 > ULONG_MAX
        then ULONG_MAX
        else scan_digits base (if base = 16 then skip_0x (a :: t) else a :: t) 0) := by
  have h1 : (a :: t).dropWhile isspace = a :: t := by simp [List.dropWhile, hs]
  simp [strtoul, h1, hm, hp]

theorem digit_not_space {a : Char} (h : 48 ≤ a.toNat) : isspace a = false := by
  simp only [isspace, Bool.or_eq_false_iff, Bool.and_eq_false_iff, beq_eq_false_iff_ne,
    decide_eq_false_iff_not]
  constructor
  · omega
  · right
    omega

theorem hexordec_to_ul_numeral (w : List Char) (h : is_numeral w = true)
    (hv : numeral_value w ≤ ULONG_MAX) : hexordec_to_ul w = numeral_value w := by
  match w, h, hv with
  | [], h, _ => simp [is_numeral] at h
  | [a], h, hv =>
    have hall : ∀ c ∈ [a], is_dec_digit c = true := by simpa [is_numeral] using h
    have ha := dec_digit_bounds (hall a (List.mem_cons_self _ _))
    have hm : a ≠ '-' := char_ne_of_toNat_ne (by
      have : ('-' : Char).toNat = 45 := by decide
      omega)
    have hp : a ≠ '+' := char_ne_of_toNat_ne (by
      have : ('+' : Char).toNat = 43 := by decide
      omega)
    have e : scan_digits 10 [a] 0 = numeral_value [a] := by
      rw [scan_digits_dec _ _ hall]
      rfl
    simp only [hexordec_to_ul]
    rw [strtoul_plain a [] 10 (digit_not_space ha.1) hm hp]
    simp only [show ¬ (10 = 16) by decide, if_false, e]
    rw [if_neg (by omega)]
  | a :: b :: rest, h, hv =>
    by_cases hx : a = '0' ∧ b = 'x'
    · have hr : ∀ c ∈ rest, is_hex_digit c = true := by
        have := h
        simp only [is_numeral, hx, and_self, if_true, Bool.and_eq_true, List.all_eq_true] at this
        exact this.2
      have ha : 48 ≤ a.toNat := by
        rw [hx.1]
        decide
      have hm : a ≠ '-' := by
        rw [hx.1]
        decide
      have hp : a ≠ '+' := by
        rw [hx.1]
        decide
      have hval : numeral_value (a :: b :: rest) = hex_value rest := by
        simp [numeral_value, hx]
      have e : scan_digits 16 (skip_0x (a :: b :: rest)) 0 = hex_value rest := by
        have : skip_0x (a :: b :: rest) = rest := by simp [skip_0x, hx]
        rw [this, scan_digits_hex _ _ hr]
        rfl
      simp only [hexordec_to_ul, hx, and_self, if_true]
      rw [← hx.1, strtoul_plain a _ 16 (digit_not_space ha) hm hp]
      simp only [if_true]
      rw [← hx.2, e, hval, if_neg (by rw [hval] at hv; omega)]
    · have hall : ∀ c ∈ a :: b :: rest, is_dec_digit c = true := by
        have := h
        simp only [is_numeral, hx, if_false, List.all_eq_true] at this
        exact this
      have ha := dec_digit_bounds (hall a (List.mem_cons_self _ _))
      have hm : a ≠ '-' := char_ne_of_toNat_ne (by
        have : ('-' : Char).toNat = 45 := by decide
        omega)
      have hp : a ≠ '+' := char_ne_of_toNat_ne (by
        have : ('+' : Char).toNat = 43 := by decide
        omega)
      have hval : numeral_value (a :: b :: rest) = decimal_value (a :: b :: rest) := by
        simp [numeral_value, hx]
      have e : scan_digits 10 (a :: b :: rest) 0 = decimal_value (a :: b :: rest) := by
        rw [scan_digits_dec _ _ hall]
        rfl
      simp only [hexordec_to_ul, hx, if_false]
      rw [strtoul_plain a _ 10 (digit_not_space ha.1) hm hp]
      simp only [show ¬ (10 = 16) by decide, if_false, e]
      rw [hval, if_neg (by rw [hval] at hv; omega)]

/-! ### The loop of `range_to_u8_array` on well-formed expressions -/

theorem numeral_no_separator (w : List Char) (h : is_numeral w = true) :
    ∀ c ∈ w, c ≠ ',' ∧ c ≠ '-' := by
  have key : ∀ c : Char, (is_hex_digit c = true ∨ c = 'x') → c ≠ ',' ∧ c ≠ '-' := by
    intro c hc
    have h44 : (',' : Char).toNat = 44 := by decide
    have h45 : ('-' : Char).toNat = 45 := by decide
    rcases hc with hc | hc
    · have := hex_digit_bounds hc
      exact ⟨char_ne_of_toNat_ne (by omega), char_ne_of_toNat_ne (by omega)⟩
    · rw [hc]
      exact ⟨by decide, by decide⟩
  have dec_hex : ∀ c : Char, is_dec_digit c = true → is_hex_digit c = true := by
    intro c hc
    have := dec_digit_bounds hc
    simp [is_hex_digit, this.1, this.2]
  match w, h with
  | [], h => simp [is_numeral] at h
  | [a], h =>
    intro c hc
    have hall : ∀ c ∈ [a], is_dec_digit c = true := by simpa [is_numeral] using h
    exact key c (Or.inl (dec_hex c (hall c hc)))
  | a :: b :: rest, h =>
    intro c hc
    by_cases hx : a = '0' ∧ b = 'x'
    · have hr : ∀ c ∈ rest, is_hex_digit c = true := by
        have := h
        simp only [is_numeral, hx, and_self, if_true, Bool.and_eq_true, List.all_eq_true] at this
        exact this.2
      rcases List.mem_cons.mp hc with e | hc1
      · rw [e, hx.1]
        exact ⟨by decide, by decide⟩
      · rcases List.mem_cons.mp hc1 with e | hc2
        · exact key c (Or.inr (e.trans hx.2))
        · exact key c (Or.inl (hr c hc2))
    · have hall : ∀ c ∈ a :: b :: rest, is_dec_digit c = true := by
        have := h
        simp only [is_numeral, hx, if_false, List.all_eq_true] at this
        exact this
      exact key c (Or.inl (dec_hex c (hall c hc)))

theorem numeral_ne_nil (w : List Char) (h : is_numeral w = true) : 0 < w.length := by
  match w, h with
  | [], h => simp [is_numeral] at h
  | _ :: _, _ => simp

/-- Characters other than the separators are collected in `tmp`. -/
theorem range_loop_push (w : List Char) (st : range_state) (rest : List Char)
    (hsep : ∀ c ∈ w, c ≠ ',' ∧ c ≠ '-') (hlen : st.tmp.length + w.length ≤ 255) :
    range_loop (w ++ rest) st = range_loop rest { st with tmp := st.tmp ++ w } := by
  induction w generalizing st with
  | nil => simp
  | cons c w ih =>
    have hc := hsep c (List.mem_cons_self _ _)
    have hl : st.tmp.length < 255 := by
      simp only [List.length_cons] at hlen
      omega
    have hstep : range_step st c = some { st with tmp := st.tmp ++ [c] } := by
      simp [range_step, hc.1, hc.2, hl]
    rw [List.cons_append]
    simp only [range_loop, hstep]
    rw [ih _ (fun x hx => hsep x (List.mem_cons_of_mem _ hx))
      (by simp only [List.length_append, List.length_cons, List.length_nil] at hlen ⊢; omega)]
    simp

theorem to_int_small (n : Nat) (h : n ≤ 255) : to_int n = (n : Int) := by
  have h1 : n % 2 ^ 32 = n := Nat.mod_eq_of_lt (by omega)
  simp only [to_int, h1]
  rw [if_pos (by omega)]

/-- The stores of the `for` loop from `lo` to `hi`, both at most 255. -/
theorem expand_values (lo hi : Nat) (hhi : hi ≤ 255) :
    (List.range (hi + 1 - lo)).map
        (fun (k : Nat) => (((lo : Int) + (k : Int)) % 256).toNat) =
      List.range' lo (hi + 1 - lo) := by
  apply List.ext_getElem
  · simp
  · intro k h1 h2
    simp only [List.length_map, List.length_range] at h1
    simp only [List.getElem_map, List.getElem_range, List.getElem_range']
    omega

theorem expand_count (lo hi : Nat) :
    ((hi : Int) - (lo : Int) + 1).toNat = hi + 1 - lo := by omega

/-- A scalar followed by a comma stores its value. -/
theorem range_loop_scalar_comma (w : List Char) (D : List Nat) (n : Nat) (rest : List Char)
    (hw : is_numeral w = true) (hl : w.length < 255) (hv : numeral_value w ≤ 255) :
    range_loop (w ++ ',' :: rest) { start := -1, tmp := [], dst := D, d := n } =
      range_loop rest { start := -1, tmp := [], dst := D ++ [numeral_value w], d := n + 1 } := by
  rw [range_loop_push w _ _ (numeral_no_separator w hw) (by simp; omega)]
  have hpos := numeral_ne_nil w hw
  have hval := hexordec_to_ul_numeral w hw (by simp only [ULONG_MAX]; omega)
  have hmod : numeral_value w % 256 = numeral_value w := Nat.mod_eq_of_lt (by omega)
  simp [range_loop, range_step, put_scalar, hpos, hval, hmod]

/-- A range followed by a comma stores every value from `lo` to `hi`. -/
theorem range_loop_range_comma (lo hi : List Char) (D : List Nat) (n : Nat)
    (rest : List Char)
    (hlo : is_numeral lo = true) (hllo : lo.length < 255) (hvlo : numeral_value lo ≤ 255)
    (hhi : is_numeral hi = true) (hlhi : hi.length < 255) (hvhi : numeral_value hi ≤ 255) :
    range_loop (lo ++ '-' :: (hi ++ ',' :: rest)) { start := -1, tmp := [], dst := D, d := n } =
      range_loop rest
        { start := -1, tmp := [],
          dst := D ++ List.range' (numeral_value lo) (numeral_value hi + 1 - numeral_value lo),
          d := n + (numeral_value hi + 1 - numeral_value lo) } := by
  rw [range_loop_push lo _ _ (numeral_no_separator lo hlo) (by simp; omega)]
  have hpos := numeral_ne_nil lo hlo
  have hval := hexordec_to_ul_numeral lo hlo (by simp only [ULONG_MAX]; omega)
  have hstep : range_step { start := -1, tmp := [] ++ lo, dst := D, d := n } '-' =
      some { start := (numeral_value lo : Int), tmp := [], dst := D, d := n } := by
    simp [range_step, hpos, hval, to_int_small _ hvlo]
  simp only [range_loop, hstep]
  rw [range_loop_push hi _ _ (numeral_no_separator hi hhi) (by simp; omega)]
  have hval2 := hexordec_to_ul_numeral hi hhi (by simp only [ULONG_MAX]; omega)
  have hne : ((numeral_value hi : Nat) : Int) ≠ INT_MAX := by
    simp only [INT_MAX]
    omega
  have hstep2 : range_step { start := (numeral_value lo : Int), tmp := [] ++ hi, dst := D, d := n }
      ',' = some
        { start := -1, tmp := [],
          dst := D ++ List.range' (numeral_value lo) (numeral_value hi + 1 - numeral_value lo),
          d := n + (numeral_value hi + 1 - numeral_value lo) } := by
    simp [range_step, expand_range, hval2, to_int_small _ hvhi, hne,
      expand_values _ _ hvhi, expand_count]
  simp only [range_loop, hstep2]

/-- A scalar at the end of the expression is stored by the code after the loop. -/
theorem range_loop_scalar_end (w : List Char) (D : List Nat) (n : Nat)
    (hw : is_numeral w = true) (hl : w.length < 255) (hv : numeral_value w ≤ 255) :
    ((range_loop w { start := -1, tmp := [], dst := D, d := n }).bind range_finish).map
        (fun r => (r.dst, r.d)) = some (D ++ [numeral_value w], n + 1) := by
  have h0 := range_loop_push w { start := -1, tmp := [], dst := D, d := n } []
    (numeral_no_separator w hw) (by simp; omega)
  rw [List.append_nil] at h0
  rw [h0]
  have hpos := numeral_ne_nil w hw
  have hval := hexordec_to_ul_numeral w hw (by simp only [ULONG_MAX]; omega)
  have hmod : numeral_value w % 256 = numeral_value w := Nat.mod_eq_of_lt (by omega)
  simp [range_loop, range_finish, put_scalar, hpos, hval, hmod]

/-- A range at the end of the expression is expanded by the code after the loop. -/
theorem range_loop_range_end (lo hi : List Char) (D : List Nat) (n : Nat)
    (hlo : is_numeral lo = true) (hllo : lo.length < 255) (hvlo : numeral_value lo ≤ 255)
    (hhi : is_numeral hi = true) (hlhi : hi.length < 255) (hvhi : numeral_value hi ≤ 255) :
    ((range_loop (lo ++ '-' :: hi) { start := -1, tmp := [], dst := D, d := n }).bind
        range_finish).map (fun r => (r.dst, r.d)) =
      some (D ++ List.range' (numeral_value lo) (numeral_value hi + 1 - numeral_value lo),
        n + (numeral_value hi + 1 - numeral_value lo)) := by
  rw [range_loop_push lo _ _ (numeral_no_separator lo hlo) (by simp; omega)]
  have hpos := numeral_ne_nil lo hlo
  have hval := hexordec_to_ul_numeral lo hlo (by simp only [ULONG_MAX]; omega)
  have hstep : range_step { start := -1, tmp := [] ++ lo, dst := D, d := n } '-' =
      some { start := (numeral_value lo : Int), tmp := [], dst := D, d := n } := by
    simp [range_step, hpos, hval, to_int_small _ hvlo]
  simp only [range_loop, hstep]
  have h0 := range_loop_push hi { start := (numeral_value lo : Int), tmp := [], dst := D, d := n }
    [] (numeral_no_separator hi hhi) (by simp; omega)
  rw [List.append_nil] at h0
  rw [h0]
  have hpos2 := numeral_ne_nil hi hhi
  have hval2 := hexordec_to_ul_numeral hi hhi (by simp only [ULONG_MAX]; omega)
  have hne : ((numeral_value hi : Nat) : Int) ≠ INT_MAX := by
    simp only [INT_MAX]
    omega
  simp [range_loop, range_finish, expand_range, hpos2, hval2, to_int_small _ hvhi, hne,
    expand_values _ _ hvhi, expand_count]

theorem range_item_values_length (it : range_item) :
    it.values.length = it.last + 1 - it.first := by
  cases it with
  | scalar w => simp [range_item.values, range_item.first, range_item.last]
  | range lo hi => simp [range_item.values, range_item.first, range_item.last]

/-- An item followed by a comma. -/
theorem range_loop_item_comma (it : range_item) (hwf : it.wf) (D : List Nat) (n : Nat)
    (rest : List Char) :
    range_loop (it.text ++ ',' :: rest) { start := -1, tmp := [], dst := D, d := n } =
      range_loop rest
        { start := -1, tmp := [], dst := D ++ it.values, d := n + it.values.length } := by
  cases it with
  | scalar w =>
    obtain ⟨h1, h2, h3⟩ := hwf
    simpa [range_item.text, range_item.values] using
      range_loop_scalar_comma w D n rest h1 h2 h3
  | range lo hi =>
    obtain ⟨h1, h2, h3, h4, h5, h6⟩ := hwf
    simpa [range_item.text, range_item.values] using
      range_loop_range_comma lo hi D n rest h1 h2 h3 h4 h5 h6

/-- An item at the end of the expression. -/
theorem range_loop_item_end (it : range_item) (hwf : it.wf) (D : List Nat) (n : Nat) :
    ((range_loop it.text { start := -1, tmp := [], dst := D, d := n }).bind range_finish).map
        (fun r => (r.dst, r.d)) = some (D ++ it.values, n + it.values.length) := by
  cases it with
  | scalar w =>
    obtain ⟨h1, h2, h3⟩ := hwf
    simpa [range_item.text, range_item.values] using range_loop_scalar_end w D n h1 h2 h3
  | range lo hi =>
    obtain ⟨h1, h2, h3, h4, h5, h6⟩ := hwf
    simpa [range_item.text, range_item.values] using
      range_loop_range_end lo hi D n h1 h2 h3 h4 h5 h6

/-- The loop and the flush on a whole expression, from any clean state. -/
theorem range_loop_expr (items : List range_item) (hwf : ∀ it ∈ items, it.wf)
    (D : List Nat) (n : Nat) :
    ((range_loop (expr_text items) { start := -1, tmp := [], dst := D, d := n }).bind
        range_finish).map (fun r => (r.dst, r.d)) =
      some (D ++ expr_values items, n + (expr_values items).length) := by
  induction items generalizing D n with
  | nil => simp [expr_text, expr_values, range_loop, range_finish]
  | cons it rest ih =>
    have hit := hwf it (List.mem_cons_self _ _)
    cases rest with
    | nil =>
      simpa [expr_text, expr_values] using range_loop_item_end it hit D n
    | cons it2 rest2 =>
      have e : expr_text (it :: it2 :: rest2) = it.text ++ ',' :: expr_text (it2 :: rest2) := rfl
      rw [e, range_loop_item_comma it hit D n, ih (fun x hx => hwf x (List.mem_cons_of_mem _ hx))]
      simp [expr_values, List.flatMap_cons, Nat.add_assoc]

theorem range_to_u8_array_eq (src : List Char) :
    range_to_u8_array src =
      ((range_loop src { start := -1, tmp := [], dst := [], d := 0 }).bind range_finish).map
        (fun r => (r.dst, r.d)) := by
  unfold range_to_u8_array
  cases range_loop src { start := -1, tmp := [], dst := [], d := 0 } with
  | none => rfl
  | some st =>
    show (match range_finish st with
      | some r => some (r.dst, r.d)
      | none => none) = Option.map (fun r => (r.dst, r.d)) (range_finish st)
    cases range_finish st <;> rfl

/-- On a well-formed expression `range_to_u8_array` stores the listed values
in the order of the items and returns their number. -/
theorem range_to_u8_array_expr (items : List range_item) (hwf : ∀ it ∈ items, it.wf) :
    range_to_u8_array (expr_text items) =
      some (expr_values items, (expr_values items).length) := by
  rw [range_to_u8_array_eq, range_loop_expr items hwf [] 0]
  simp

theorem range_item_mem_values (it : range_item) (v : Nat) :
    v ∈ it.values ↔ it.first ≤ v ∧ v ≤ it.last := by
  cases it with
  | scalar w =>
    simp only [range_item.values, range_item.first, range_item.last, List.mem_singleton]
    omega
  | range lo hi =>
    simp only [range_item.values, range_item.first, range_item.last, List.mem_range'_1]
    omega

theorem range_item_values_sorted (it : range_item) : it.values.Sorted (· < ·) := by
  cases it with
  | scalar w => simp [range_item.values]
  | range lo hi => exact List.pairwise_lt_range' _ _

theorem expr_values_sorted (items : List range_item)
    (h : items.Pairwise (fun a b => a.last < b.first)) :
    (expr_values items).Sorted (· < ·) := by
  induction items with
  | nil => simp [expr_values]
  | cons it rest ih =>
    rw [List.pairwise_cons] at h
    have e : expr_values (it :: rest) = it.values ++ expr_values rest := by
      simp [expr_values, List.flatMap_cons]
    rw [e]
    refine List.pairwise_append.mpr ⟨range_item_values_sorted it, ih h.2, ?_⟩
    intro a ha b hb
    simp only [expr_values, List.mem_flatMap] at hb
    obtain ⟨it2, hit2, hb2⟩ := hb
    have h1 := (range_item_mem_values it a).mp ha
    have h2 := (range_item_mem_values it2 b).mp hb2
    have h3 := h.1 it2 hit2
    omega

/-- C1 (amended): on every range expression of comma separated scalars and
inclusive ranges (numerals of values up to 255), `range_to_u8_array` stores the
scalars and the inclusive runs in the order the items are written and returns
the number of stored values; the stored values are exactly the union of the
listed scalars and ranges; the sequence is sorted and free of duplicates when
every item starts above the end of the items before it; and on `1,3,5-7` the
result is `[1,3,5,6,7]` with return value 5. -/
theorem range_to_u8_array_union (items : List range_item) (hwf : ∀ it ∈ items, it.wf) :
    range_to_u8_array (expr_text items) =
        some (expr_values items, (expr_values items).length) ∧
      (∀ v, v ∈ expr_values items ↔ ∃ it ∈ items, it.first ≤ v ∧ v ≤ it.last) ∧
      (items.Pairwise (fun a b => a.last < b.first) →
        (expr_values items).Sorted (· ≤ ·) ∧ (expr_values items).Nodup) ∧
      range_to_u8_array "1,3,5-7".toList = some ([1, 3, 5, 6, 7], 5) := by
  refine ⟨range_to_u8_array_expr items hwf, ?_, ?_, by decide⟩
  · intro v
    simp only [expr_values, List.mem_flatMap, range_item_mem_values]
  · intro h
    have hs := expr_values_sorted items h
    exact ⟨hs.imp (fun hab => Nat.le_of_lt hab), hs.nodup⟩

/-- Witness of C1 (amended) on the expression `1,3,5-7`. -/
theorem range_to_u8_array_union_witness :
    (∀ it ∈ [range_item.scalar ['1'], range_item.scalar ['3'], range_item.range ['5'] ['7']],
        it.wf) ∧
      range_to_u8_array
          (expr_text [range_item.scalar ['1'], range_item.scalar ['3'],
            range_item.range ['5'] ['7']]) = some ([1, 3, 5, 6, 7], 5) := by
  refine ⟨by decide, ?_⟩
  have h := (range_to_u8_array_union
    [range_item.scalar ['1'], range_item.scalar ['3'], range_item.range ['5'] ['7']]
    (by decide)).1
  rw [h]
  decide

/-- C1 (as stated) fails: the expression `3,1` is stored as `[3,1]`, which is
not sorted, and `1,1` is stored as `[1,1]`, which has a duplicate. -/
theorem range_to_u8_array_not_sorted :
    range_to_u8_array "3,1".toList = some ([3, 1], 2) ∧
      ¬ List.Sorted (· ≤ ·) [3, 1] ∧
      range_to_u8_array "1,1".toList = some ([1, 1], 2) ∧
      ¬ List.Nodup [1, 1] := by
  decide

/-! ### Response validation in `fmapi_update`, `cci_update` and `fmapi_handler` -/

theorem cci_update_not_response (cxls : cxl_switch) (ppid : Nat) (msg : cci_msg)
    (h : msg.hdr.category ≠ FMMT.RESP) :
    cci_update cxls ppid msg =
      some { cxls := cxls, rv := 1,
             out := [printed.tunneled_not_a_response msg.hdr.category] } := by
  simp [cci_update, h]

theorem fmapi_update_not_response_eq (cxls : cxl_switch) (req : fmapi_req) (rsp : fmapi_rsp)
    (h : rsp.hdr.category ≠ FMMT.RESP) :
    fmapi_update cxls req rsp =
      some { cxls := cxls, rv := 1, out := [printed.not_a_response rsp.hdr.category],
             calls := [sys_call.pthread_mutex_unlock, sys_call.mctp_retire] } := by
  simp [fmapi_update, h]

/-- Whatever the outer header says, a tunnel response whose inner message is
not a response leaves the cache as it is. -/
theorem fmapi_update_tunnel_not_response (cxls : cxl_switch) (req : fmapi_req)
    (rsp : fmapi_rsp) (hop : rsp.hdr.opcode = FMOP.MPC_TMC)
    (hin : rsp.obj.mpc_tmc_rsp.msg.hdr.category ≠ FMMT.RESP) :
    ∃ r, fmapi_update cxls req rsp = some r ∧ r.cxls = cxls := by
  unfold fmapi_update
  by_cases hc : rsp.hdr.category ≠ FMMT.RESP
  · rw [if_pos hc]
    exact ⟨_, rfl, rfl⟩
  · rw [if_neg hc]
    by_cases hr : rsp.hdr.return_code ≠ FMRC_SUCCESS ∧
        rsp.hdr.return_code ≠ FMRC_BACKGROUND_OP_STARTED
    · rw [if_pos hr]
      exact ⟨_, rfl, rfl⟩
    · rw [if_neg hr]
      by_cases ht : rsp.obj.mpc_tmc_rsp.type ≠ MCMT.CXLCCI
      · have e : fmapi_update_switch cxls req rsp =
            some (cxls, false, [printed.bad_tunnel_type rsp.obj.mpc_tmc_rsp.type]) := by
          simp [fmapi_update_switch, hop, ht]
        rw [e]
        exact ⟨_, rfl, rfl⟩
      · have e : fmapi_update_switch cxls req rsp =
            some (cxls, true, [printed.tunneled_not_a_response
              rsp.obj.mpc_tmc_rsp.msg.hdr.category]) := by
          simp only [fmapi_update_switch, hop, ht, if_false,
            cci_update_not_response cxls _ _ hin]
        rw [e]
        exact ⟨_, rfl, rfl⟩

/-- C2: a response whose header category is not RESPONSE leaves the Switch
State Cache unchanged in `fmapi_update`, whatever its opcode, return code and
payload; `cci_update` leaves it unchanged for an inner tunneled message whose
category is not RESPONSE, and so does `fmapi_update` on the tunnel response
that carries such a message. -/
theorem fmapi_update_category_frame (cxls : cxl_switch) (req : fmapi_req) (rsp : fmapi_rsp)
    (ppid : Nat) (msg : cci_msg) (tun : fmapi_rsp)
    (h : rsp.hdr.category ≠ FMMT.RESP)
    (hmsg : msg.hdr.category ≠ FMMT.RESP)
    (htun : tun.hdr.opcode = FMOP.MPC_TMC)
    (hin : tun.obj.mpc_tmc_rsp.msg.hdr.category ≠ FMMT.RESP) :
    (∃ r, fmapi_update cxls req rsp = some r ∧ r.cxls = cxls) ∧
      (∃ r, cci_update cxls ppid msg = some r ∧ r.cxls = cxls) ∧
      (∃ r, fmapi_update cxls req tun = some r ∧ r.cxls = cxls) := by
  refine ⟨⟨_, fmapi_update_not_response_eq cxls req rsp h, rfl⟩,
    ⟨_, cci_update_not_response cxls ppid msg hmsg, rfl⟩,
    fmapi_update_tunnel_not_response cxls req tun htun hin⟩

/-- Messages of category REQUEST on the zero cache: a port state message, a
tunneled device info message, and the tunnel response that carries it. -/
theorem fmapi_update_category_frame_witness :
    rsp_not_response.hdr.category ≠ FMMT.RESP ∧
      cci_msg_not_response.hdr.category ≠ FMMT.RESP ∧
      rsp_tunnel_not_response.hdr.opcode = FMOP.MPC_TMC ∧
      rsp_tunnel_not_response.obj.mpc_tmc_rsp.msg.hdr.category ≠ FMMT.RESP ∧
      (∃ r, fmapi_update cxl_switch_zero (req_zero FMOP.PSC_PORT) rsp_not_response = some r ∧
        r.cxls = cxl_switch_zero) ∧
      (∃ r, cci_update cxl_switch_zero 4 cci_msg_not_response = some r ∧
        r.cxls = cxl_switch_zero) ∧
      (∃ r, fmapi_update cxl_switch_zero (req_zero FMOP.PSC_PORT) rsp_tunnel_not_response =
          some r ∧ r.cxls = cxl_switch_zero) :=
  ⟨by decide, by decide, rfl, by decide,
    fmapi_update_category_frame cxl_switch_zero (req_zero FMOP.PSC_PORT) rsp_not_response 4
      cci_msg_not_response rsp_tunnel_not_response (by decide) (by decide) rfl (by decide)⟩

/-! ### When `fmapi_update` yields a result -/

theorem mld_cfg_store_some (cxls : cxl_switch) (ppid ldid reg v : Nat)
    (h : has_ld_cfgspace cxls ppid ldid) (hreg : reg < SIZEOF_PCLN_CFG) :
    ∃ c, mld_cfg_store cxls ppid ldid reg v = some c ∧ has_ld_cfgspace c ppid ldid := by
  obtain ⟨m, buf, hm, hb⟩ := h
  simp only [mld_cfg_store, hm, hb, if_pos hreg]
  refine ⟨_, rfl, { m with
    cfgspace := Function.update m.cfgspace ldid (some (Function.update buf reg v)) },
    Function.update buf reg v, ?_, ?_⟩
  · simp [set_port]
  · simp

theorem mpc_cfg_update_some (cxls : cxl_switch) (q : fmapi_mpc_cfg_req) (data : Nat → Nat)
    (h : has_ld_cfgspace cxls q.ppid q.ldid)
    (hreg : ((q.ext <<< 8) ||| q.reg) < SIZEOF_PCLN_CFG) :
    ∃ c, mpc_cfg_update cxls q data = some c ∧ has_ld_cfgspace c q.ppid q.ldid := by
  have step : ∀ (bit k : Nat) (s : cxl_switch), has_ld_cfgspace s q.ppid q.ldid →
      ∃ c, (if q.fdbe &&& bit ≠ 0 then
          mld_cfg_store s q.ppid q.ldid ((q.ext <<< 8) ||| q.reg) (data k) else some s) = some c ∧
        has_ld_cfgspace c q.ppid q.ldid := by
    intro bit k s hs
    by_cases hb : q.fdbe &&& bit ≠ 0
    · rw [if_pos hb]
      exact mld_cfg_store_some s _ _ _ _ hs hreg
    · rw [if_neg hb]
      exact ⟨s, rfl, hs⟩
  obtain ⟨c1, e1, h1⟩ := step 0x01 0 cxls h
  obtain ⟨c2, e2, h2⟩ := step 0x02 1 c1 h1
  obtain ⟨c3, e3, h3⟩ := step 0x04 2 c2 h2
  obtain ⟨c4, e4, h4⟩ := step 0x08 3 c3 h3
  refine ⟨c4, ?_, h4⟩
  simp only [mpc_cfg_update, e1, e2, e3, e4]

theorem cci_update_switch_some (cxls : cxl_switch) (ppid : Nat) (msg : cci_msg)
    (h : (cxls.ports ppid).mld.isSome = true ∨ msg.hdr.opcode = FMOP.MCC_INFO) :
    ∃ c, cci_update_switch cxls ppid msg = some c := by
  rcases h with h | h
  · obtain ⟨m, hm⟩ := Option.isSome_iff_exists.mp h
    unfold cci_update_switch
    split <;> simp [with_mld, hm]
    all_goals split <;> simp
  · simp [cci_update_switch, h]

theorem cci_update_some (cxls : cxl_switch) (ppid : Nat) (msg : cci_msg)
    (h : (cxls.ports ppid).mld.isSome = true ∨ msg.hdr.opcode = FMOP.MCC_INFO) :
    ∃ r, cci_update cxls ppid msg = some r := by
  unfold cci_update
  split
  · exact ⟨_, rfl⟩
  · split
    · exact ⟨_, rfl⟩
    · obtain ⟨c, hc⟩ := cci_update_switch_some cxls ppid msg h
      rw [hc]
      exact ⟨_, rfl⟩

/-- The `switch` of `fmapi_update` yields a result when the pointers it
dereferences are valid. -/
theorem fmapi_update_switch_some (cxls : cxl_switch) (req : fmapi_req) (rsp : fmapi_rsp)
    (h : pointers_valid cxls req rsp) :
    ∃ x, fmapi_update_switch cxls req rsp = some x := by
  unfold pointers_valid at h
  by_cases h1 : rsp.hdr.opcode = FMOP.MPC_TMC
  · simp only [h1] at h
    simp only [fmapi_update_switch, h1]
    split
    · exact ⟨_, rfl⟩
    · obtain ⟨r, hr⟩ := cci_update_some cxls req.obj.mpc_tmc_req.ppid
        rsp.obj.mpc_tmc_rsp.msg h
      rw [hr]
      exact ⟨_, rfl⟩
  · by_cases h2 : rsp.hdr.opcode = FMOP.MPC_CFG
    · simp only [h2] at h
      simp only [fmapi_update_switch, h2]
      split
      · obtain ⟨c, hc, _⟩ := mpc_cfg_update_some cxls req.obj.mpc_cfg_req
          rsp.obj.mpc_cfg_rsp.data h.1 h.2
        rw [hc]
        exact ⟨_, rfl⟩
      · exact ⟨_, rfl⟩
    · unfold fmapi_update_switch
      split <;> first
        | exact ⟨_, rfl⟩
        | (dsimp only; split <;> exact ⟨_, rfl⟩)
        | exact absurd (by assumption) h1
        | exact absurd (by assumption) h2

theorem fmapi_update_switch_break (cxls : cxl_switch) (req : fmapi_req) (rsp : fmapi_rsp)
    (x : cxl_switch × Bool × List printed)
    (h : fmapi_update_switch cxls req rsp = some x)
    (hop : defines_cache_fields rsp.hdr.opcode = true ∨
      (rsp.hdr.opcode = FMOP.MPC_TMC ∧ rsp.obj.mpc_tmc_rsp.type = MCMT.CXLCCI)) :
    x.2.1 = true := by
  rcases hop with hop | ⟨hop, ht⟩
  · unfold fmapi_update_switch at h
    split at h
    all_goals first
      | (rename_i e; rw [e] at hop; exact absurd hop (by decide))
      | (cases h; rfl)
      | (dsimp only at h; split at h <;> first | (cases h; rfl) | skip)
      | skip
    all_goals first
      | (split at h <;> first | (cases h; rfl) | exact absurd h (by simp))
      | skip
    all_goals
      rename_i h1 h2
      exact absurd hop (by
        intro hh
        cases hr : rsp.hdr.opcode <;> simp_all [defines_cache_fields])
  · simp only [fmapi_update_switch, hop, ht, ne_eq, not_true_eq_false, if_false] at h
    split at h
    · exact absurd h (by simp)
    · cases h
      rfl


theorem fmapi_update_rv_zero (cxls : cxl_switch) (req : fmapi_req) (rsp : fmapi_rsp)
    (hc : rsp.hdr.category = FMMT.RESP)
    (hrc : rsp.hdr.return_code = FMRC_SUCCESS ∨
      rsp.hdr.return_code = FMRC_BACKGROUND_OP_STARTED)
    (hop : defines_cache_fields rsp.hdr.opcode = true ∨
      (rsp.hdr.opcode = FMOP.MPC_TMC ∧ rsp.obj.mpc_tmc_rsp.type = MCMT.CXLCCI))
    (r : fmapi_update_result) (h : fmapi_update cxls req rsp = some r) : r.rv = 0 := by
  have hr : ¬ (rsp.hdr.return_code ≠ FMRC_SUCCESS ∧
      rsp.hdr.return_code ≠ FMRC_BACKGROUND_OP_STARTED) := by
    rcases hrc with e | e <;> simp [e]
  simp only [fmapi_update, hc, ne_eq, not_true_eq_false, if_false, hr] at h
  cases hs : fmapi_update_switch cxls req rsp with
  | none => simp [hs] at h
  | some x =>
    have hb := fmapi_update_switch_break cxls req rsp x hs hop
    obtain ⟨c, fin, out⟩ := x
    simp only [hs, Option.some.injEq] at h
    simp only at hb
    rw [← h, hb]
    rfl

theorem fmapi_update_some (cxls : cxl_switch) (req : fmapi_req) (rsp : fmapi_rsp)
    (h : pointers_valid cxls req rsp) : ∃ r, fmapi_update cxls req rsp = some r := by
  unfold fmapi_update
  split
  · exact ⟨_, rfl⟩
  · split
    · exact ⟨_, rfl⟩
    · obtain ⟨x, hx⟩ := fmapi_update_switch_some cxls req rsp h
      rw [hx]
      exact ⟨_, rfl⟩

/-! ### `fmapi_handler`: bind, tunnel type mismatch, unknown opcode -/

/-- C7: for a bind response (`FMOP_VSC_BIND`) with category RESPONSE,
`fmapi_handler` prints the line "Bind operation started in the background" and
returns 0 when the return code is BACKGROUND_OP_STARTED, and prints nothing
and returns 0 when the return code is SUCCESS. -/
theorem fmapi_handler_bind (req : fmapi_req) (rsp : fmapi_rsp)
    (hc : rsp.hdr.category = FMMT.RESP) (hop : rsp.hdr.opcode = FMOP.VSC_BIND) :
    (rsp.hdr.return_code = FMRC_BACKGROUND_OP_STARTED →
        (fmapi_handler req rsp).out =
            [printed.text "Bind operation started in the background\n"] ∧
          (fmapi_handler req rsp).rv = 0) ∧
      (rsp.hdr.return_code = FMRC_SUCCESS →
        (fmapi_handler req rsp).out = [] ∧ (fmapi_handler req rsp).rv = 0) := by
  constructor
  · intro hrc
    simp [fmapi_handler, hc, hop, hrc, FMRC_SUCCESS, FMRC_BACKGROUND_OP_STARTED]
  · intro hrc
    simp [fmapi_handler, hc, hop, hrc, FMRC_SUCCESS, FMRC_BACKGROUND_OP_STARTED]

/-- A bind response that reports a background operation. -/
theorem fmapi_handler_bind_witness :
    (rsp_zero (rsp_hdr FMOP.VSC_BIND FMRC_BACKGROUND_OP_STARTED)).hdr.category = FMMT.RESP ∧
      (rsp_zero (rsp_hdr FMOP.VSC_BIND FMRC_BACKGROUND_OP_STARTED)).hdr.opcode = FMOP.VSC_BIND ∧
      (fmapi_handler (req_zero FMOP.VSC_BIND)
          (rsp_zero (rsp_hdr FMOP.VSC_BIND FMRC_BACKGROUND_OP_STARTED))).out =
        [printed.text "Bind operation started in the background\n"] ∧
      (fmapi_handler (req_zero FMOP.VSC_BIND)
          (rsp_zero (rsp_hdr FMOP.VSC_BIND FMRC_BACKGROUND_OP_STARTED))).rv = 0 :=
  ⟨rfl, rfl,
    ((fmapi_handler_bind (req_zero FMOP.VSC_BIND)
      (rsp_zero (rsp_hdr FMOP.VSC_BIND FMRC_BACKGROUND_OP_STARTED)) rfl rfl).1 rfl).1,
    ((fmapi_handler_bind (req_zero FMOP.VSC_BIND)
      (rsp_zero (rsp_hdr FMOP.VSC_BIND FMRC_BACKGROUND_OP_STARTED)) rfl rfl).1 rfl).2⟩

/-- C9 (amended): for a tunnel management command response with category
RESPONSE and return code SUCCESS or BACKGROUND_OP_STARTED whose inner type tag
is not `MCMT_CXLCCI`, `fmapi_handler` and `fmapi_update` stop processing: they
print only the type error, run no inner printer, leave the cache unchanged,
and return 1. -/
theorem fmapi_tunnel_type_mismatch (cxls : cxl_switch) (req : fmapi_req) (rsp : fmapi_rsp)
    (hc : rsp.hdr.category = FMMT.RESP)
    (hrc : rsp.hdr.return_code = FMRC_SUCCESS ∨
      rsp.hdr.return_code = FMRC_BACKGROUND_OP_STARTED)
    (hop : rsp.hdr.opcode = FMOP.MPC_TMC)
    (ht : rsp.obj.mpc_tmc_rsp.type ≠ MCMT.CXLCCI) :
    (fmapi_handler req rsp).rv = 1 ∧
      (fmapi_handler req rsp).out = [printed.bad_tunnel_type rsp.obj.mpc_tmc_rsp.type] ∧
      fmapi_update cxls req rsp =
        some { cxls := cxls, rv := 1,
               out := [printed.bad_tunnel_type rsp.obj.mpc_tmc_rsp.type],
               calls := [sys_call.pthread_mutex_lock, sys_call.pthread_mutex_unlock,
                 sys_call.mctp_retire] } := by
  have hr : ¬ (rsp.hdr.return_code ≠ FMRC_SUCCESS ∧
      rsp.hdr.return_code ≠ FMRC_BACKGROUND_OP_STARTED) := by
    rcases hrc with e | e <;> simp [e]
  refine ⟨?_, ?_, ?_⟩
  · simp [fmapi_handler, hc, hr, hop, ht]
  · simp [fmapi_handler, hc, hr, hop, ht]
  · simp [fmapi_update, fmapi_update_switch, hc, hr, hop, ht]

/-- A tunnel response tagged with the FM API message type. -/
theorem fmapi_tunnel_type_mismatch_witness :
    rsp_tunnel_mismatch.hdr.category = FMMT.RESP ∧
      rsp_tunnel_mismatch.hdr.return_code = FMRC_SUCCESS ∧
      rsp_tunnel_mismatch.hdr.opcode = FMOP.MPC_TMC ∧
      rsp_tunnel_mismatch.obj.mpc_tmc_rsp.type ≠ MCMT.CXLCCI ∧
      (fmapi_handler (req_zero FMOP.MPC_TMC) rsp_tunnel_mismatch).rv = 1 :=
  ⟨rfl, rfl, rfl, by decide,
    (fmapi_tunnel_type_mismatch cxl_switch_zero (req_zero FMOP.MPC_TMC) rsp_tunnel_mismatch
      rfl (Or.inl rfl) rfl (by decide)).1⟩

/-- C9 (as stated) fails: on a tunnel response with outer return code SUCCESS
and a wrong inner type tag the overall result is 1, not 0, in `fmapi_handler`
and in `fmapi_update`. -/
theorem fmapi_tunnel_type_mismatch_not_success :
    rsp_tunnel_mismatch.hdr.return_code = FMRC_SUCCESS ∧
      (fmapi_handler (req_zero FMOP.MPC_TMC) rsp_tunnel_mismatch).rv ≠ 0 ∧
      (fmapi_update cxl_switch_zero (req_zero FMOP.MPC_TMC) rsp_tunnel_mismatch).map
        (fun r => r.rv) = some 1 := by
  refine ⟨rfl, by decide, rfl⟩

/-- C10 (amended): for a response with category RESPONSE, return code SUCCESS
(or BACKGROUND_OP_STARTED) and an opcode that is no case label of the
dispatcher, `fmapi_handler` prints nothing, `fmapi_update` leaves the cache
unchanged, and both return 1. -/
theorem fmapi_unknown_opcode (cxls : cxl_switch) (req : fmapi_req) (rsp : fmapi_rsp)
    (hc : rsp.hdr.category = FMMT.RESP)
    (hrc : rsp.hdr.return_code = FMRC_SUCCESS ∨
      rsp.hdr.return_code = FMRC_BACKGROUND_OP_STARTED)
    (hop : fmapi_handled rsp.hdr.opcode = false) :
    (fmapi_handler req rsp).rv = 1 ∧
      (fmapi_handler req rsp).out = [] ∧
      fmapi_update cxls req rsp =
        some { cxls := cxls, rv := 1, out := [],
               calls := [sys_call.pthread_mutex_lock, sys_call.pthread_mutex_unlock,
                 sys_call.mctp_retire] } := by
  have hr : ¬ (rsp.hdr.return_code ≠ FMRC_SUCCESS ∧
      rsp.hdr.return_code ≠ FMRC_BACKGROUND_OP_STARTED) := by
    rcases hrc with e | e <;> simp [e]
  cases ho : rsp.hdr.opcode <;> rw [ho] at hop <;>
    first
      | exact absurd hop (by decide)
      | simp [fmapi_handler, fmapi_update, fmapi_update_switch, hc, hr, ho]

/-- A successful response with an opcode the dispatcher does not know. -/
theorem fmapi_unknown_opcode_witness :
    (rsp_zero (rsp_hdr (FMOP.other 0x7777) FMRC_SUCCESS)).hdr.category = FMMT.RESP ∧
      (rsp_zero (rsp_hdr (FMOP.other 0x7777) FMRC_SUCCESS)).hdr.return_code = FMRC_SUCCESS ∧
      fmapi_handled (rsp_zero (rsp_hdr (FMOP.other 0x7777) FMRC_SUCCESS)).hdr.opcode = false ∧
      (fmapi_handler (req_zero (FMOP.other 0x7777))
        (rsp_zero (rsp_hdr (FMOP.other 0x7777) FMRC_SUCCESS))).rv = 1 :=
  ⟨rfl, rfl, rfl,
    (fmapi_unknown_opcode cxl_switch_zero (req_zero (FMOP.other 0x7777))
      (rsp_zero (rsp_hdr (FMOP.other 0x7777) FMRC_SUCCESS)) rfl (Or.inl rfl) rfl).1⟩

/-- C10 (as stated) fails: a successful response with an opcode outside the
dispatcher's set makes `fmapi_handler` and `fmapi_update` return 1, not 0. -/
theorem fmapi_unknown_opcode_not_success :
    (rsp_zero (rsp_hdr (FMOP.other 0x7777) FMRC_SUCCESS)).hdr.return_code = FMRC_SUCCESS ∧
      fmapi_handled (FMOP.other 0x7777) = false ∧
      (fmapi_handler (req_zero (FMOP.other 0x7777))
        (rsp_zero (rsp_hdr (FMOP.other 0x7777) FMRC_SUCCESS))).rv ≠ 0 ∧
      (fmapi_update cxl_switch_zero (req_zero (FMOP.other 0x7777))
        (rsp_zero (rsp_hdr (FMOP.other 0x7777) FMRC_SUCCESS))).map (fun r => r.rv) =
        some 1 := by
  refine ⟨rfl, rfl, by decide, rfl⟩


/-! ### Port state responses are stored by physical port id -/

theorem psc_port_store_ports_ne (cxls : cxl_switch) (x : fmapi_psc_port_info) (q : Nat)
    (h : x.ppid ≠ q) : (psc_port_store cxls x).ports q = cxls.ports q := by
  simp [psc_port_store, set_port, Function.update_noteq (Ne.symm h)]

theorem psc_port_store_frame (cxls : cxl_switch) (x : fmapi_psc_port_info) (q : Nat) :
    ((psc_port_store cxls x).ports q).cfgspace = (cxls.ports q).cfgspace ∧
      ((psc_port_store cxls x).ports q).mld = (cxls.ports q).mld := by
  by_cases h : x.ppid = q
  · subst h
    simp [psc_port_store, set_port]
  · rw [psc_port_store_ports_ne cxls x q h]
    exact ⟨rfl, rfl⟩

theorem psc_port_store_rest (cxls : cxl_switch) (x : fmapi_psc_port_info) :
    psc_port_store cxls x = { cxls with ports := (psc_port_store cxls x).ports } := rfl

theorem psc_port_fold_rest (list : Nat → fmapi_psc_port_info) (l : List Nat)
    (cxls : cxl_switch) :
    l.foldl (fun c i => psc_port_store c (list i)) cxls =
      { cxls with ports := (l.foldl (fun c i => psc_port_store c (list i)) cxls).ports } := by
  induction l generalizing cxls with
  | nil => rfl
  | cons a l ih =>
    simp only [List.foldl_cons]
    rw [ih]
    rfl

theorem psc_port_fold_untouched (list : Nat → fmapi_psc_port_info) (n : Nat)
    (cxls : cxl_switch) (q : Nat) (h : ∀ i, i < n → (list i).ppid ≠ q) :
    (((List.range n).foldl (fun c i => psc_port_store c (list i)) cxls).ports q) =
      cxls.ports q := by
  induction n with
  | zero => rfl
  | succ n ih =>
    rw [List.range_succ, List.foldl_append]
    simp only [List.foldl_cons, List.foldl_nil]
    rw [psc_port_store_ports_ne _ _ _ (h n (Nat.lt_succ_self n))]
    exact ih (fun i hi => h i (Nat.lt_succ_of_lt hi))

theorem psc_port_fold_frame (list : Nat → fmapi_psc_port_info) (n : Nat)
    (cxls : cxl_switch) (q : Nat) :
    (((List.range n).foldl (fun c i => psc_port_store c (list i)) cxls).ports q).cfgspace =
        (cxls.ports q).cfgspace ∧
      (((List.range n).foldl (fun c i => psc_port_store c (list i)) cxls).ports q).mld =
        (cxls.ports q).mld := by
  induction n with
  | zero => exact ⟨rfl, rfl⟩
  | succ n ih =>
    rw [List.range_succ, List.foldl_append]
    simp only [List.foldl_cons, List.foldl_nil]
    have hf := psc_port_store_frame
      ((List.range n).foldl (fun c i => psc_port_store c (list i)) cxls) (list n) q
    exact ⟨hf.1.trans ih.1, hf.2.trans ih.2⟩

/-- The record at index `i` is what the cache holds for its port when no later
record of the list names the same port. -/
theorem psc_port_fold_last (list : Nat → fmapi_psc_port_info) (n : Nat)
    (cxls : cxl_switch) (i : Nat) (hi : i < n)
    (hlast : ∀ j, i < j → j < n → (list j).ppid ≠ (list i).ppid) :
    (((List.range n).foldl (fun c k => psc_port_store c (list k)) cxls).ports (list i).ppid) =
      { cxls.ports (list i).ppid with
        state := (list i).state
        dv := (list i).dv
        dt := (list i).dt
        cv := (list i).cv
        mlw := (list i).mlw
        nlw := (list i).nlw
        speeds := (list i).speeds
        mls := (list i).mls
        cls := (list i).cls
        ltssm := (list i).ltssm
        lane := (list i).lane
        lane_rev := (list i).lane_rev
        perst := (list i).perst
        prsnt := (list i).prsnt
        pwrctrl := (list i).pwrctrl
        ld := (list i).num_ld } := by
  induction n with
  | zero => exact absurd hi (Nat.not_lt_zero _)
  | succ n ih =>
    rw [List.range_succ, List.foldl_append]
    simp only [List.foldl_cons, List.foldl_nil]
    rcases Nat.lt_succ_iff_lt_or_eq.mp hi with h | h
    · rw [psc_port_store_ports_ne _ _ _ (hlast n h (Nat.lt_succ_self n))]
      exact ih h (fun j h1 h2 => hlast j h1 (Nat.lt_succ_of_lt h2))
    · subst h
      have hf := psc_port_fold_frame list i cxls (list i).ppid
      generalize (List.range i).foldl (fun c k => psc_port_store c (list k)) cxls = F at hf ⊢
      simp only [psc_port_store, set_port, Function.update_same]
      rw [hf.1, hf.2]


theorem fmapi_update_psc_port_eq (cxls : cxl_switch) (req : fmapi_req) (rsp : fmapi_rsp)
    (hc : rsp.hdr.category = FMMT.RESP)
    (hrc : rsp.hdr.return_code = FMRC_SUCCESS ∨
      rsp.hdr.return_code = FMRC_BACKGROUND_OP_STARTED)
    (hop : rsp.hdr.opcode = FMOP.PSC_PORT) :
    fmapi_update cxls req rsp =
      some { cxls := (List.range rsp.obj.psc_port_rsp.num).foldl
               (fun c i => psc_port_store c (rsp.obj.psc_port_rsp.list i)) cxls,
             rv := 0, out := [],
             calls := [sys_call.pthread_mutex_lock, sys_call.pthread_mutex_unlock,
               sys_call.mctp_retire] } := by
  have hr : ¬ (rsp.hdr.return_code ≠ FMRC_SUCCESS ∧
      rsp.hdr.return_code ≠ FMRC_BACKGROUND_OP_STARTED) := by
    rcases hrc with e | e <;> simp [e]
  simp [fmapi_update, fmapi_update_switch, hc, hr, hop]

/-- C5: for a port state response (`FMOP_PSC_PORT`) `fmapi_update` stores
each port record in the cache entry `ports[ppid]` named by the `ppid` field of
the record, not by its position in the list (of several records for one port
the last one stays), keeps the config space and the MLD of that port, and
leaves every port that no record names unchanged; with one record of port 3 at
index 0, `ports[3]` is updated and `ports[0]` is unchanged. -/
theorem fmapi_update_port_by_ppid (cxls : cxl_switch) (req : fmapi_req) (rsp : fmapi_rsp)
    (hc : rsp.hdr.category = FMMT.RESP)
    (hrc : rsp.hdr.return_code = FMRC_SUCCESS ∨
      rsp.hdr.return_code = FMRC_BACKGROUND_OP_STARTED)
    (hop : rsp.hdr.opcode = FMOP.PSC_PORT) :
    ∃ r, fmapi_update cxls req rsp = some r ∧ r.rv = 0 ∧
      r.cxls = { cxls with ports := r.cxls.ports } ∧
      (∀ q, (∀ i, i < rsp.obj.psc_port_rsp.num → (rsp.obj.psc_port_rsp.list i).ppid ≠ q) →
        r.cxls.ports q = cxls.ports q) ∧
      (∀ i, i < rsp.obj.psc_port_rsp.num →
        (∀ j, i < j → j < rsp.obj.psc_port_rsp.num →
          (rsp.obj.psc_port_rsp.list j).ppid ≠ (rsp.obj.psc_port_rsp.list i).ppid) →
        r.cxls.ports (rsp.obj.psc_port_rsp.list i).ppid =
          { cxls.ports (rsp.obj.psc_port_rsp.list i).ppid with
            state := (rsp.obj.psc_port_rsp.list i).state
            dv := (rsp.obj.psc_port_rsp.list i).dv
            dt := (rsp.obj.psc_port_rsp.list i).dt
            cv := (rsp.obj.psc_port_rsp.list i).cv
            mlw := (rsp.obj.psc_port_rsp.list i).mlw
            nlw := (rsp.obj.psc_port_rsp.list i).nlw
            speeds := (rsp.obj.psc_port_rsp.list i).speeds
            mls := (rsp.obj.psc_port_rsp.list i).mls
            cls := (rsp.obj.psc_port_rsp.list i).cls
            ltssm := (rsp.obj.psc_port_rsp.list i).ltssm
            lane := (rsp.obj.psc_port_rsp.list i).lane
            lane_rev := (rsp.obj.psc_port_rsp.list i).lane_rev
            perst := (rsp.obj.psc_port_rsp.list i).perst
            prsnt := (rsp.obj.psc_port_rsp.list i).prsnt
            pwrctrl := (rsp.obj.psc_port_rsp.list i).pwrctrl
            ld := (rsp.obj.psc_port_rsp.list i).num_ld }) ∧
      (rsp.obj.psc_port_rsp.num = 1 → (rsp.obj.psc_port_rsp.list 0).ppid = 3 →
        (r.cxls.ports 3).state = (rsp.obj.psc_port_rsp.list 0).state ∧
          (r.cxls.ports 3).prsnt = (rsp.obj.psc_port_rsp.list 0).prsnt ∧
          r.cxls.ports 0 = cxls.ports 0) := by
  refine ⟨_, fmapi_update_psc_port_eq cxls req rsp hc hrc hop, rfl, ?_, ?_, ?_, ?_⟩
  · exact psc_port_fold_rest _ _ _
  · intro q hq
    exact psc_port_fold_untouched _ _ _ q hq
  · intro i hi hlast
    exact psc_port_fold_last _ _ _ i hi hlast
  · intro hn h3
    have h0 := psc_port_fold_last rsp.obj.psc_port_rsp.list rsp.obj.psc_port_rsp.num cxls 0
      (by omega) (by intro j h1 h2; omega)
    have hu := psc_port_fold_untouched rsp.obj.psc_port_rsp.list rsp.obj.psc_port_rsp.num
      cxls 0 (by
        intro i hi
        have : i = 0 := by omega
        rw [this, h3]
        decide)
    rw [h3] at h0
    simp only
    rw [h0, hu]
    exact ⟨rfl, rfl, rfl⟩

/-- One record of port 3 at list index 0 on the zero cache. -/
theorem fmapi_update_port_by_ppid_witness :
    rsp_one_port.hdr.category = FMMT.RESP ∧
      rsp_one_port.hdr.return_code = FMRC_SUCCESS ∧
      rsp_one_port.hdr.opcode = FMOP.PSC_PORT ∧
      ∃ r, fmapi_update cxl_switch_zero (req_zero FMOP.PSC_PORT) rsp_one_port = some r ∧
        (r.cxls.ports 3).state = 2 ∧ (r.cxls.ports 3).prsnt = 1 ∧
        r.cxls.ports 0 = cxl_port_zero := by
  obtain ⟨r, hr, _, _, _, _, h5⟩ := fmapi_update_port_by_ppid cxl_switch_zero
    (req_zero FMOP.PSC_PORT) rsp_one_port rfl (Or.inl rfl) rfl
  exact ⟨rfl, rfl, rfl, r, hr, (h5 rfl rfl).1, (h5 rfl rfl).2.1, (h5 rfl rfl).2.2⟩


/-! ### Device info responses allocate the MLD record -/

theorem alloc_cfgspace_apply (n : Nat) (cs : Nat → Option (Nat → Nat)) :
    ∀ i, alloc_cfgspace n cs i =
      if i < n then
        (match cs i with
         | some b => some b
         | none => some cfgspace_calloc)
      else cs i := by
  induction n with
  | zero =>
    intro i
    simp [alloc_cfgspace]
  | succ n ih =>
    intro i
    have hstep : alloc_cfgspace (n + 1) cs =
        (match alloc_cfgspace n cs n with
         | none => Function.update (alloc_cfgspace n cs) n (some cfgspace_calloc)
         | some _ => alloc_cfgspace n cs) := by
      simp only [alloc_cfgspace, List.range_succ, List.foldl_append, List.foldl_cons,
        List.foldl_nil]
    have hn : alloc_cfgspace n cs n = cs n := by
      rw [ih n, if_neg (Nat.lt_irrefl n)]
    rw [hstep, hn]
    by_cases h1 : i < n
    · have h2 : i < n + 1 := Nat.lt_succ_of_lt h1
      have h3 : i ≠ n := Nat.ne_of_lt h1
      rw [if_pos h2]
      cases hc : cs n with
      | none =>
        simp only [Function.update_noteq h3, ih, if_pos h1]
      | some b =>
        simp only [ih, if_pos h1]
    · by_cases h4 : i = n
      · subst h4
        rw [if_pos (Nat.lt_succ_self i)]
        cases hc : cs i with
        | none => simp
        | some b => simp only [ih, if_neg h1, hc]
      · have h5 : ¬ i < n + 1 := by omega
        rw [if_neg h5]
        cases hc : cs n with
        | none => simp only [Function.update_noteq h4, ih, if_neg h1]
        | some b => simp only [ih, if_neg h1]

theorem fmapi_update_tunnel_info_eq (cxls : cxl_switch) (req : fmapi_req) (rsp : fmapi_rsp)
    (hc : rsp.hdr.category = FMMT.RESP)
    (hrc : rsp.hdr.return_code = FMRC_SUCCESS ∨
      rsp.hdr.return_code = FMRC_BACKGROUND_OP_STARTED)
    (hop : rsp.hdr.opcode = FMOP.MPC_TMC)
    (ht : rsp.obj.mpc_tmc_rsp.type = MCMT.CXLCCI)
    (hic : rsp.obj.mpc_tmc_rsp.msg.hdr.category = FMMT.RESP)
    (hirc : rsp.obj.mpc_tmc_rsp.msg.hdr.return_code = FMRC_SUCCESS ∨
      rsp.obj.mpc_tmc_rsp.msg.hdr.return_code = FMRC_BACKGROUND_OP_STARTED)
    (hiop : rsp.obj.mpc_tmc_rsp.msg.hdr.opcode = FMOP.MCC_INFO) :
    fmapi_update cxls req rsp =
      some { cxls := cci_update_info cxls req.obj.mpc_tmc_req.ppid
               rsp.obj.mpc_tmc_rsp.msg.obj.mcc_info_rsp,
             rv := 0, out := [],
             calls := [sys_call.pthread_mutex_lock, sys_call.pthread_mutex_unlock,
               sys_call.mctp_retire] } := by
  have hr : ¬ (rsp.hdr.return_code ≠ FMRC_SUCCESS ∧
      rsp.hdr.return_code ≠ FMRC_BACKGROUND_OP_STARTED) := by
    rcases hrc with e | e <;> simp [e]
  have hir : ¬ (rsp.obj.mpc_tmc_rsp.msg.hdr.return_code ≠ FMRC_SUCCESS ∧
      rsp.obj.mpc_tmc_rsp.msg.hdr.return_code ≠ FMRC_BACKGROUND_OP_STARTED) := by
    rcases hirc with e | e <;> simp [e]
  simp [fmapi_update, fmapi_update_switch, cci_update, cci_update_switch, hc, hr, hop, ht,
    hic, hir, hiop]

/-- C8: a tunneled device info response (`FMOP_MCC_INFO`) that reports `n`
logical devices leaves the port with an MLD record whose `num` is `n`. If the
port had no MLD record, exactly the config space buffers of the indices below
`n` are allocated afterwards. If it had one, every buffer already allocated is
kept as it is, the missing ones below `n` are added, and no index from `n` on
changes. -/
theorem fmapi_update_mcc_info (cxls : cxl_switch) (req : fmapi_req) (rsp : fmapi_rsp)
    (hc : rsp.hdr.category = FMMT.RESP)
    (hrc : rsp.hdr.return_code = FMRC_SUCCESS ∨
      rsp.hdr.return_code = FMRC_BACKGROUND_OP_STARTED)
    (hop : rsp.hdr.opcode = FMOP.MPC_TMC)
    (ht : rsp.obj.mpc_tmc_rsp.type = MCMT.CXLCCI)
    (hic : rsp.obj.mpc_tmc_rsp.msg.hdr.category = FMMT.RESP)
    (hirc : rsp.obj.mpc_tmc_rsp.msg.hdr.return_code = FMRC_SUCCESS ∨
      rsp.obj.mpc_tmc_rsp.msg.hdr.return_code = FMRC_BACKGROUND_OP_STARTED)
    (hiop : rsp.obj.mpc_tmc_rsp.msg.hdr.opcode = FMOP.MCC_INFO) :
    ∃ r m, fmapi_update cxls req rsp = some r ∧
      (r.cxls.ports req.obj.mpc_tmc_req.ppid).mld = some m ∧
      m.num = rsp.obj.mpc_tmc_rsp.msg.obj.mcc_info_rsp.num ∧
      ((cxls.ports req.obj.mpc_tmc_req.ppid).mld = none →
        ∀ i, (m.cfgspace i).isSome = true ↔
          i < rsp.obj.mpc_tmc_rsp.msg.obj.mcc_info_rsp.num) ∧
      (∀ m0, (cxls.ports req.obj.mpc_tmc_req.ppid).mld = some m0 →
        (∀ i b, m0.cfgspace i = some b → m.cfgspace i = some b) ∧
        (∀ i, i < rsp.obj.mpc_tmc_rsp.msg.obj.mcc_info_rsp.num →
          (m.cfgspace i).isSome = true) ∧
        (∀ i, rsp.obj.mpc_tmc_rsp.msg.obj.mcc_info_rsp.num ≤ i →
          m.cfgspace i = m0.cfgspace i)) := by
  refine ⟨_, ?m, fmapi_update_tunnel_info_eq cxls req rsp hc hrc hop ht hic hirc hiop,
    ?h2, ?h3, ?h4, ?h5⟩
  case h2 =>
    simp only [cci_update_info, set_port, Function.update_same]
    exact rfl
  case h3 => rfl
  case h4 =>
    intro hnone i
    simp only [hnone, alloc_cfgspace_apply, cxl_mld_calloc]
    by_cases hi : i < rsp.obj.mpc_tmc_rsp.msg.obj.mcc_info_rsp.num
    · simp [hi]
    · simp [hi]
  case h5 =>
    intro m0 hm0
    simp only [hm0, alloc_cfgspace_apply]
    refine ⟨?_, ?_, ?_⟩
    · intro i b hb
      by_cases hi : i < rsp.obj.mpc_tmc_rsp.msg.obj.mcc_info_rsp.num
      · simp [hi, hb]
      · simp [hi, hb]
    · intro i hi
      rw [if_pos hi]
      cases m0.cfgspace i <;> rfl
    · intro i hi
      rw [if_neg (by omega)]

/-- The request `show ld info` of port 4 on a cache without MLD records, with
a response that reports 8 logical devices: buffers 0 to 7 exist and buffer 8
does not. -/
theorem fmapi_update_mcc_info_witness :
    rsp_ld_info_8.hdr.category = FMMT.RESP ∧
      rsp_ld_info_8.hdr.opcode = FMOP.MPC_TMC ∧
      rsp_ld_info_8.obj.mpc_tmc_rsp.type = MCMT.CXLCCI ∧
      rsp_ld_info_8.obj.mpc_tmc_rsp.msg.hdr.opcode = FMOP.MCC_INFO ∧
      (cxl_switch_zero.ports 4).mld = none ∧
      ∃ r m, fmapi_update cxl_switch_zero req_ld_info_4 rsp_ld_info_8 = some r ∧
        (r.cxls.ports 4).mld = some m ∧ m.num = 8 ∧
        (∀ i, (m.cfgspace i).isSome = true ↔ i < 8) := by
  obtain ⟨r, m, h1, h2, h3, h4, _⟩ := fmapi_update_mcc_info cxl_switch_zero req_ld_info_4
    rsp_ld_info_8 rfl (Or.inl rfl) rfl rfl rfl (Or.inl rfl) rfl
  exact ⟨rfl, rfl, rfl, rfl, rfl, r, m, h1, h2, h3, h4 rfl⟩


/-! ### `submit_cli_request`: the show port operation -/

/-- C6: for the show-port operation `submit_cli_request` fills the single-port
request with the stored port id when a port id is selected without a list, the
multi-port request with the stored count and list when the selected list has
at least one entry, the all-ports request when no port id is selected but
`all` is, and makes no call at all when neither is selected; a selected port
id wins over `all`. The argument `3` ends as the single-port request of
port 3, and the argument `1,3,5-7` as the multi-port request of the five
ports 1, 3, 5, 6, 7. -/
theorem submit_cli_request_show_port (opts : CLOP → opt)
    (hcmd : (opts CLOP.CMD).val = CLCM_SHOW_PORT) :
    ((opts CLOP.PPID).set ≠ 0 → (opts CLOP.PPID).num = 0 →
        submit_cli_request opts =
          [lib_call.fmapi_fill_psc_get_port (opts CLOP.PPID).u8, lib_call.submit_fmapi 0]) ∧
      ((opts CLOP.PPID).set ≠ 0 → 0 < (opts CLOP.PPID).num →
        submit_cli_request opts =
          [lib_call.fmapi_fill_psc_get_ports (opts CLOP.PPID).num (opts CLOP.PPID).buf,
            lib_call.submit_fmapi 0]) ∧
      ((opts CLOP.PPID).set = 0 → (opts CLOP.ALL).set ≠ 0 →
        submit_cli_request opts =
          [lib_call.fmapi_fill_psc_get_all_ports, lib_call.submit_fmapi 0]) ∧
      ((opts CLOP.PPID).set = 0 → (opts CLOP.ALL).set = 0 → submit_cli_request opts = []) ∧
      (opts_show_port "3".toList).map submit_cli_request =
        some [lib_call.fmapi_fill_psc_get_port 3, lib_call.submit_fmapi 0] ∧
      (opts_show_port "1,3,5-7".toList).map submit_cli_request =
        some [lib_call.fmapi_fill_psc_get_ports 5
                (some ([1, 3, 5, 6, 7] ++ List.replicate 251 0)),
              lib_call.submit_fmapi 0] := by
  refine ⟨?_, ?_, ?_, ?_, by decide, by rfl⟩
  · intro h1 h2
    simp [submit_cli_request, hcmd, h1, h2]
  · intro h1 h2
    simp [submit_cli_request, hcmd, h1, h2]
  · intro h1 h2
    simp [submit_cli_request, hcmd, h1, h2]
  · intro h1 h2
    simp [submit_cli_request, hcmd, h1, h2]


/-- The port id 3 selected together with `all`: the single-port request of
port 3 is built. -/
theorem submit_cli_request_show_port_witness :
    (opts_show_port_with { opt_zero with set := 1, u8 := 3 } 1 CLOP.CMD).val = CLCM_SHOW_PORT ∧
      (opts_show_port_with { opt_zero with set := 1, u8 := 3 } 1 CLOP.PPID).set ≠ 0 ∧
      (opts_show_port_with { opt_zero with set := 1, u8 := 3 } 1 CLOP.ALL).set ≠ 0 ∧
      submit_cli_request (opts_show_port_with { opt_zero with set := 1, u8 := 3 } 1) =
        [lib_call.fmapi_fill_psc_get_port 3, lib_call.submit_fmapi 0] :=
  ⟨rfl, by decide, by decide,
    (submit_cli_request_show_port
      (opts_show_port_with { opt_zero with set := 1, u8 := 3 } 1) rfl).1 (by decide) rfl⟩


/-! ### Stores that a second application repeats -/

theorem absolute_on_idem {σ γ : Type} (ob : σ → γ) (g : σ → σ) (h : absolute_on ob g)
    (s : σ) : ob (g (g s)) = ob (g s) := by
  rcases h with h | ⟨c, h⟩
  · exact h (g s)
  · rw [h (g s), h s]

theorem absolute_on_foldl {σ γ ι : Type} (ob : σ → γ) (g : σ → ι → σ) (l : List ι)
    (h : ∀ i ∈ l, absolute_on ob (fun s => g s i)) :
    absolute_on ob (fun s => l.foldl g s) := by
  induction l with
  | nil => exact Or.inl (fun _ => rfl)
  | cons a l ih =>
    have ha := h a (List.mem_cons_self _ _)
    have hl := ih (fun i hi => h i (List.mem_cons_of_mem _ hi))
    simp only [List.foldl_cons]
    rcases hl with hl | ⟨c, hl⟩
    · rcases ha with ha | ⟨c, ha⟩
      · exact Or.inl (fun s => (hl (g s a)).trans (ha s))
      · exact Or.inr ⟨c, fun s => (hl (g s a)).trans (ha s)⟩
    · exact Or.inr ⟨c, fun s => hl (g s a)⟩

theorem foldl_idem_on {σ γ ι : Type} (ob : σ → γ) (g : σ → ι → σ) (l : List ι)
    (h : ∀ i ∈ l, absolute_on ob (fun s => g s i)) (s : σ) :
    ob (l.foldl g (l.foldl g s)) = ob (l.foldl g s) :=
  absolute_on_idem ob (fun s => l.foldl g s) (absolute_on_foldl ob g l h) s

theorem cond_store_idem (b1 b2 b3 b4 : Prop) [Decidable b1] [Decidable b2] [Decidable b3]
    [Decidable b4] (reg d0 d1 d2 d3 : Nat) (cs : Nat → Nat) :
    (fun (c : Nat → Nat) =>
        let c := if b1 then Function.update c reg d0 else c
        let c := if b2 then Function.update c reg d1 else c
        let c := if b3 then Function.update c reg d2 else c
        let c := if b4 then Function.update c reg d3 else c
        c)
      ((fun (c : Nat → Nat) =>
        let c := if b1 then Function.update c reg d0 else c
        let c := if b2 then Function.update c reg d1 else c
        let c := if b3 then Function.update c reg d2 else c
        let c := if b4 then Function.update c reg d3 else c
        c) cs) =
      (fun (c : Nat → Nat) =>
        let c := if b1 then Function.update c reg d0 else c
        let c := if b2 then Function.update c reg d1 else c
        let c := if b3 then Function.update c reg d2 else c
        let c := if b4 then Function.update c reg d3 else c
        c) cs := by
  by_cases h1 : b1 <;> by_cases h2 : b2 <;> by_cases h3 : b3 <;> by_cases h4 : b4 <;>
    simp [h1, h2, h3, h4, Function.update_idem]

theorem cfg_store_idem (fdbe reg : Nat) (data : Nat → Nat) (cs : Nat → Nat) :
    cfg_store fdbe reg data (cfg_store fdbe reg data cs) = cfg_store fdbe reg data cs :=
  cond_store_idem (fdbe &&& 0x01 ≠ 0) (fdbe &&& 0x02 ≠ 0) (fdbe &&& 0x04 ≠ 0)
    (fdbe &&& 0x08 ≠ 0) reg (data 0) (data 1) (data 2) (data 3) cs

theorem store_list_apply (num start : Nat) (list : Nat → Nat) (arr : Nat → Nat) :
    ∀ j, store_list num start list arr j =
      if start ≤ j ∧ j < start + num then list (j - start) else arr j := by
  induction num with
  | zero =>
    intro j
    have h0 : ¬ (start ≤ j ∧ j < start + 0) := by omega
    rw [if_neg h0]
    rfl
  | succ n ih =>
    intro j
    have hstep : store_list (n + 1) start list arr =
        Function.update (store_list n start list arr) (n + start) (list n) := by
      simp only [store_list, List.range_succ, List.foldl_append, List.foldl_cons,
        List.foldl_nil]
    rw [hstep]
    by_cases hj : j = n + start
    · subst hj
      rw [Function.update_same, if_pos (by omega)]
      congr 1
      omega
    · rw [Function.update_noteq hj, ih j]
      by_cases h1 : start ≤ j ∧ j < start + n
      · rw [if_pos h1, if_pos (by omega)]
      · rw [if_neg h1, if_neg (by omega)]

theorem store_list_idem (num start : Nat) (list : Nat → Nat) (arr : Nat → Nat) :
    store_list num start list (store_list num start list arr) =
      store_list num start list arr := by
  funext j
  rw [store_list_apply, store_list_apply]
  split <;> rfl

theorem alloc_cfgspace_idem (n : Nat) (cs : Nat → Option (Nat → Nat)) :
    alloc_cfgspace n (alloc_cfgspace n cs) = alloc_cfgspace n cs := by
  funext i
  rw [alloc_cfgspace_apply, alloc_cfgspace_apply]
  by_cases h : i < n
  · simp only [if_pos h]
    cases cs i <;> rfl
  · simp only [if_neg h]


theorem set_port_set_port (c : cxl_switch) (p : Nat) (x y : cxl_port) :
    set_port (set_port c p x) p y = set_port c p y := by
  simp [set_port, Function.update_idem]

theorem set_port_ports_same (c : cxl_switch) (p : Nat) (x : cxl_port) :
    (set_port c p x).ports p = x := by
  simp [set_port]

theorem cci_update_info_idem (c : cxl_switch) (p : Nat) (o : fmapi_mcc_info_rsp) :
    cci_update_info (cci_update_info c p o) p o = cci_update_info c p o := by
  simp only [cci_update_info, set_port_ports_same, set_port_set_port, alloc_cfgspace_idem]

theorem with_mld_idem (c c1 : cxl_switch) (p : Nat) (f : cxl_mld → cxl_mld)
    (hf : ∀ m, f (f m) = f m) (h : with_mld c p f = some c1) :
    with_mld c1 p f = some c1 := by
  unfold with_mld at h
  cases hm : (c.ports p).mld with
  | none => simp [hm] at h
  | some m =>
    simp only [hm, Option.some.injEq] at h
    subst h
    simp only [with_mld, set_port_ports_same, set_port_set_port, hf]

theorem cci_update_switch_idem (c c1 : cxl_switch) (p : Nat) (msg : cci_msg)
    (h : cci_update_switch c p msg = some c1) :
    cci_update_switch c1 p msg = some c1 := by
  unfold cci_update_switch at h ⊢
  split at h
  · simp only [Option.some.injEq] at h
    subst h
    rw [cci_update_info_idem]
  · exact with_mld_idem c c1 p _ (fun m => by simp [store_list_idem]) h
  · dsimp only at h ⊢
    split at h
    · rename_i h0
      simp only [Option.some.injEq] at h
      subst h
      rw [if_pos h0]
    · rename_i h0
      rw [if_neg h0]
      exact with_mld_idem c c1 p _ (fun m => by simp [store_list_idem]) h
  · exact with_mld_idem c c1 p _ (fun m => rfl) h
  · exact with_mld_idem c c1 p _ (fun m => rfl) h
  · exact with_mld_idem c c1 p _ (fun m => rfl) h
  · dsimp only at h ⊢
    split at h
    · rename_i h0
      simp only [Option.some.injEq] at h
      subst h
      rw [if_pos h0]
    · rename_i h0
      rw [if_neg h0]
      exact with_mld_idem c c1 p _ (fun m => by simp [store_list_idem]) h
  · dsimp only at h ⊢
    split at h
    · rename_i h0
      simp only [Option.some.injEq] at h
      subst h
      rw [if_pos h0]
    · rename_i h0
      rw [if_neg h0]
      exact with_mld_idem c c1 p _ (fun m => by simp [store_list_idem]) h
  · dsimp only at h ⊢
    split at h
    · rename_i h0
      simp only [Option.some.injEq] at h
      subst h
      rw [if_pos h0]
    · rename_i h0
      rw [if_neg h0]
      exact with_mld_idem c c1 p _ (fun m => by simp [store_list_idem]) h
  · dsimp only at h ⊢
    split at h
    · rename_i h0
      simp only [Option.some.injEq] at h
      subst h
      rw [if_pos h0]
    · rename_i h0
      rw [if_neg h0]
      exact with_mld_idem c c1 p _ (fun m => by simp [store_list_idem]) h
  · simp only [Option.some.injEq] at h
    subst h
    rfl


theorem cci_update_idem (c : cxl_switch) (p : Nat) (msg : cci_msg) (r : cci_update_result)
    (h : cci_update c p msg = some r) :
    ∃ r2, cci_update r.cxls p msg = some r2 ∧ r2.cxls = r.cxls := by
  by_cases hc : msg.hdr.category ≠ FMMT.RESP
  · simp only [cci_update, if_pos hc, Option.some.injEq] at h ⊢
    subst h
    exact ⟨_, rfl, rfl⟩
  · by_cases hr : msg.hdr.return_code ≠ FMRC_SUCCESS ∧
        msg.hdr.return_code ≠ FMRC_BACKGROUND_OP_STARTED
    · simp only [cci_update, if_neg hc, if_pos hr, Option.some.injEq] at h ⊢
      subst h
      exact ⟨_, rfl, rfl⟩
    · simp only [cci_update, if_neg hc, if_neg hr] at h ⊢
      cases hs : cci_update_switch c p msg with
      | none => simp [hs] at h
      | some c1 =>
        simp only [hs, Option.some.injEq] at h
        subst h
        simp only [cci_update_switch_idem c c1 p msg hs]
        exact ⟨_, rfl, rfl⟩

/-- A second store to the same config space byte replaces the first. -/
theorem mld_cfg_store_overwrite (s : cxl_switch) (p l r v w : Nat) :
    (mld_cfg_store s p l r v).bind (fun c => mld_cfg_store c p l r w) =
      mld_cfg_store s p l r w := by
  unfold mld_cfg_store
  cases hm : (s.ports p).mld with
  | none => rfl
  | some m =>
    cases hb : m.cfgspace l with
    | none => simp [hb]
    | some buf =>
      by_cases hr : r < SIZEOF_PCLN_CFG
      · simp [hb, hr, set_port, Function.update_idem]
      · simp [hb, hr]

theorem mld_cfg_store_idem (s c : cxl_switch) (p l r v : Nat)
    (h : mld_cfg_store s p l r v = some c) : mld_cfg_store c p l r v = some c := by
  have ho := mld_cfg_store_overwrite s p l r v v
  rw [h] at ho
  simpa using ho

theorem cond_chain_eq (b1 b2 b3 b4 : Prop) [Decidable b1] [Decidable b2] [Decidable b3]
    [Decidable b4] (f : cxl_switch → Nat → Option cxl_switch)
    (how : ∀ s v w, (f s v).bind (fun c => f c w) = f s w)
    (s : cxl_switch) (d0 d1 d2 d3 : Nat) :
    ((((if b1 then f s d0 else some s).bind
        (fun t => if b2 then f t d1 else some t)).bind
        (fun t => if b3 then f t d2 else some t)).bind
        (fun t => if b4 then f t d3 else some t)) =
      if b4 then f s d3
      else if b3 then f s d2
      else if b2 then f s d1
      else if b1 then f s d0
      else some s := by
  by_cases h1 : b1 <;> by_cases h2 : b2 <;> by_cases h3 : b3 <;> by_cases h4 : b4 <;>
    simp [h1, h2, h3, h4, how]

/-- The four conditional stores amount to the store of the highest enabled
byte. -/
theorem mpc_cfg_update_eq (s : cxl_switch) (q : fmapi_mpc_cfg_req) (data : Nat → Nat) :
    mpc_cfg_update s q data =
      if q.fdbe &&& 0x08 ≠ 0 then
        mld_cfg_store s q.ppid q.ldid ((q.ext <<< 8) ||| q.reg) (data 3)
      else if q.fdbe &&& 0x04 ≠ 0 then
        mld_cfg_store s q.ppid q.ldid ((q.ext <<< 8) ||| q.reg) (data 2)
      else if q.fdbe &&& 0x02 ≠ 0 then
        mld_cfg_store s q.ppid q.ldid ((q.ext <<< 8) ||| q.reg) (data 1)
      else if q.fdbe &&& 0x01 ≠ 0 then
        mld_cfg_store s q.ppid q.ldid ((q.ext <<< 8) ||| q.reg) (data 0)
      else some s := by
  have key : ∀ (b : Prop) [Decidable b] (k : Nat) (o : Option cxl_switch),
      (match o with
        | none => none
        | some t => if b then
            mld_cfg_store t q.ppid q.ldid ((q.ext <<< 8) ||| q.reg) (data k) else some t) =
      o.bind (fun t => if b then
            mld_cfg_store t q.ppid q.ldid ((q.ext <<< 8) ||| q.reg) (data k) else some t) := by
    intro b _ k o
    cases o <;> rfl
  unfold mpc_cfg_update
  simp only [key]
  exact cond_chain_eq (q.fdbe &&& 0x01 ≠ 0) (q.fdbe &&& 0x02 ≠ 0) (q.fdbe &&& 0x04 ≠ 0)
    (q.fdbe &&& 0x08 ≠ 0)
    (fun t v => mld_cfg_store t q.ppid q.ldid ((q.ext <<< 8) ||| q.reg) v)
    (fun t v w => mld_cfg_store_overwrite t q.ppid q.ldid _ v w)
    s (data 0) (data 1) (data 2) (data 3)

theorem mpc_cfg_update_idem (s c : cxl_switch) (q : fmapi_mpc_cfg_req) (data : Nat → Nat)
    (h : mpc_cfg_update s q data = some c) : mpc_cfg_update c q data = some c := by
  rw [mpc_cfg_update_eq] at h ⊢
  by_cases h4 : q.fdbe &&& 0x08 ≠ 0
  · rw [if_pos h4] at h ⊢
    exact mld_cfg_store_idem s c _ _ _ _ h
  · rw [if_neg h4] at h ⊢
    by_cases h3 : q.fdbe &&& 0x04 ≠ 0
    · rw [if_pos h3] at h ⊢
      exact mld_cfg_store_idem s c _ _ _ _ h
    · rw [if_neg h3] at h ⊢
      by_cases h2 : q.fdbe &&& 0x02 ≠ 0
      · rw [if_pos h2] at h ⊢
        exact mld_cfg_store_idem s c _ _ _ _ h
      · rw [if_neg h2] at h ⊢
        by_cases h1 : q.fdbe &&& 0x01 ≠ 0
        · rw [if_pos h1] at h ⊢
          exact mld_cfg_store_idem s c _ _ _ _ h
        · rw [if_neg h1]

theorem psc_port_fold_idem (list : Nat → fmapi_psc_port_info) (n : Nat) (S : cxl_switch) :
    (List.range n).foldl (fun c i => psc_port_store c (list i))
        ((List.range n).foldl (fun c i => psc_port_store c (list i)) S) =
      (List.range n).foldl (fun c i => psc_port_store c (list i)) S := by
  have hports : ∀ q,
      (((List.range n).foldl (fun c i => psc_port_store c (list i))
        ((List.range n).foldl (fun c i => psc_port_store c (list i)) S)).ports q) =
      (((List.range n).foldl (fun c i => psc_port_store c (list i)) S).ports q) := by
    intro q
    have h1 := foldl_idem_on
      (fun (c : cxl_switch) =>
        ({ c.ports q with cfgspace := fun _ => 0, mld := none } : cxl_port))
      (fun c i => psc_port_store c (list i)) (List.range n)
      (by
        intro i _
        by_cases hq : (list i).ppid = q
        · right
          refine ⟨{ cxl_port_zero with
            state := (list i).state
            dv := (list i).dv
            dt := (list i).dt
            cv := (list i).cv
            mlw := (list i).mlw
            nlw := (list i).nlw
            speeds := (list i).speeds
            mls := (list i).mls
            cls := (list i).cls
            ltssm := (list i).ltssm
            lane := (list i).lane
            lane_rev := (list i).lane_rev
            perst := (list i).perst
            prsnt := (list i).prsnt
            pwrctrl := (list i).pwrctrl
            ld := (list i).num_ld }, fun s => ?_⟩
          subst hq
          simp only [psc_port_store, set_port, Function.update_same]
          rfl
        · left
          intro s
          simp only [psc_port_store_ports_ne s (list i) q hq]) S
    have h2 := psc_port_fold_frame list n
      ((List.range n).foldl (fun c i => psc_port_store c (list i)) S) q
    generalize ((List.range n).foldl (fun c i => psc_port_store c (list i))
      ((List.range n).foldl (fun c i => psc_port_store c (list i)) S)).ports q = a at h1 h2 ⊢
    generalize ((List.range n).foldl (fun c i => psc_port_store c (list i)) S).ports q = b
      at h1 h2 ⊢
    obtain ⟨e1, e2⟩ := h2
    cases a
    cases b
    simp_all
  rw [psc_port_fold_rest list (List.range n)
    ((List.range n).foldl (fun c i => psc_port_store c (list i)) S)]
  have hf : ((List.range n).foldl (fun c i => psc_port_store c (list i))
      ((List.range n).foldl (fun c i => psc_port_store c (list i)) S)).ports =
      ((List.range n).foldl (fun c i => psc_port_store c (list i)) S).ports := funext hports
  rw [hf]


theorem vppbs_fold_apply (x : fmapi_vsc_info_blk) (vp : Nat → cxl_vppb) (n : Nat) :
    ∀ k, ((List.range n).foldl
        (fun vp k => Function.update vp k
          { vp k with
            bind_status := (x.list k).status
            ppid := (x.list k).ppid
            ldid := (x.list k).ldid }) vp) k =
      if k < n then
        { bind_status := (x.list k).status, ppid := (x.list k).ppid, ldid := (x.list k).ldid }
      else vp k := by
  induction n with
  | zero =>
    intro k
    rfl
  | succ n ih =>
    intro k
    rw [List.range_succ, List.foldl_append]
    simp only [List.foldl_cons, List.foldl_nil]
    by_cases hk : k = n
    · subst hk
      rw [Function.update_same, if_pos (Nat.lt_succ_self k)]
    · rw [Function.update_noteq hk, ih k]
      by_cases h1 : k < n
      · rw [if_pos h1, if_pos (Nat.lt_succ_of_lt h1)]
      · rw [if_neg h1, if_neg (by omega)]

theorem vsc_info_store_vcss_ne (c : cxl_switch) (x : fmapi_vsc_info_blk) (q : Nat)
    (h : x.vcsid ≠ q) : (vsc_info_store c x).vcss q = c.vcss q := by
  simp [vsc_info_store, Function.update_noteq (Ne.symm h)]

theorem vsc_info_fold_rest (list : Nat → fmapi_vsc_info_blk) (l : List Nat)
    (cxls : cxl_switch) :
    l.foldl (fun c i => vsc_info_store c (list i)) cxls =
      { cxls with vcss := (l.foldl (fun c i => vsc_info_store c (list i)) cxls).vcss } := by
  induction l generalizing cxls with
  | nil => rfl
  | cons a l ih =>
    simp only [List.foldl_cons]
    rw [ih]
    rfl

theorem vsc_info_fold_idem (list : Nat → fmapi_vsc_info_blk) (n : Nat) (S : cxl_switch) :
    (List.range n).foldl (fun c i => vsc_info_store c (list i))
        ((List.range n).foldl (fun c i => vsc_info_store c (list i)) S) =
      (List.range n).foldl (fun c i => vsc_info_store c (list i)) S := by
  have hvcss : ∀ q,
      (((List.range n).foldl (fun c i => vsc_info_store c (list i))
        ((List.range n).foldl (fun c i => vsc_info_store c (list i)) S)).vcss q) =
      (((List.range n).foldl (fun c i => vsc_info_store c (list i)) S).vcss q) := by
    intro q
    have h1 := foldl_idem_on
      (fun (c : cxl_switch) =>
        ((c.vcss q).vcsid, (c.vcss q).state, (c.vcss q).uspid, (c.vcss q).num))
      (fun c i => vsc_info_store c (list i)) (List.range n)
      (by
        intro i _
        by_cases hq : (list i).vcsid = q
        · right
          refine ⟨((list i).vcsid, (list i).state, (list i).uspid, (list i).num),
            fun s => ?_⟩
          subst hq
          simp [vsc_info_store]
        · left
          intro s
          simp only [vsc_info_store_vcss_ne s (list i) q hq]) S
    have h2 : ∀ k,
        ((((List.range n).foldl (fun c i => vsc_info_store c (list i))
          ((List.range n).foldl (fun c i => vsc_info_store c (list i)) S)).vcss q).vppbs k) =
        ((((List.range n).foldl (fun c i => vsc_info_store c (list i)) S).vcss q).vppbs k) := by
      intro k
      exact foldl_idem_on (fun (c : cxl_switch) => (c.vcss q).vppbs k)
        (fun c i => vsc_info_store c (list i)) (List.range n)
        (by
          intro i _
          by_cases hq : (list i).vcsid = q
          · by_cases hk : k < (list i).num
            · right
              refine ⟨{ bind_status := ((list i).list k).status,
                        ppid := ((list i).list k).ppid,
                        ldid := ((list i).list k).ldid }, fun s => ?_⟩
              subst hq
              simp only [vsc_info_store, Function.update_same, vppbs_fold_apply, if_pos hk]
            · left
              intro s
              subst hq
              simp only [vsc_info_store, Function.update_same, vppbs_fold_apply, if_neg hk]
          · left
            intro s
            simp only [vsc_info_store_vcss_ne s (list i) q hq]) S
    have h3 := funext h2
    generalize ((List.range n).foldl (fun c i => vsc_info_store c (list i))
      ((List.range n).foldl (fun c i => vsc_info_store c (list i)) S)).vcss q = a at h1 h3 ⊢
    generalize ((List.range n).foldl (fun c i => vsc_info_store c (list i)) S).vcss q = b
      at h1 h3 ⊢
    cases a
    cases b
    simp_all
  rw [vsc_info_fold_rest list (List.range n)
    ((List.range n).foldl (fun c i => vsc_info_store c (list i)) S)]
  have hf : ((List.range n).foldl (fun c i => vsc_info_store c (list i))
      ((List.range n).foldl (fun c i => vsc_info_store c (list i)) S)).vcss =
      ((List.range n).foldl (fun c i => vsc_info_store c (list i)) S).vcss := funext hvcss
  rw [hf]


theorem fmapi_update_switch_idem (c : cxl_switch) (req : fmapi_req) (rsp : fmapi_rsp)
    (x : cxl_switch × Bool × List printed)
    (h : fmapi_update_switch c req rsp = some x) :
    ∃ y, fmapi_update_switch x.1 req rsp = some y ∧ y.1 = x.1 := by
  cases hop : rsp.hdr.opcode <;> simp only [fmapi_update_switch, hop] at h ⊢
  case PSC_PORT =>
    cases h
    exact ⟨_, rfl, psc_port_fold_idem _ _ _⟩
  case VSC_INFO =>
    cases h
    exact ⟨_, rfl, vsc_info_fold_idem _ _ _⟩
  case PSC_CFG =>
    by_cases ht : req.obj.psc_cfg_req.type = FMCT_READ
    · simp only [if_pos ht, Option.some.injEq] at h ⊢
      subst h
      refine ⟨_, rfl, ?_⟩
      simp only [set_port_ports_same, set_port_set_port, cfg_store_idem]
    · simp only [if_neg ht, Option.some.injEq] at h ⊢
      subst h
      exact ⟨_, rfl, rfl⟩
  case MPC_TMC =>
    by_cases ht : rsp.obj.mpc_tmc_rsp.type ≠ MCMT.CXLCCI
    · simp only [if_pos ht, Option.some.injEq] at h ⊢
      subst h
      exact ⟨_, rfl, rfl⟩
    · simp only [if_neg ht] at h ⊢
      cases hu : cci_update c req.obj.mpc_tmc_req.ppid rsp.obj.mpc_tmc_rsp.msg with
      | none => simp [hu] at h
      | some r =>
        simp only [hu, Option.some.injEq] at h
        subst h
        obtain ⟨r2, hr2, e2⟩ := cci_update_idem c _ _ r hu
        simp only [hr2]
        exact ⟨_, rfl, e2⟩
  case MPC_CFG =>
    by_cases ht : req.obj.mpc_cfg_req.type = FMCT_READ
    · simp only [if_pos ht] at h ⊢
      cases hu : mpc_cfg_update c req.obj.mpc_cfg_req rsp.obj.mpc_cfg_rsp.data with
      | none => simp [hu] at h
      | some c1 =>
        simp only [hu, Option.some.injEq] at h
        subst h
        simp only [mpc_cfg_update_idem c c1 _ _ hu]
        exact ⟨_, rfl, rfl⟩
    · simp only [if_neg ht, Option.some.injEq] at h ⊢
      subst h
      exact ⟨_, rfl, rfl⟩
  all_goals
    simp only [Option.some.injEq] at h
    subst h
    exact ⟨_, rfl, rfl⟩

/-! ### Failing return codes -/

/-- C11: for a response with category RESPONSE and a return code `c` other
than SUCCESS and BACKGROUND_OP_STARTED, `fmapi_handler` and `fmapi_update`
return exactly `c`, print only the error line (no opcode is dispatched), and
`fmapi_update` leaves the Switch State Cache unchanged. -/
theorem fmapi_failing_return_code (cxls : cxl_switch) (req : fmapi_req) (rsp : fmapi_rsp)
    (hc : rsp.hdr.category = FMMT.RESP)
    (hrc : rsp.hdr.return_code ≠ FMRC_SUCCESS ∧
      rsp.hdr.return_code ≠ FMRC_BACKGROUND_OP_STARTED) :
    (fmapi_handler req rsp).rv = rsp.hdr.return_code ∧
      (fmapi_handler req rsp).out = [printed.error_rc rsp.hdr.return_code] ∧
      fmapi_update cxls req rsp =
        some { cxls := cxls, rv := rsp.hdr.return_code,
               out := [printed.error_rc rsp.hdr.return_code],
               calls := [sys_call.pthread_mutex_unlock, sys_call.mctp_retire] } := by
  refine ⟨?_, ?_, ?_⟩
  · simp [fmapi_handler, hc, hrc]
  · simp [fmapi_handler, hc, hrc]
  · simp [fmapi_update, hc, hrc]

/-- A port state response that carries the return code 2. -/
theorem fmapi_failing_return_code_witness :
    (rsp_zero (rsp_hdr FMOP.PSC_PORT 2)).hdr.category = FMMT.RESP ∧
      ((rsp_zero (rsp_hdr FMOP.PSC_PORT 2)).hdr.return_code ≠ FMRC_SUCCESS ∧
        (rsp_zero (rsp_hdr FMOP.PSC_PORT 2)).hdr.return_code ≠
          FMRC_BACKGROUND_OP_STARTED) ∧
      (fmapi_handler (req_zero FMOP.PSC_PORT) (rsp_zero (rsp_hdr FMOP.PSC_PORT 2))).rv = 2 ∧
      (fmapi_update cxl_switch_zero (req_zero FMOP.PSC_PORT)
        (rsp_zero (rsp_hdr FMOP.PSC_PORT 2))).map (fun r => r.rv) = some 2 := by
  have hw := fmapi_failing_return_code cxl_switch_zero (req_zero FMOP.PSC_PORT)
    (rsp_zero (rsp_hdr FMOP.PSC_PORT 2)) rfl (by decide)
  refine ⟨rfl, by decide, hw.1, ?_⟩
  rw [hw.2.2]
  rfl


/-! ### Which opcode selects the decoder and the dispatch -/

/-- C12 (amended): in `fmapi_handler` and `fmapi_update` the kind tag that
decodes the response payload is the one of the opcode in the response header,
with the decoded request object as decode context, and the dispatch is on the
opcode of the response header; the opcode of the request only selects the
kind that decodes the request object, and two requests that differ only in
their header give the same result for the same response. -/
theorem fmapi_dispatch_on_response_opcode (cxls : cxl_switch) (req : fmapi_req)
    (rsp : fmapi_rsp)
    (hc : rsp.hdr.category = FMMT.RESP)
    (hrc : rsp.hdr.return_code = FMRC_SUCCESS ∨
      rsp.hdr.return_code = FMRC_BACKGROUND_OP_STARTED) :
    fmapi_deserialize_calls req rsp =
        [{ kind := FMOB.HDR, context := none },
         { kind := FMOB.req req.hdr.opcode, context := none },
         { kind := FMOB.HDR, context := none },
         { kind := FMOB.rsp rsp.hdr.opcode, context := some req.obj }] ∧
      (∀ h : fmapi_hdr,
        fmapi_update cxls { req with hdr := h } rsp = fmapi_update cxls req rsp ∧
          (fmapi_handler { req with hdr := h } rsp).rv = (fmapi_handler req rsp).rv ∧
          (fmapi_handler { req with hdr := h } rsp).out = (fmapi_handler req rsp).out) ∧
      (fmapi_handled rsp.hdr.opcode = false →
        (fmapi_handler req rsp).rv = 1 ∧
          (fmapi_update cxls req rsp).map (fun r => r.rv) = some 1) := by
  have hr : ¬ (rsp.hdr.return_code ≠ FMRC_SUCCESS ∧
      rsp.hdr.return_code ≠ FMRC_BACKGROUND_OP_STARTED) := by
    rcases hrc with e | e <;> simp [e]
  refine ⟨?_, ?_, ?_⟩
  · simp [fmapi_deserialize_calls, hc, hr]
  · intro h
    exact ⟨rfl, rfl, rfl⟩
  · intro hop
    cases ho : rsp.hdr.opcode <;> rw [ho] at hop <;>
      first
        | exact absurd hop (by decide)
        | simp [fmapi_handler, fmapi_update, fmapi_update_switch, hc, hr, ho]

/-- The port state response of port 3 with the request of a bind. -/
theorem fmapi_dispatch_on_response_opcode_witness :
    rsp_one_port.hdr.category = FMMT.RESP ∧
      rsp_one_port.hdr.return_code = FMRC_SUCCESS ∧
      fmapi_deserialize_calls (req_zero FMOP.VSC_BIND) rsp_one_port =
        [{ kind := FMOB.HDR, context := none },
         { kind := FMOB.req FMOP.VSC_BIND, context := none },
         { kind := FMOB.HDR, context := none },
         { kind := FMOB.rsp FMOP.PSC_PORT, context := some req_obj_zero }] :=
  ⟨rfl, rfl,
    (fmapi_dispatch_on_response_opcode cxl_switch_zero (req_zero FMOP.VSC_BIND) rsp_one_port
      rfl (Or.inl rfl)).1⟩

/-- C12 (as stated) fails: two responses to the same port state request that
differ only in their header opcode are decoded with different kind tags and
dispatched differently: the one with `FMOP_PSC_PORT` stores the record of
port 3, the one with `FMOP_VSC_BIND` stores nothing and prints nothing. -/
theorem fmapi_dispatch_depends_on_response_opcode :
    rsp_one_port_as_bind.obj.psc_port_rsp.num = rsp_one_port.obj.psc_port_rsp.num ∧
      (fmapi_update cxl_switch_zero (req_zero FMOP.PSC_PORT) rsp_one_port).map
          (fun r => (r.cxls.ports 3).state) = some 2 ∧
      (fmapi_update cxl_switch_zero (req_zero FMOP.PSC_PORT) rsp_one_port_as_bind).map
          (fun r => (r.cxls.ports 3).state) = some 0 ∧
      (fmapi_handler (req_zero FMOP.PSC_PORT) rsp_one_port).out.length = 1 ∧
      (fmapi_handler (req_zero FMOP.PSC_PORT) rsp_one_port_as_bind).out.length = 0 ∧
      (fmapi_deserialize_calls (req_zero FMOP.PSC_PORT) rsp_one_port).getLast? =
          some { kind := FMOB.rsp FMOP.PSC_PORT, context := some req_obj_zero } ∧
      (fmapi_deserialize_calls (req_zero FMOP.PSC_PORT) rsp_one_port_as_bind).getLast? =
          some { kind := FMOB.rsp FMOP.VSC_BIND, context := some req_obj_zero } := by
  refine ⟨rfl, ?_, rfl, rfl, rfl, by decide, by decide⟩
  rfl


/-! ### Config space responses -/

theorem cond_store_other (b1 b2 b3 b4 : Prop) [Decidable b1] [Decidable b2] [Decidable b3]
    [Decidable b4] (reg d0 d1 d2 d3 : Nat) (cs : Nat → Nat) (j : Nat) (h : j ≠ reg) :
    (fun (c : Nat → Nat) =>
        let c := if b1 then Function.update c reg d0 else c
        let c := if b2 then Function.update c reg d1 else c
        let c := if b3 then Function.update c reg d2 else c
        let c := if b4 then Function.update c reg d3 else c
        c) cs j = cs j := by
  by_cases h1 : b1 <;> by_cases h2 : b2 <;> by_cases h3 : b3 <;> by_cases h4 : b4 <;>
    simp [h1, h2, h3, h4, Function.update_noteq h]

/-- The four conditional stores change no byte other than the one at `reg`. -/
theorem cfg_store_other (fdbe reg : Nat) (data : Nat → Nat) (cs : Nat → Nat) (j : Nat)
    (h : j ≠ reg) : cfg_store fdbe reg data cs j = cs j :=
  cond_store_other (fdbe &&& 0x01 ≠ 0) (fdbe &&& 0x02 ≠ 0) (fdbe &&& 0x04 ≠ 0)
    (fdbe &&& 0x08 ≠ 0) reg (data 0) (data 1) (data 2) (data 3) cs j h

theorem cond_store_none (b1 b2 b3 b4 : Prop) [Decidable b1] [Decidable b2] [Decidable b3]
    [Decidable b4] (reg d0 d1 d2 d3 : Nat) (cs : Nat → Nat)
    (h1 : ¬ b1) (h2 : ¬ b2) (h3 : ¬ b3) (h4 : ¬ b4) :
    (fun (c : Nat → Nat) =>
        let c := if b1 then Function.update c reg d0 else c
        let c := if b2 then Function.update c reg d1 else c
        let c := if b3 then Function.update c reg d2 else c
        let c := if b4 then Function.update c reg d3 else c
        c) cs = cs := by
  simp [h1, h2, h3, h4]

/-- No enabled byte: the four conditional stores change nothing. -/
theorem cfg_store_none (fdbe reg : Nat) (data : Nat → Nat) (cs : Nat → Nat)
    (h1 : fdbe &&& 0x01 = 0) (h2 : fdbe &&& 0x02 = 0) (h3 : fdbe &&& 0x04 = 0)
    (h4 : fdbe &&& 0x08 = 0) : cfg_store fdbe reg data cs = cs :=
  cond_store_none (fdbe &&& 0x01 ≠ 0) (fdbe &&& 0x02 ≠ 0) (fdbe &&& 0x04 ≠ 0)
    (fdbe &&& 0x08 ≠ 0) reg (data 0) (data 1) (data 2) (data 3) cs
    (fun h => h h1) (fun h => h h2) (fun h => h h3) (fun h => h h4)

/-- One store into the buffer of a logical device changes no byte of that
buffer other than the one at `reg`. -/
theorem mld_cfg_store_other (s c : cxl_switch) (p l reg v : Nat) (m : cxl_mld)
    (buf : Nat → Nat) (hm : (s.ports p).mld = some m) (hb : m.cfgspace l = some buf)
    (h : mld_cfg_store s p l reg v = some c) :
    ∃ m1 buf1, (c.ports p).mld = some m1 ∧ m1.cfgspace l = some buf1 ∧
      buf1 reg = v ∧ ∀ j, j ≠ reg → buf1 j = buf j := by
  simp only [mld_cfg_store, hm, hb] at h
  by_cases hr : reg < SIZEOF_PCLN_CFG
  swap
  · rw [if_neg hr] at h
    cases h
  rw [if_pos hr, Option.some.injEq] at h
  subst h
  refine ⟨{ m with
    cfgspace := Function.update m.cfgspace l (some (Function.update buf reg v)) },
    Function.update buf reg v, ?_, ?_, ?_, ?_⟩
  · simp only [set_port, Function.update_same]
  · simp only [Function.update_same]
  · simp only [Function.update_same]
  · intro j hj
    exact Function.update_noteq hj _ _

/-- One store at an index outside the buffer of a logical device is
undefined. -/
theorem mld_cfg_store_outside (s : cxl_switch) (p l reg v : Nat)
    (h : SIZEOF_PCLN_CFG ≤ reg) : mld_cfg_store s p l reg v = none := by
  have hn : ¬ reg < SIZEOF_PCLN_CFG := Nat.not_lt.mpr h
  unfold mld_cfg_store
  cases (s.ports p).mld with
  | none => rfl
  | some m =>
    cases hb : m.cfgspace l with
    | none => simp only [hb]
    | some buf => simp only [hb, if_neg hn]

/-- C13 (what the code does): for a config space response with category
RESPONSE and return code SUCCESS or BACKGROUND_OP_STARTED whose request was a
READ of register index `r = (ext << 8) | reg`, `fmapi_update` returns 0 and
changes no cached config space byte other than the one at position `r`: the
positions `r + 1`, `r + 2` and `r + 3` are never written, whatever `fdbe` is,
and when bit 3 of `fdbe` is set position `r` ends up holding `data[3]`. This
holds for `FMOP_PSC_CFG` in the config space of the port and, when `r` lies
inside the buffer of the logical device, for `FMOP_MPC_CFG` in that buffer.
For `FMOP_MPC_CFG` with `r` at or beyond the size of the buffer and a byte
enable bit set, the store goes outside the buffer and the call is
undefined. -/
theorem fmapi_update_cfg_read_single_byte (cxls : cxl_switch) (req : fmapi_req)
    (rsp : fmapi_rsp)
    (hc : rsp.hdr.category = FMMT.RESP)
    (hrc : rsp.hdr.return_code = FMRC_SUCCESS ∨
      rsp.hdr.return_code = FMRC_BACKGROUND_OP_STARTED) :
    (rsp.hdr.opcode = FMOP.PSC_CFG → req.obj.psc_cfg_req.type = FMCT_READ →
      ∃ r, fmapi_update cxls req rsp = some r ∧ r.rv = 0 ∧
        (∀ j, j ≠ ((req.obj.psc_cfg_req.ext <<< 8) ||| req.obj.psc_cfg_req.reg) →
          (r.cxls.ports req.obj.psc_cfg_req.ppid).cfgspace j =
            (cxls.ports req.obj.psc_cfg_req.ppid).cfgspace j) ∧
        (req.obj.psc_cfg_req.fdbe &&& 0x08 ≠ 0 →
          (r.cxls.ports req.obj.psc_cfg_req.ppid).cfgspace
              ((req.obj.psc_cfg_req.ext <<< 8) ||| req.obj.psc_cfg_req.reg) =
            rsp.obj.psc_cfg_rsp.data 3)) ∧
      (rsp.hdr.opcode = FMOP.MPC_CFG → req.obj.mpc_cfg_req.type = FMCT_READ →
        ∀ m buf, (cxls.ports req.obj.mpc_cfg_req.ppid).mld = some m →
          m.cfgspace req.obj.mpc_cfg_req.ldid = some buf →
          ((req.obj.mpc_cfg_req.ext <<< 8) ||| req.obj.mpc_cfg_req.reg) < SIZEOF_PCLN_CFG →
          ∃ r m1 buf1, fmapi_update cxls req rsp = some r ∧ r.rv = 0 ∧
            (r.cxls.ports req.obj.mpc_cfg_req.ppid).mld = some m1 ∧
            m1.cfgspace req.obj.mpc_cfg_req.ldid = some buf1 ∧
            (∀ j, j ≠ ((req.obj.mpc_cfg_req.ext <<< 8) ||| req.obj.mpc_cfg_req.reg) →
              buf1 j = buf j) ∧
            (req.obj.mpc_cfg_req.fdbe &&& 0x08 ≠ 0 →
              buf1 ((req.obj.mpc_cfg_req.ext <<< 8) ||| req.obj.mpc_cfg_req.reg) =
                rsp.obj.mpc_cfg_rsp.data 3)) ∧
      (rsp.hdr.opcode = FMOP.MPC_CFG → req.obj.mpc_cfg_req.type = FMCT_READ →
        SIZEOF_PCLN_CFG ≤ ((req.obj.mpc_cfg_req.ext <<< 8) ||| req.obj.mpc_cfg_req.reg) →
        (req.obj.mpc_cfg_req.fdbe &&& 0x01 ≠ 0 ∨ req.obj.mpc_cfg_req.fdbe &&& 0x02 ≠ 0 ∨
          req.obj.mpc_cfg_req.fdbe &&& 0x04 ≠ 0 ∨ req.obj.mpc_cfg_req.fdbe &&& 0x08 ≠ 0) →
        fmapi_update cxls req rsp = none) := by
  have hr : ¬ (rsp.hdr.return_code ≠ FMRC_SUCCESS ∧
      rsp.hdr.return_code ≠ FMRC_BACKGROUND_OP_STARTED) := by
    rcases hrc with e | e <;> simp [e]
  refine ⟨?_, ?_, ?_⟩
  · intro hop hty
    have hsw : fmapi_update cxls req rsp =
        some { cxls := set_port cxls req.obj.psc_cfg_req.ppid
                 { cxls.ports req.obj.psc_cfg_req.ppid with
                   cfgspace := cfg_store req.obj.psc_cfg_req.fdbe
                     ((req.obj.psc_cfg_req.ext <<< 8) ||| req.obj.psc_cfg_req.reg)
                     rsp.obj.psc_cfg_rsp.data (cxls.ports req.obj.psc_cfg_req.ppid).cfgspace },
               rv := 0, out := [],
               calls := [sys_call.pthread_mutex_lock, sys_call.pthread_mutex_unlock,
                 sys_call.mctp_retire] } := by
      simp only [fmapi_update, hc, ne_eq, not_true_eq_false, if_false, hr,
        fmapi_update_switch, hop, hty, if_true]
    refine ⟨_, hsw, rfl, ?_, ?_⟩
    · intro j hj
      simp only [set_port, Function.update_same]
      exact cfg_store_other _ _ _ _ j hj
    · intro h8
      simp only [set_port, Function.update_same, cfg_store, if_pos h8]
  · intro hop hty m buf hm hb hreg
    have hsw : fmapi_update cxls req rsp =
        match mpc_cfg_update cxls req.obj.mpc_cfg_req rsp.obj.mpc_cfg_rsp.data with
        | none => none
        | some c => some { cxls := c, rv := 0, out := [],
                           calls := [sys_call.pthread_mutex_lock,
                             sys_call.pthread_mutex_unlock, sys_call.mctp_retire] } := by
      simp only [fmapi_update, hc, ne_eq, not_true_eq_false, if_false, hr,
        fmapi_update_switch, hop, hty, if_true]
      cases mpc_cfg_update cxls req.obj.mpc_cfg_req rsp.obj.mpc_cfg_rsp.data <;> rfl
    rw [hsw, mpc_cfg_update_eq]
    by_cases h4 : req.obj.mpc_cfg_req.fdbe &&& 0x08 ≠ 0
    · rw [if_pos h4]
      obtain ⟨c, hcs, _⟩ := mld_cfg_store_some cxls req.obj.mpc_cfg_req.ppid
        req.obj.mpc_cfg_req.ldid
        ((req.obj.mpc_cfg_req.ext <<< 8) ||| req.obj.mpc_cfg_req.reg)
        (rsp.obj.mpc_cfg_rsp.data 3) ⟨m, buf, hm, hb⟩ hreg
      obtain ⟨m1, buf1, e1, e2, e3, e4⟩ := mld_cfg_store_other cxls c _ _ _ _ m buf hm hb hcs
      rw [hcs]
      exact ⟨_, m1, buf1, rfl, rfl, e1, e2, e4, fun _ => e3⟩
    · rw [if_neg h4]
      by_cases h3 : req.obj.mpc_cfg_req.fdbe &&& 0x04 ≠ 0
      · rw [if_pos h3]
        obtain ⟨c, hcs, _⟩ := mld_cfg_store_some cxls req.obj.mpc_cfg_req.ppid
          req.obj.mpc_cfg_req.ldid
          ((req.obj.mpc_cfg_req.ext <<< 8) ||| req.obj.mpc_cfg_req.reg)
          (rsp.obj.mpc_cfg_rsp.data 2) ⟨m, buf, hm, hb⟩ hreg
        obtain ⟨m1, buf1, e1, e2, _, e4⟩ := mld_cfg_store_other cxls c _ _ _ _ m buf hm hb hcs
        rw [hcs]
        exact ⟨_, m1, buf1, rfl, rfl, e1, e2, e4, fun h => absurd h h4⟩
      · rw [if_neg h3]
        by_cases h2 : req.obj.mpc_cfg_req.fdbe &&& 0x02 ≠ 0
        · rw [if_pos h2]
          obtain ⟨c, hcs, _⟩ := mld_cfg_store_some cxls req.obj.mpc_cfg_req.ppid
            req.obj.mpc_cfg_req.ldid
            ((req.obj.mpc_cfg_req.ext <<< 8) ||| req.obj.mpc_cfg_req.reg)
            (rsp.obj.mpc_cfg_rsp.data 1) ⟨m, buf, hm, hb⟩ hreg
          obtain ⟨m1, buf1, e1, e2, _, e4⟩ :=
            mld_cfg_store_other cxls c _ _ _ _ m buf hm hb hcs
          rw [hcs]
          exact ⟨_, m1, buf1, rfl, rfl, e1, e2, e4, fun h => absurd h h4⟩
        · rw [if_neg h2]
          by_cases h1 : req.obj.mpc_cfg_req.fdbe &&& 0x01 ≠ 0
          · rw [if_pos h1]
            obtain ⟨c, hcs, _⟩ := mld_cfg_store_some cxls req.obj.mpc_cfg_req.ppid
              req.obj.mpc_cfg_req.ldid
              ((req.obj.mpc_cfg_req.ext <<< 8) ||| req.obj.mpc_cfg_req.reg)
              (rsp.obj.mpc_cfg_rsp.data 0) ⟨m, buf, hm, hb⟩ hreg
            obtain ⟨m1, buf1, e1, e2, _, e4⟩ :=
              mld_cfg_store_other cxls c _ _ _ _ m buf hm hb hcs
            rw [hcs]
            exact ⟨_, m1, buf1, rfl, rfl, e1, e2, e4, fun h => absurd h h4⟩
          · rw [if_neg h1]
            exact ⟨_, m, buf, rfl, rfl, hm, hb, fun _ _ => rfl, fun h => absurd h h4⟩
  · intro hop hty hout hbits
    have hsw : fmapi_update cxls req rsp =
        (mpc_cfg_update cxls req.obj.mpc_cfg_req rsp.obj.mpc_cfg_rsp.data).map
          (fun c => { cxls := c, rv := 0, out := [],
                      calls := [sys_call.pthread_mutex_lock,
                        sys_call.pthread_mutex_unlock, sys_call.mctp_retire] }) := by
      simp only [fmapi_update, hc, ne_eq, not_true_eq_false, if_false, hr,
        fmapi_update_switch, hop, hty, if_true]
      cases mpc_cfg_update cxls req.obj.mpc_cfg_req rsp.obj.mpc_cfg_rsp.data <;> rfl
    rw [hsw, mpc_cfg_update_eq]
    simp only [mld_cfg_store_outside _ _ _ _ _ hout]
    by_cases h4 : req.obj.mpc_cfg_req.fdbe &&& 0x08 ≠ 0
    · rw [if_pos h4]
      rfl
    · rw [if_neg h4]
      by_cases h3 : req.obj.mpc_cfg_req.fdbe &&& 0x04 ≠ 0
      · rw [if_pos h3]
        rfl
      · rw [if_neg h3]
        by_cases h2 : req.obj.mpc_cfg_req.fdbe &&& 0x02 ≠ 0
        · rw [if_pos h2]
          rfl
        · rw [if_neg h2]
          by_cases h1 : req.obj.mpc_cfg_req.fdbe &&& 0x01 ≠ 0
          · rw [if_pos h1]
            rfl
          · rcases hbits with h | h | h | h
            · exact absurd h h1
            · exact absurd h h2
            · exact absurd h h3
            · exact absurd h h4

/-- The failing input of C13: a port config space read of register 0 with all
four bytes enabled and the response bytes 0x11, 0x22, 0x33, 0x44, applied to
the zero cache, leaves 0x44 in cached byte 0 and bytes 1, 2 and 3 at 0, where
the claim has 0x11, 0x22, 0x33, 0x44; an LD config space read of port 4 after
a device info response does the same in the buffer of logical device 0. -/
theorem fmapi_update_cfg_read_single_byte_witness :
    rsp_psc_cfg_data.hdr.category = FMMT.RESP ∧
      rsp_psc_cfg_data.hdr.return_code = FMRC_SUCCESS ∧
      rsp_psc_cfg_data.hdr.opcode = FMOP.PSC_CFG ∧
      req_psc_cfg_read.obj.psc_cfg_req.type = FMCT_READ ∧
      req_psc_cfg_read.obj.psc_cfg_req.fdbe &&& 0x02 ≠ 0 ∧
      rsp_psc_cfg_data.obj.psc_cfg_rsp.data 1 = 0x22 ∧
      (∃ r, fmapi_update cxl_switch_zero req_psc_cfg_read rsp_psc_cfg_data = some r ∧
        (r.cxls.ports 0).cfgspace 1 = 0) ∧
      (fmapi_update cxl_switch_zero req_psc_cfg_read rsp_psc_cfg_data).map
        (fun r => ((r.cxls.ports 0).cfgspace 0, (r.cxls.ports 0).cfgspace 1,
          (r.cxls.ports 0).cfgspace 2, (r.cxls.ports 0).cfgspace 3)) =
        some (0x44, 0, 0, 0) ∧
      ((fmapi_update cxl_switch_zero req_ld_info_4 rsp_ld_info_8).bind
          (fun r1 => fmapi_update r1.cxls req_mpc_cfg_read rsp_mpc_cfg_data)).map
        (fun r => (r.cxls.ports 4).mld.bind
          (fun m => (m.cfgspace 0).map (fun b => (b 0, b 1, b 2, b 3)))) =
        some (some (0x44, 0, 0, 0)) := by
  obtain ⟨r, hr, _, hfr, _⟩ :=
    (fmapi_update_cfg_read_single_byte cxl_switch_zero req_psc_cfg_read rsp_psc_cfg_data
      rfl (Or.inl rfl)).1 rfl rfl
  refine ⟨rfl, rfl, rfl, rfl, by decide, rfl, ⟨r, hr, ?_⟩, ?_, ?_⟩
  · exact hfr 1 (by decide)
  · rfl
  · rfl


/-- Storing a port back unchanged leaves the cache as it is. -/
theorem set_port_self (c : cxl_switch) (p : Nat) : set_port c p (c.ports p) = c := by
  simp only [set_port, Function.update_eq_self]

/-- C14: for a config space response (`FMOP_PSC_CFG` or `FMOP_MPC_CFG`) with
category RESPONSE and return code SUCCESS or BACKGROUND_OP_STARTED whose
request has transaction type WRITE, or whose byte enable mask is 0 (whatever
the type, so also for a READ), `fmapi_update` leaves the whole Switch State
Cache unchanged, prints nothing and returns 0. -/
theorem fmapi_update_cfg_write_frame (cxls : cxl_switch) (req : fmapi_req) (rsp : fmapi_rsp)
    (hc : rsp.hdr.category = FMMT.RESP)
    (hrc : rsp.hdr.return_code = FMRC_SUCCESS ∨
      rsp.hdr.return_code = FMRC_BACKGROUND_OP_STARTED)
    (hq : (rsp.hdr.opcode = FMOP.PSC_CFG ∧
        (req.obj.psc_cfg_req.type = FMCT_WRITE ∨ req.obj.psc_cfg_req.fdbe = 0)) ∨
      (rsp.hdr.opcode = FMOP.MPC_CFG ∧
        (req.obj.mpc_cfg_req.type = FMCT_WRITE ∨ req.obj.mpc_cfg_req.fdbe = 0))) :
    fmapi_update cxls req rsp =
      some { cxls := cxls, rv := 0, out := [],
             calls := [sys_call.pthread_mutex_lock, sys_call.pthread_mutex_unlock,
               sys_call.mctp_retire] } := by
  have hr : ¬ (rsp.hdr.return_code ≠ FMRC_SUCCESS ∧
      rsp.hdr.return_code ≠ FMRC_BACKGROUND_OP_STARTED) := by
    rcases hrc with e | e <;> simp [e]
  have hw : FMCT_WRITE ≠ FMCT_READ := by decide
  rcases hq with ⟨hop, hq⟩ | ⟨hop, hq⟩
  · by_cases hty : req.obj.psc_cfg_req.type = FMCT_READ
    · have hf : req.obj.psc_cfg_req.fdbe = 0 := by
        rcases hq with e | e
        · rw [e] at hty
          exact absurd hty hw
        · exact e
      simp only [fmapi_update, hc, ne_eq, not_true_eq_false, if_false, hr,
        fmapi_update_switch, hop, hty, if_true, hf]
      rw [cfg_store_none 0 _ _ _ (by decide) (by decide) (by decide) (by decide)]
      rw [set_port_self]
    · simp only [fmapi_update, hc, ne_eq, not_true_eq_false, if_false, hr,
        fmapi_update_switch, hop, hty]
      rfl
  · by_cases hty : req.obj.mpc_cfg_req.type = FMCT_READ
    · have hf : req.obj.mpc_cfg_req.fdbe = 0 := by
        rcases hq with e | e
        · rw [e] at hty
          exact absurd hty hw
        · exact e
      have hu : mpc_cfg_update cxls req.obj.mpc_cfg_req rsp.obj.mpc_cfg_rsp.data =
          some cxls := by
        rw [mpc_cfg_update_eq, hf]
        rfl
      simp only [fmapi_update, hc, ne_eq, not_true_eq_false, if_false, hr,
        fmapi_update_switch, hop, hty, if_true, hu]
    · simp only [fmapi_update, hc, ne_eq, not_true_eq_false, if_false, hr,
        fmapi_update_switch, hop, hty]
      rfl

/-- The response to a port config space write with all four bytes enabled
leaves the zero cache as it is. -/
theorem fmapi_update_cfg_write_frame_witness :
    rsp_psc_cfg_data.hdr.category = FMMT.RESP ∧
      rsp_psc_cfg_data.hdr.return_code = FMRC_SUCCESS ∧
      rsp_psc_cfg_data.hdr.opcode = FMOP.PSC_CFG ∧
      req_psc_cfg_write.obj.psc_cfg_req.type = FMCT_WRITE ∧
      req_psc_cfg_write.obj.psc_cfg_req.fdbe = 0xF ∧
      fmapi_update cxl_switch_zero req_psc_cfg_write rsp_psc_cfg_data =
        some { cxls := cxl_switch_zero, rv := 0, out := [],
               calls := [sys_call.pthread_mutex_lock, sys_call.pthread_mutex_unlock,
                 sys_call.mctp_retire] } :=
  ⟨rfl, rfl, rfl, rfl, rfl,
    fmapi_update_cfg_write_frame cxl_switch_zero req_psc_cfg_write rsp_psc_cfg_data rfl
      (Or.inl rfl) (Or.inl ⟨rfl, Or.inl rfl⟩)⟩


/-! ### Which ports have an MLD record -/

theorem with_mld_isSome (c c1 : cxl_switch) (p : Nat) (f : cxl_mld → cxl_mld)
    (h : with_mld c p f = some c1) (q : Nat) :
    (c1.ports q).mld.isSome = (c.ports q).mld.isSome := by
  unfold with_mld at h
  cases hm : (c.ports p).mld with
  | none => simp [hm] at h
  | some m =>
    simp only [hm, Option.some.injEq] at h
    subst h
    by_cases hq : q = p
    · subst hq
      simp [set_port, hm]
    · simp [set_port, Function.update_noteq hq]

theorem cci_update_info_isSome (c : cxl_switch) (p : Nat) (o : fmapi_mcc_info_rsp) (q : Nat) :
    ((cci_update_info c p o).ports q).mld.isSome =
      (decide (q = p) || (c.ports q).mld.isSome) := by
  by_cases hq : q = p
  · subst hq
    simp [cci_update_info, set_port]
  · simp [cci_update_info, set_port, Function.update_noteq hq, hq]

/-- The `switch` of `cci_update` gives a port an MLD record only in the device
info case, and only to the port of the request; no case removes one. -/
theorem cci_update_switch_isSome (c c1 : cxl_switch) (p : Nat) (msg : cci_msg)
    (h : cci_update_switch c p msg = some c1) (q : Nat) :
    (c1.ports q).mld.isSome =
      ((c.ports q).mld.isSome || decide (msg.hdr.opcode = FMOP.MCC_INFO ∧ q = p)) := by
  by_cases hop : msg.hdr.opcode = FMOP.MCC_INFO
  · simp only [cci_update_switch, hop, Option.some.injEq] at h
    subst h
    rw [cci_update_info_isSome]
    simp [hop, Bool.or_comm]
  · have hd : decide (msg.hdr.opcode = FMOP.MCC_INFO ∧ q = p) = false := by
      simp [hop]
    rw [hd, Bool.or_false]
    unfold cci_update_switch at h
    split at h
    all_goals first
      | exact absurd (by assumption) hop
      | exact with_mld_isSome c c1 p _ h q
      | (cases h; rfl)
      | (dsimp only at h
         split at h
         · cases h
           rfl
         · exact with_mld_isSome c c1 p _ h q)

theorem cci_update_isSome (c : cxl_switch) (p : Nat) (msg : cci_msg) (r : cci_update_result)
    (h : cci_update c p msg = some r) (q : Nat) :
    (r.cxls.ports q).mld.isSome =
      ((c.ports q).mld.isSome ||
        decide (msg.hdr.category = FMMT.RESP ∧
          (msg.hdr.return_code = FMRC_SUCCESS ∨
            msg.hdr.return_code = FMRC_BACKGROUND_OP_STARTED) ∧
          msg.hdr.opcode = FMOP.MCC_INFO ∧ q = p)) := by
  unfold cci_update at h
  by_cases hc : msg.hdr.category = FMMT.RESP
  · rw [if_neg (not_not.mpr hc)] at h
    by_cases hr : msg.hdr.return_code ≠ FMRC_SUCCESS ∧
        msg.hdr.return_code ≠ FMRC_BACKGROUND_OP_STARTED
    · rw [if_pos hr, Option.some.injEq] at h
      subst h
      have : ¬ (msg.hdr.return_code = FMRC_SUCCESS ∨
          msg.hdr.return_code = FMRC_BACKGROUND_OP_STARTED) := by
        intro e
        rcases e with e | e
        · exact hr.1 e
        · exact hr.2 e
      simp [this]
    · have hok : msg.hdr.return_code = FMRC_SUCCESS ∨
          msg.hdr.return_code = FMRC_BACKGROUND_OP_STARTED := by
        by_contra hn
        exact hr ⟨fun e => hn (Or.inl e), fun e => hn (Or.inr e)⟩
      rw [if_neg hr] at h
      cases hs : cci_update_switch c p msg with
      | none => simp [hs] at h
      | some c1 =>
        simp only [hs, Option.some.injEq] at h
        subst h
        rw [cci_update_switch_isSome c c1 p msg hs q]
        simp [hc, hok]
  · rw [if_pos hc, Option.some.injEq] at h
    subst h
    simp [hc]


theorem mld_cfg_store_isSome (s c : cxl_switch) (p l r v : Nat)
    (h : mld_cfg_store s p l r v = some c) (q : Nat) :
    (c.ports q).mld.isSome = (s.ports q).mld.isSome := by
  unfold mld_cfg_store at h
  cases hm : (s.ports p).mld with
  | none => simp [hm] at h
  | some m =>
    cases hb : m.cfgspace l with
    | none => simp [hm, hb] at h
    | some buf =>
      simp only [hm, hb] at h
      by_cases hr : r < SIZEOF_PCLN_CFG
      swap
      · rw [if_neg hr] at h
        cases h
      rw [if_pos hr, Option.some.injEq] at h
      subst h
      by_cases hq : q = p
      · subst hq
        simp [set_port, hm]
      · simp [set_port, Function.update_noteq hq]

theorem mpc_cfg_update_isSome (s c : cxl_switch) (q : fmapi_mpc_cfg_req) (data : Nat → Nat)
    (h : mpc_cfg_update s q data = some c) (p : Nat) :
    (c.ports p).mld.isSome = (s.ports p).mld.isSome := by
  rw [mpc_cfg_update_eq] at h
  by_cases h4 : q.fdbe &&& 0x08 ≠ 0
  · rw [if_pos h4] at h
    exact mld_cfg_store_isSome s c _ _ _ _ h p
  · rw [if_neg h4] at h
    by_cases h3 : q.fdbe &&& 0x04 ≠ 0
    · rw [if_pos h3] at h
      exact mld_cfg_store_isSome s c _ _ _ _ h p
    · rw [if_neg h3] at h
      by_cases h2 : q.fdbe &&& 0x02 ≠ 0
      · rw [if_pos h2] at h
        exact mld_cfg_store_isSome s c _ _ _ _ h p
      · rw [if_neg h2] at h
        by_cases h1 : q.fdbe &&& 0x01 ≠ 0
        · rw [if_pos h1] at h
          exact mld_cfg_store_isSome s c _ _ _ _ h p
        · rw [if_neg h1, Option.some.injEq] at h
          subst h
          rfl

/-- The `switch` of `fmapi_update` gives a port an MLD record only through the
device info case of `cci_update`; no case removes one. -/
theorem fmapi_update_switch_isSome (c : cxl_switch) (req : fmapi_req) (rsp : fmapi_rsp)
    (x : cxl_switch × Bool × List printed)
    (h : fmapi_update_switch c req rsp = some x) (q : Nat) :
    (x.1.ports q).mld.isSome =
      ((c.ports q).mld.isSome ||
        decide (rsp.hdr.opcode = FMOP.MPC_TMC ∧
          rsp.obj.mpc_tmc_rsp.type = MCMT.CXLCCI ∧
          rsp.obj.mpc_tmc_rsp.msg.hdr.category = FMMT.RESP ∧
          (rsp.obj.mpc_tmc_rsp.msg.hdr.return_code = FMRC_SUCCESS ∨
            rsp.obj.mpc_tmc_rsp.msg.hdr.return_code = FMRC_BACKGROUND_OP_STARTED) ∧
          rsp.obj.mpc_tmc_rsp.msg.hdr.opcode = FMOP.MCC_INFO ∧
          q = req.obj.mpc_tmc_req.ppid)) := by
  by_cases hop : rsp.hdr.opcode = FMOP.MPC_TMC
  · simp only [fmapi_update_switch, hop] at h
    by_cases ht : rsp.obj.mpc_tmc_rsp.type = MCMT.CXLCCI
    · rw [if_neg (not_not.mpr ht)] at h
      cases hu : cci_update c req.obj.mpc_tmc_req.ppid rsp.obj.mpc_tmc_rsp.msg with
      | none => simp [hu] at h
      | some r =>
        simp only [hu, Option.some.injEq] at h
        subst h
        rw [cci_update_isSome c _ _ r hu q]
        simp [hop, ht]
    · rw [if_pos ht, Option.some.injEq] at h
      subst h
      simp [ht]
  · have hd : decide (rsp.hdr.opcode = FMOP.MPC_TMC ∧
          rsp.obj.mpc_tmc_rsp.type = MCMT.CXLCCI ∧
          rsp.obj.mpc_tmc_rsp.msg.hdr.category = FMMT.RESP ∧
          (rsp.obj.mpc_tmc_rsp.msg.hdr.return_code = FMRC_SUCCESS ∨
            rsp.obj.mpc_tmc_rsp.msg.hdr.return_code = FMRC_BACKGROUND_OP_STARTED) ∧
          rsp.obj.mpc_tmc_rsp.msg.hdr.opcode = FMOP.MCC_INFO ∧
          q = req.obj.mpc_tmc_req.ppid) = false := by
      simp [hop]
    rw [hd, Bool.or_false]
    unfold fmapi_update_switch at h
    split at h
    all_goals first
      | exact absurd (by assumption) hop
      | (cases h; rfl)
      | (cases h
         exact congrArg Option.isSome (psc_port_fold_frame _ _ c q).2)
      | (cases h
         rw [vsc_info_fold_rest])
      | (dsimp only at h
         split at h
         · cases h
           by_cases hq : q = req.obj.psc_cfg_req.ppid
           · subst hq
             simp [set_port]
           · simp [set_port, Function.update_noteq hq]
         · cases h
           rfl)
      | (dsimp only at h
         split at h
         · split at h
           · exact absurd h (by simp)
           · rename_i c2 hc2
             cases h
             exact mpc_cfg_update_isSome c c2 _ _ hc2 q
         · cases h
           rfl)


/-- One call of `fmapi_update`: a port has an MLD record afterwards exactly
when it had one before or the action is a device info response for it. -/
theorem fmapi_update_isSome (c : cxl_switch) (req : fmapi_req) (rsp : fmapi_rsp)
    (r : fmapi_update_result) (h : fmapi_update c req rsp = some r) (q : Nat) :
    (r.cxls.ports q).mld.isSome =
      ((c.ports q).mld.isSome || decide (is_device_info q (req, rsp))) := by
  unfold fmapi_update at h
  by_cases hc : rsp.hdr.category = FMMT.RESP
  · rw [if_neg (not_not.mpr hc)] at h
    by_cases hr : rsp.hdr.return_code ≠ FMRC_SUCCESS ∧
        rsp.hdr.return_code ≠ FMRC_BACKGROUND_OP_STARTED
    · rw [if_pos hr, Option.some.injEq] at h
      subst h
      have : ¬ (rsp.hdr.return_code = FMRC_SUCCESS ∨
          rsp.hdr.return_code = FMRC_BACKGROUND_OP_STARTED) := by
        intro e
        rcases e with e | e
        · exact hr.1 e
        · exact hr.2 e
      simp [is_device_info, this]
    · have hok : rsp.hdr.return_code = FMRC_SUCCESS ∨
          rsp.hdr.return_code = FMRC_BACKGROUND_OP_STARTED := by
        by_contra hn
        exact hr ⟨fun e => hn (Or.inl e), fun e => hn (Or.inr e)⟩
      rw [if_neg hr] at h
      cases hs : fmapi_update_switch c req rsp with
      | none => simp [hs] at h
      | some x =>
        obtain ⟨c1, fin, out⟩ := x
        simp only [hs, Option.some.injEq] at h
        subst h
        have hx := fmapi_update_switch_isSome c req rsp _ hs q
        simp only at hx
        rw [hx]
        congr 1
        simp only [is_device_info, hc, hok, true_and, decide_eq_decide]
        constructor
        · rintro ⟨a, b, c, d, e, f⟩
          exact ⟨a, b, c, d, e, f.symm⟩
        · rintro ⟨a, b, c, d, e, f⟩
          exact ⟨a, b, c, d, e, f.symm⟩
  · rw [if_pos hc, Option.some.injEq] at h
    subst h
    simp [is_device_info, hc]

/-- C15 (amended): in every cache state reached from a cache without MLD
records by applying a sequence of responses with `fmapi_update`, a port has an
MLD record if and only if at least one device info response has been applied
for that port; the cached device type of the port plays no part. -/
theorem mld_iff_device_info (c0 : cxl_switch) (h0 : ∀ p, (c0.ports p).mld = none)
    (l : List (fmapi_req × fmapi_rsp)) (c : cxl_switch) (h : apply_all c0 l = some c)
    (p : Nat) :
    (c.ports p).mld.isSome = true ↔ ∃ x ∈ l, is_device_info p x := by
  have gen : ∀ (l : List (fmapi_req × fmapi_rsp)) (s c : cxl_switch),
      apply_all s l = some c →
      ((c.ports p).mld.isSome = true ↔
        (s.ports p).mld.isSome = true ∨ ∃ x ∈ l, is_device_info p x) := by
    intro l
    induction l with
    | nil =>
      intro s c hs
      simp only [apply_all, Option.some.injEq] at hs
      subst hs
      simp
    | cons x l ih =>
      intro s c hs
      simp only [apply_all] at hs
      cases hu : fmapi_update s x.1 x.2 with
      | none => simp [hu] at hs
      | some r =>
        simp only [hu] at hs
        rw [ih r.cxls c hs, fmapi_update_isSome s x.1 x.2 r hu p]
        simp only [Bool.or_eq_true, decide_eq_true_eq, List.mem_cons, exists_eq_or_imp,
          Prod.mk.eta]
        tauto
  rw [gen l c0 c h, h0 p]
  simp

/-- The device info response for port 4 applied to the zero cache, followed by
a port state response: port 4 has an MLD record, port 3 has none. -/
theorem mld_iff_device_info_witness :
    (∀ p, (cxl_switch_zero.ports p).mld = none) ∧
      (∃ c, apply_all cxl_switch_zero
          [(req_ld_info_4, rsp_ld_info_8), (req_zero FMOP.PSC_PORT, rsp_one_port)] = some c ∧
        (c.ports 4).mld.isSome = true ∧ (c.ports 3).mld.isSome = false) := by
  refine ⟨fun _ => rfl, ?_⟩
  cases hc : apply_all cxl_switch_zero
      [(req_ld_info_4, rsp_ld_info_8), (req_zero FMOP.PSC_PORT, rsp_one_port)] with
  | none =>
    have : (apply_all cxl_switch_zero
      [(req_ld_info_4, rsp_ld_info_8), (req_zero FMOP.PSC_PORT, rsp_one_port)]).isSome =
        true := rfl
    rw [hc] at this
    exact absurd this (by decide)
  | some c =>
    refine ⟨c, rfl, ?_, ?_⟩
    · exact (mld_iff_device_info cxl_switch_zero (fun _ => rfl) _ c hc 4).mpr
        ⟨(req_ld_info_4, rsp_ld_info_8), by simp, by decide⟩
    · have hn : ¬ ∃ x ∈ [(req_ld_info_4, rsp_ld_info_8),
          (req_zero FMOP.PSC_PORT, rsp_one_port)], is_device_info 3 x := by
        simp only [List.mem_cons, List.mem_singleton, exists_eq_or_imp, exists_eq_left,
          List.not_mem_nil, false_and, exists_false, or_false]
        decide
      have := (mld_iff_device_info cxl_switch_zero (fun _ => rfl) _ c hc 3).not.mpr hn
      simpa using this

/-- C15 (as stated) fails: after a device info response for port 4 applied to
the zero cache, port 4 has an MLD record although its cached device type is 0,
not `FMDT_CXL_TYPE_3_POOLED`; so the equivalence with "pooled and device info
applied" does not hold in every reachable state. -/
theorem mld_without_pooled_device_type :
    ¬ (∀ (l : List (fmapi_req × fmapi_rsp)) (c : cxl_switch),
        apply_all cxl_switch_zero l = some c →
        ∀ p, ((c.ports p).mld.isSome = true ↔
          (c.ports p).dt = FMDT_CXL_TYPE_3_POOLED ∧ ∃ x ∈ l, is_device_info p x)) ∧
      (apply_all cxl_switch_zero [(req_ld_info_4, rsp_ld_info_8)]).map
        (fun c => ((c.ports 4).mld.isSome, (c.ports 4).dt)) = some (true, 0) := by
  constructor
  · intro hall
    have h1 := hall [(req_ld_info_4, rsp_ld_info_8)] _ rfl 4
    have h2 := (h1.mp rfl).1
    exact absurd h2 (by decide)
  · rfl


/-! ### Indices used on the per-LD arrays -/

theorem cci_ld_indices_mem (msg : cci_msg) (j : Nat) :
    j ∈ cci_ld_indices msg ↔
      (cci_ld_range msg).1 ≤ j ∧ j < (cci_ld_range msg).1 + (cci_ld_range msg).2 := by
  simp only [cci_ld_indices, List.mem_map, List.mem_range]
  constructor
  · rintro ⟨i, hi, rfl⟩
    omega
  · intro h
    exact ⟨j - (cci_ld_range msg).1, by omega, by omega⟩

theorem with_mld_mld (c : cxl_switch) (p : Nat) (f : cxl_mld → cxl_mld) (m : cxl_mld)
    (hm : (c.ports p).mld = some m) :
    with_mld c p f = some (set_port c p { c.ports p with mld := some (f m) }) ∧
      ((set_port c p { c.ports p with mld := some (f m) }).ports p).mld = some (f m) := by
  simp [with_mld, hm, set_port]


theorem with_mld_prop (c : cxl_switch) (p : Nat) (f : cxl_mld → cxl_mld) (m : cxl_mld)
    (hm : (c.ports p).mld = some m) (P : cxl_mld → Prop) (hP : P (f m)) :
    ∃ c1 m1, with_mld c p f = some c1 ∧ (c1.ports p).mld = some m1 ∧ P m1 :=
  ⟨_, f m, (with_mld_mld c p f m hm).1, (with_mld_mld c p f m hm).2, hP⟩

theorem store_list_at (num start : Nat) (list : Nat → Nat) (arr : Nat → Nat) (i : Nat)
    (hi : i < num) : store_list num start list arr (i + start) = list i := by
  rw [store_list_apply, if_pos (by omega)]
  congr 1
  omega

/-- The cases of `cci_update` other than device info keep `num`, change the
per-LD arrays of the MLD record at no index outside `cci_ld_indices`, and
store every entry of the list. -/
theorem cci_update_switch_arrays (c : cxl_switch) (ppid : Nat) (msg : cci_msg) (m : cxl_mld)
    (hm : (c.ports ppid).mld = some m) (hop : msg.hdr.opcode ≠ FMOP.MCC_INFO) :
    ∃ c1 m1, cci_update_switch c ppid msg = some c1 ∧ (c1.ports ppid).mld = some m1 ∧
      cci_ld_effect msg m m1 := by
  have hP : ∀ f : cxl_mld → cxl_mld, cci_ld_effect msg m (f m) →
      ∃ c1 m1, with_mld c ppid f = some c1 ∧ (c1.ports ppid).mld = some m1 ∧
        cci_ld_effect msg m m1 :=
    fun f h => with_mld_prop c ppid f m hm _ h
  cases ho : msg.hdr.opcode
  case MCC_INFO => exact absurd ho hop
  all_goals simp only [cci_update_switch, ho]
  all_goals first
    | (refine ⟨c, m, rfl, hm, rfl, fun j _ => ⟨rfl, rfl, rfl, rfl⟩, ?_, ?_, ?_, ?_⟩ <;>
        simp [ho])
    | (apply hP
       refine ⟨rfl, fun j hj => ?_, ?_, ?_, ?_, ?_⟩
       · rw [cci_ld_indices_mem] at hj
         simp only [cci_ld_range, ho] at hj
         simp only [store_list_apply, if_neg hj, and_self]
       all_goals first
         | (intro e
            rw [ho] at e
            exact absurd e (by decide))
         | (intro _ i hi
            simp only [store_list_at _ _ _ _ i hi, and_self]))
    | (split
       · rename_i h0
         refine ⟨c, m, rfl, hm, rfl, fun j _ => ⟨rfl, rfl, rfl, rfl⟩, ?_, ?_, ?_, ?_⟩ <;>
           simp [ho, h0]
       · apply hP
         refine ⟨rfl, fun j hj => ?_, ?_, ?_, ?_, ?_⟩
         · rw [cci_ld_indices_mem] at hj
           simp only [cci_ld_range, ho] at hj
           simp only [store_list_apply, if_neg hj, and_self]
         all_goals first
           | (intro e
              rw [ho] at e
              exact absurd e (by decide))
           | (intro _ i hi
              simp only [store_list_at _ _ _ _ i hi, and_self]))


theorem mld_cfg_store_num (s c : cxl_switch) (p l reg v : Nat) (m : cxl_mld)
    (buf : Nat → Nat) (hm : (s.ports p).mld = some m) (hb : m.cfgspace l = some buf)
    (h : mld_cfg_store s p l reg v = some c) :
    ∃ m1 buf1, (c.ports p).mld = some m1 ∧ m1.num = m.num ∧
      m1.cfgspace l = some buf1 ∧ buf1 reg = v := by
  simp only [mld_cfg_store, hm, hb] at h
  by_cases hr : reg < SIZEOF_PCLN_CFG
  swap
  · rw [if_neg hr] at h
    cases h
  rw [if_pos hr, Option.some.injEq] at h
  subst h
  refine ⟨{ m with
    cfgspace := Function.update m.cfgspace l (some (Function.update buf reg v)) },
    Function.update buf reg v, ?_, rfl, ?_, ?_⟩
  · simp only [set_port, Function.update_same]
  · simp only [Function.update_same]
  · simp only [Function.update_same]

/-- C16 (amended): applying a tunneled response other than device info to a
port with an MLD record uses on `rng1`, `rng2`, `alloc_bw` and `bw_limit`
exactly the indices `start + i` for `i` below the list length of the response:
every list entry is stored at its index, no other index changes, and `num` is
kept. No index is compared with `num`: the indices are all below `num` exactly
when the list is empty or `start` plus the list length is at most `num`, which
is a property of the response, not something the code enforces. In
`fmapi_update` the LD config space store goes to the buffer `cfgspace[ldid]`
whenever that buffer is allocated and the register index of the request lies
inside it, whatever `num` is. -/
theorem ld_array_indices (cxls : cxl_switch) (ppid : Nat) (msg : cci_msg) (m : cxl_mld)
    (hm : (cxls.ports ppid).mld = some m)
    (hc : msg.hdr.category = FMMT.RESP)
    (hrc : msg.hdr.return_code = FMRC_SUCCESS ∨
      msg.hdr.return_code = FMRC_BACKGROUND_OP_STARTED)
    (hop : msg.hdr.opcode ≠ FMOP.MCC_INFO) :
    (∃ r m1, cci_update cxls ppid msg = some r ∧ (r.cxls.ports ppid).mld = some m1 ∧
        cci_ld_effect msg m m1) ∧
      ((∀ j ∈ cci_ld_indices msg, j < m.num) ↔
        ((cci_ld_range msg).2 = 0 ∨ (cci_ld_range msg).1 + (cci_ld_range msg).2 ≤ m.num)) ∧
      (∀ (req : fmapi_req) (rsp : fmapi_rsp) (buf : Nat → Nat),
        rsp.hdr.category = FMMT.RESP →
        (rsp.hdr.return_code = FMRC_SUCCESS ∨
          rsp.hdr.return_code = FMRC_BACKGROUND_OP_STARTED) →
        rsp.hdr.opcode = FMOP.MPC_CFG →
        req.obj.mpc_cfg_req.type = FMCT_READ →
        req.obj.mpc_cfg_req.ppid = ppid →
        m.cfgspace req.obj.mpc_cfg_req.ldid = some buf →
        ((req.obj.mpc_cfg_req.ext <<< 8) ||| req.obj.mpc_cfg_req.reg) < SIZEOF_PCLN_CFG →
        (req.obj.mpc_cfg_req.fdbe &&& 0x01 ≠ 0 ∨ req.obj.mpc_cfg_req.fdbe &&& 0x02 ≠ 0 ∨
          req.obj.mpc_cfg_req.fdbe &&& 0x04 ≠ 0 ∨ req.obj.mpc_cfg_req.fdbe &&& 0x08 ≠ 0) →
        ∃ r m1 buf1 k, fmapi_update cxls req rsp = some r ∧
          (r.cxls.ports ppid).mld = some m1 ∧ m1.num = m.num ∧
          m1.cfgspace req.obj.mpc_cfg_req.ldid = some buf1 ∧ k < 4 ∧
          buf1 ((req.obj.mpc_cfg_req.ext <<< 8) ||| req.obj.mpc_cfg_req.reg) =
            rsp.obj.mpc_cfg_rsp.data k) := by
  refine ⟨?_, ?_, ?_⟩
  · obtain ⟨c1, m1, h1, h2, h3⟩ := cci_update_switch_arrays cxls ppid msg m hm hop
    have hr : ¬ (msg.hdr.return_code ≠ FMRC_SUCCESS ∧
        msg.hdr.return_code ≠ FMRC_BACKGROUND_OP_STARTED) := by
      rcases hrc with e | e <;> simp [e]
    refine ⟨{ cxls := c1, rv := 0, out := [] }, m1, ?_, h2, h3⟩
    unfold cci_update
    rw [if_neg (not_not.mpr hc), if_neg hr, h1]
  · constructor
    · intro h
      by_cases h0 : (cci_ld_range msg).2 = 0
      · exact Or.inl h0
      · right
        have := h ((cci_ld_range msg).1 + (cci_ld_range msg).2 - 1)
          ((cci_ld_indices_mem msg _).mpr (by omega))
        omega
    · intro h j hj
      rw [cci_ld_indices_mem] at hj
      omega
  · intro req rsp buf hc2 hrc2 hop2 hty hp hb hreg hbits
    subst hp
    have hr : ¬ (rsp.hdr.return_code ≠ FMRC_SUCCESS ∧
        rsp.hdr.return_code ≠ FMRC_BACKGROUND_OP_STARTED) := by
      rcases hrc2 with e | e <;> simp [e]
    have hsw : fmapi_update cxls req rsp =
        match mpc_cfg_update cxls req.obj.mpc_cfg_req rsp.obj.mpc_cfg_rsp.data with
        | none => none
        | some c => some { cxls := c, rv := 0, out := [],
                           calls := [sys_call.pthread_mutex_lock,
                             sys_call.pthread_mutex_unlock, sys_call.mctp_retire] } := by
      simp only [fmapi_update, hc2, ne_eq, not_true_eq_false, if_false, hr,
        fmapi_update_switch, hop2, hty, if_true]
      cases mpc_cfg_update cxls req.obj.mpc_cfg_req rsp.obj.mpc_cfg_rsp.data <;> rfl
    have store : ∀ k, k < 4 →
        mpc_cfg_update cxls req.obj.mpc_cfg_req rsp.obj.mpc_cfg_rsp.data =
          mld_cfg_store cxls req.obj.mpc_cfg_req.ppid req.obj.mpc_cfg_req.ldid
            ((req.obj.mpc_cfg_req.ext <<< 8) ||| req.obj.mpc_cfg_req.reg)
            (rsp.obj.mpc_cfg_rsp.data k) →
        ∃ r m1 buf1 k, fmapi_update cxls req rsp = some r ∧
          (r.cxls.ports req.obj.mpc_cfg_req.ppid).mld = some m1 ∧ m1.num = m.num ∧
          m1.cfgspace req.obj.mpc_cfg_req.ldid = some buf1 ∧ k < 4 ∧
          buf1 ((req.obj.mpc_cfg_req.ext <<< 8) ||| req.obj.mpc_cfg_req.reg) =
            rsp.obj.mpc_cfg_rsp.data k := by
      intro k hk he
      obtain ⟨c, hcs, _⟩ := mld_cfg_store_some cxls req.obj.mpc_cfg_req.ppid
        req.obj.mpc_cfg_req.ldid
        ((req.obj.mpc_cfg_req.ext <<< 8) ||| req.obj.mpc_cfg_req.reg)
        (rsp.obj.mpc_cfg_rsp.data k) ⟨m, buf, hm, hb⟩ hreg
      obtain ⟨m1, buf1, e1, e2, e3, e4⟩ :=
        mld_cfg_store_num cxls c _ _ _ _ m buf hm hb hcs
      rw [hsw, he, hcs]
      exact ⟨_, m1, buf1, k, rfl, e1, e2, e3, hk, e4⟩
    rw [mpc_cfg_update_eq] at store
    by_cases h4 : req.obj.mpc_cfg_req.fdbe &&& 0x08 ≠ 0
    · rw [if_pos h4] at store
      exact store 3 (by omega) rfl
    · rw [if_neg h4] at store
      by_cases h3 : req.obj.mpc_cfg_req.fdbe &&& 0x04 ≠ 0
      · rw [if_pos h3] at store
        exact store 2 (by omega) rfl
      · rw [if_neg h3] at store
        by_cases h2 : req.obj.mpc_cfg_req.fdbe &&& 0x02 ≠ 0
        · rw [if_pos h2] at store
          exact store 1 (by omega) rfl
        · rw [if_neg h2] at store
          by_cases h1 : req.obj.mpc_cfg_req.fdbe &&& 0x01 ≠ 0
          · rw [if_pos h1] at store
            exact store 0 (by omega) rfl
          · rcases hbits with e | e | e | e
            · exact absurd e h1
            · exact absurd e h2
            · exact absurd e h3
            · exact absurd e h4


/-- A bandwidth allocation response for logical device 10 applied to a port
whose MLD record has `num = 8`: the entry is stored at index 10. -/
theorem ld_array_indices_witness :
    (cxl_switch_mld8.ports 4).mld = some cxl_mld8 ∧ cxl_mld8.num = 8 ∧
      rsp_bw_alloc_10.obj.mpc_tmc_rsp.msg.hdr.category = FMMT.RESP ∧
      rsp_bw_alloc_10.obj.mpc_tmc_rsp.msg.hdr.return_code = FMRC_SUCCESS ∧
      rsp_bw_alloc_10.obj.mpc_tmc_rsp.msg.hdr.opcode ≠ FMOP.MCC_INFO ∧
      (∃ r m1, cci_update cxl_switch_mld8 4 rsp_bw_alloc_10.obj.mpc_tmc_rsp.msg = some r ∧
        (r.cxls.ports 4).mld = some m1 ∧ m1.num = 8 ∧ m1.alloc_bw 10 = 0x55) ∧
      ¬ (∀ j ∈ cci_ld_indices rsp_bw_alloc_10.obj.mpc_tmc_rsp.msg, j < cxl_mld8.num) := by
  have hw := ld_array_indices cxl_switch_mld8 4 rsp_bw_alloc_10.obj.mpc_tmc_rsp.msg cxl_mld8
    rfl rfl (Or.inl rfl) (by decide)
  obtain ⟨⟨r, m1, h1, h2, h3⟩, hb, _⟩ := hw
  refine ⟨rfl, rfl, rfl, rfl, by decide, ⟨r, m1, h1, h2, h3.1, ?_⟩, ?_⟩
  · exact h3.2.2.2.2.1 (Or.inl rfl) 0 (by decide)
  · rw [hb]
    decide

/-- C16 (as stated) fails: after a device info response that reports 8 logical
devices, a bandwidth allocation response with `start = 10` and one entry is
stored at `alloc_bw[10]`, an index not below `num = 8`; and after a later
device info response that reports 2 logical devices, an LD config space read
of logical device 5 is stored in `cfgspace[5]`, with `num = 2`. -/
theorem ld_array_index_beyond_num :
    (apply_all cxl_switch_zero
        [(req_ld_info_4, rsp_ld_info_8), (req_ld_info_4, rsp_bw_alloc_10)]).map
        (fun c => (c.ports 4).mld.map (fun m => (m.num, m.alloc_bw 10))) =
        some (some (8, 0x55)) ∧
      cci_ld_indices rsp_bw_alloc_10.obj.mpc_tmc_rsp.msg = [10] ∧
      ¬ (10 < 8) ∧
      (apply_all cxl_switch_zero
        [(req_ld_info_4, rsp_ld_info_8), (req_ld_info_4, rsp_ld_info_2),
          (req_mpc_cfg_read_ld5, rsp_mpc_cfg_data)]).map
        (fun c => (c.ports 4).mld.bind
          (fun m => (m.cfgspace 5).map (fun b => (m.num, b 0)))) =
        some (some (2, 0x44)) ∧
      req_mpc_cfg_read_ld5.obj.mpc_cfg_req.ldid = 5 ∧ ¬ (5 < 2) := by
  refine ⟨?_, ?_, by decide, ?_, rfl, by decide⟩
  · rfl
  · rfl
  · rfl


/-! ### `submit_cli_request`: byte enables and transaction type -/

/-- C17: the request that `submit_cli_request` builds for logical device
memory access carries FDBE 0xF and LDBE 0xF when the respective option is not
given, the request for port config access and the one for LD config access
carry FDBE 0x1 when the option is not given; an option that is given is used
with its value unchanged. The transaction type is `FMCT_READ` unless the write
option is set, and then it is `FMCT_WRITE`. Each request is then submitted. -/
theorem submit_cli_request_byte_enables (opts : CLOP → opt) :
    ((opts CLOP.CMD).val = CLCM_LD_MEM →
      ∃ ppid ldid offset len data,
        submit_cli_request opts =
          [lib_call.fmapi_fill_mpc_mem ppid ldid offset len
              (if (opts CLOP.FDBE).set ≠ 0 then (opts CLOP.FDBE).u8 else 0xF)
              (if (opts CLOP.LDBE).set ≠ 0 then (opts CLOP.LDBE).u8 else 0xF)
              (if (opts CLOP.WRITE).set ≠ 0 then FMCT_WRITE else FMCT_READ) data,
            lib_call.submit_fmapi 0]) ∧
      ((opts CLOP.CMD).val = CLCM_PORT_CONFIG →
        ∃ ppid reg ext data,
          submit_cli_request opts =
            [lib_call.fmapi_fill_psc_cfg ppid reg ext
                (if (opts CLOP.FDBE).set ≠ 0 then (opts CLOP.FDBE).u8 else 0x1)
                (if (opts CLOP.WRITE).set ≠ 0 then FMCT_WRITE else FMCT_READ) data,
              lib_call.submit_fmapi 0]) ∧
      ((opts CLOP.CMD).val = CLCM_LD_CONFIG →
        ∃ ppid ldid reg ext data,
          submit_cli_request opts =
            [lib_call.fmapi_fill_mpc_cfg ppid ldid reg ext
                (if (opts CLOP.FDBE).set ≠ 0 then (opts CLOP.FDBE).u8 else 0x1)
                (if (opts CLOP.WRITE).set ≠ 0 then FMCT_WRITE else FMCT_READ) data,
              lib_call.submit_fmapi 0]) := by
  refine ⟨?_, ?_, ?_⟩
  · intro h
    simp only [submit_cli_request, h, opt_or]
    exact ⟨_, _, _, _, _, rfl⟩
  · intro h
    simp only [submit_cli_request, h, opt_or]
    exact ⟨_, _, _, _, rfl⟩
  · intro h
    simp only [submit_cli_request, h, opt_or]
    exact ⟨_, _, _, _, _, rfl⟩

/-- The three commands without any option, and a memory access with the
byte enable option 0x3 and the write option. -/
theorem submit_cli_request_byte_enables_witness :
    (opts_cmd CLCM_LD_MEM CLOP.CMD).val = CLCM_LD_MEM ∧
      (∃ ppid ldid offset len data,
        submit_cli_request (opts_cmd CLCM_LD_MEM) =
          [lib_call.fmapi_fill_mpc_mem ppid ldid offset len 0xF 0xF FMCT_READ data,
            lib_call.submit_fmapi 0]) ∧
      submit_cli_request (opts_cmd CLCM_LD_MEM) =
        [lib_call.fmapi_fill_mpc_mem 0 0 0 0 0xF 0xF FMCT_READ (mem_data.immediate 0),
          lib_call.submit_fmapi 0] ∧
      submit_cli_request (opts_cmd CLCM_PORT_CONFIG) =
        [lib_call.fmapi_fill_psc_cfg 0 0 0 0x1 FMCT_READ 0, lib_call.submit_fmapi 0] ∧
      submit_cli_request (opts_cmd CLCM_LD_CONFIG) =
        [lib_call.fmapi_fill_mpc_cfg 0 0 0 0 0x1 FMCT_READ 0, lib_call.submit_fmapi 0] ∧
      submit_cli_request
          (opts_cmd_with CLCM_LD_MEM CLOP.FDBE { opt_zero with set := 1, u8 := 0x3 }) =
        [lib_call.fmapi_fill_mpc_mem 0 0 0 0 0x3 0xF FMCT_READ (mem_data.immediate 0),
          lib_call.submit_fmapi 0] ∧
      submit_cli_request
          (opts_cmd_with CLCM_PORT_CONFIG CLOP.WRITE { opt_zero with set := 1 }) =
        [lib_call.fmapi_fill_psc_cfg 0 0 0 0x1 FMCT_WRITE 0, lib_call.submit_fmapi 0] := by
  obtain ⟨ppid, ldid, offset, len, data, h⟩ :=
    (submit_cli_request_byte_enables (opts_cmd CLCM_LD_MEM)).1 rfl
  refine ⟨rfl, ⟨ppid, ldid, offset, len, data, h⟩, ?_, ?_, ?_, ?_, ?_⟩
  · decide
  · decide
  · decide
  · decide
  · decide

/-! ### Which option arrays make `submit_cli_request` build nothing -/

/-- C20: `submit_fmapi` hands `mctp_submit` the header that `fmapi_fill_hdr`
leaves when called with category `FMMT_REQ`, the opcode of the message and the
byte count that `fmapi_serialize` returned for the payload with the request
kind of that opcode; so when `fmapi_fill_hdr` stores its category, opcode and
length arguments, the header has category REQUEST, the caller's opcode and
that byte count as length, and the transport length is the byte count plus
`FMLN_HDR`. The same holds for `submit_emapi` with `EMMT_REQ`, `emapi_fill_hdr`
and `EMLN_HDR`. `submit_ctrl` sets request bit 1, datagram 0 and instance id 0,
and the transport length is `mctp_len_ctrl` of that header plus `MCLN_CTRL`. -/
theorem submit_headers {Obj EObj CObj : Type} (lib : fmapi_library Obj)
    (elib : emapi_library EObj)
    (hfill : ∀ h c t o b l r e,
      (lib.fmapi_fill_hdr h c t o b l r e).category = c ∧
        (lib.fmapi_fill_hdr h c t o b l r e).opcode = o ∧
        (lib.fmapi_fill_hdr h c t o b l r e).len = l)
    (hefill : ∀ h t x r o l a b,
      (elib.emapi_fill_hdr h t x r o l a b).type = t ∧
        (elib.emapi_fill_hdr h t x r o l a b).opcode = o ∧
        (elib.emapi_fill_hdr h t x r o l a b).len = l) :
    (∀ (hdr : fmapi_hdr) (obj : Obj) (retry : Int),
      (submit_fmapi lib hdr obj retry).type = MCMT.CXLFMAPI ∧
        (submit_fmapi lib hdr obj retry).buf.hdr.category = FMMT.REQ ∧
        (submit_fmapi lib hdr obj retry).buf.hdr.opcode = hdr.opcode ∧
        (submit_fmapi lib hdr obj retry).buf.kind = FMOB.req hdr.opcode ∧
        (submit_fmapi lib hdr obj retry).buf.hdr.len =
          lib.fmapi_serialize obj (FMOB.req hdr.opcode) ∧
        (submit_fmapi lib hdr obj retry).len =
          lib.fmapi_serialize obj (FMOB.req hdr.opcode) + lib.FMLN_HDR ∧
        (submit_fmapi lib hdr obj retry).retry = retry) ∧
      (∀ (hdr : emapi_hdr) (obj : EObj) (retry : Int),
        (submit_emapi elib hdr obj retry).type = MCMT.CSE ∧
          (submit_emapi elib hdr obj retry).buf.hdr.type = EMMT.REQ ∧
          (submit_emapi elib hdr obj retry).buf.hdr.opcode = hdr.opcode ∧
          (submit_emapi elib hdr obj retry).buf.kind = EMOB.req hdr.opcode ∧
          (submit_emapi elib hdr obj retry).buf.hdr.len =
            elib.emapi_serialize obj (EMOB.req hdr.opcode) ∧
          (submit_emapi elib hdr obj retry).len =
            elib.emapi_serialize obj (EMOB.req hdr.opcode) + elib.EMLN_HDR ∧
          (submit_emapi elib hdr obj retry).retry = retry) ∧
      (∀ (mctp_len_ctrl : mctp_ctrl_hdr → Nat) (MCLN_CTRL : Nat) (msg : mctp_ctrl_msg CObj)
          (retry : Int),
        (submit_ctrl mctp_len_ctrl MCLN_CTRL msg retry).type = MCMT.CONTROL ∧
          (submit_ctrl mctp_len_ctrl MCLN_CTRL msg retry).buf.hdr =
            { req := 1, datagram := 0, inst := 0, cmd := msg.hdr.cmd } ∧
          (submit_ctrl mctp_len_ctrl MCLN_CTRL msg retry).buf.obj = msg.obj ∧
          (submit_ctrl mctp_len_ctrl MCLN_CTRL msg retry).len =
            mctp_len_ctrl { req := 1, datagram := 0, inst := 0, cmd := msg.hdr.cmd } +
              MCLN_CTRL) := by
  refine ⟨?_, ?_, ?_⟩
  · intro hdr obj retry
    obtain ⟨h1, h2, h3⟩ := hfill hdr FMMT.REQ 0 hdr.opcode 0
      (lib.fmapi_serialize obj (FMOB.req hdr.opcode)) 0 0
    refine ⟨rfl, h1, h2, rfl, h3, ?_, rfl⟩
    simp only [submit_fmapi, h3]
  · intro hdr obj retry
    obtain ⟨h1, h2, h3⟩ := hefill hdr EMMT.REQ 0 0 hdr.opcode
      (elib.emapi_serialize obj (EMOB.req hdr.opcode)) hdr.a hdr.b
    refine ⟨rfl, h1, h2, rfl, h3, ?_, rfl⟩
    simp only [submit_emapi, h3]
  · intro mctp_len_ctrl MCLN_CTRL msg retry
    exact ⟨rfl, rfl, rfl, rfl⟩

/-- The tunnel request for port 4 with a response header left in it by the
caller, submitted with the sample libraries. -/
theorem submit_headers_witness :
    (submit_fmapi fmapi_library_sample (rsp_hdr FMOP.MPC_TMC 7) req_ld_info_4.obj 0).buf.hdr =
        { category := FMMT.REQ, opcode := FMOP.MPC_TMC, return_code := 0, len := 8 } ∧
      (submit_fmapi fmapi_library_sample (rsp_hdr FMOP.MPC_TMC 7) req_ld_info_4.obj 0).len =
        20 ∧
      (submit_emapi emapi_library_sample
          { type := EMMT.RSP, opcode := 2, rc := 5, len := 99, a := 1, b := 0 } 3 0).buf.hdr =
        { type := EMMT.REQ, opcode := 2, rc := 0, len := 3, a := 1, b := 0 } ∧
      (submit_ctrl (fun (h : mctp_ctrl_hdr) => h.cmd + h.req) 3
          { hdr := { req := 0, datagram := 1, inst := 5, cmd := 2 }, obj := (), len := 0 }
          0).len = 6 := by
  have hw := @submit_headers fmapi_req_obj Nat Unit fmapi_library_sample emapi_library_sample
    (fun _ _ _ _ _ _ _ _ => ⟨rfl, rfl, rfl⟩) (fun _ _ _ _ _ _ _ _ => ⟨rfl, rfl, rfl⟩)
  refine ⟨rfl, ?_, rfl, ?_⟩
  · rw [(hw.1 (rsp_hdr FMOP.MPC_TMC 7) req_ld_info_4.obj 0).2.2.2.2.2.1]
    rfl
  · rw [(hw.2.2 (fun (h : mctp_ctrl_hdr) => h.cmd + h.req) 3
      { hdr := { req := 0, datagram := 1, inst := 5, cmd := 2 }, obj := (), len := 0 }
      0).2.2.2]
    rfl


/-! ### The outcome of the tunneled message -/

/-- C21 (what the code does): for a tunnel response that passes the outer
checks and carries the tag `MCMT_CXLCCI`, the checks of `cci_handler` and
`cci_update` are applied to the tunneled message and give a non-zero value
when its category is not RESPONSE (1) or its return code `c` is neither
SUCCESS nor BACKGROUND_OP_STARTED (`c`); the error line is printed and the
cache is unchanged. That value does not reach the caller: the case ends in
`break`, `rv = 0` follows, and `fmapi_handler` and `fmapi_update` return 0. -/
theorem fmapi_tunnel_inner_outcome (cxls : cxl_switch) (req : fmapi_req) (rsp : fmapi_rsp)
    (hc : rsp.hdr.category = FMMT.RESP)
    (hrc : rsp.hdr.return_code = FMRC_SUCCESS ∨
      rsp.hdr.return_code = FMRC_BACKGROUND_OP_STARTED)
    (hop : rsp.hdr.opcode = FMOP.MPC_TMC)
    (ht : rsp.obj.mpc_tmc_rsp.type = MCMT.CXLCCI)
    (hin : rsp.obj.mpc_tmc_rsp.msg.hdr.category ≠ FMMT.RESP ∨
      (rsp.obj.mpc_tmc_rsp.msg.hdr.return_code ≠ FMRC_SUCCESS ∧
        rsp.obj.mpc_tmc_rsp.msg.hdr.return_code ≠ FMRC_BACKGROUND_OP_STARTED)) :
    (cci_handler rsp.obj.mpc_tmc_rsp.msg).1 ≠ 0 ∧
      (rsp.obj.mpc_tmc_rsp.msg.hdr.category = FMMT.RESP →
        (cci_handler rsp.obj.mpc_tmc_rsp.msg).1 =
          rsp.obj.mpc_tmc_rsp.msg.hdr.return_code) ∧
      (∃ ri, cci_update cxls req.obj.mpc_tmc_req.ppid rsp.obj.mpc_tmc_rsp.msg = some ri ∧
        ri.rv = (cci_handler rsp.obj.mpc_tmc_rsp.msg).1 ∧ ri.cxls = cxls ∧
        ri.out = (cci_handler rsp.obj.mpc_tmc_rsp.msg).2) ∧
      (fmapi_handler req rsp).rv = 0 ∧
      (fmapi_handler req rsp).out = (cci_handler rsp.obj.mpc_tmc_rsp.msg).2 ∧
      fmapi_update cxls req rsp =
        some { cxls := cxls, rv := 0, out := (cci_handler rsp.obj.mpc_tmc_rsp.msg).2,
               calls := [sys_call.pthread_mutex_lock, sys_call.pthread_mutex_unlock,
                 sys_call.mctp_retire] } := by
  have hr : ¬ (rsp.hdr.return_code ≠ FMRC_SUCCESS ∧
      rsp.hdr.return_code ≠ FMRC_BACKGROUND_OP_STARTED) := by
    rcases hrc with e | e <;> simp [e]
  have key : ∃ v out, v ≠ 0 ∧ cci_handler rsp.obj.mpc_tmc_rsp.msg = (v, out) ∧
      cci_update cxls req.obj.mpc_tmc_req.ppid rsp.obj.mpc_tmc_rsp.msg =
        some { cxls := cxls, rv := v, out := out } ∧
      (rsp.obj.mpc_tmc_rsp.msg.hdr.category = FMMT.RESP →
        v = rsp.obj.mpc_tmc_rsp.msg.hdr.return_code) := by
    by_cases hic : rsp.obj.mpc_tmc_rsp.msg.hdr.category = FMMT.RESP
    · have hir : rsp.obj.mpc_tmc_rsp.msg.hdr.return_code ≠ FMRC_SUCCESS ∧
          rsp.obj.mpc_tmc_rsp.msg.hdr.return_code ≠ FMRC_BACKGROUND_OP_STARTED := by
        rcases hin with e | e
        · exact absurd hic e
        · exact e
      refine ⟨rsp.obj.mpc_tmc_rsp.msg.hdr.return_code,
        [printed.error_rc rsp.obj.mpc_tmc_rsp.msg.hdr.return_code], hir.1, ?_, ?_,
        fun _ => rfl⟩
      · unfold cci_handler
        rw [if_neg (not_not.mpr hic), if_pos hir]
      · unfold cci_update
        rw [if_neg (not_not.mpr hic), if_pos hir]
    · refine ⟨1, [printed.tunneled_not_a_response rsp.obj.mpc_tmc_rsp.msg.hdr.category],
        by decide, ?_, ?_, fun e => absurd e hic⟩
      · unfold cci_handler
        rw [if_pos hic]
      · unfold cci_update
        rw [if_pos hic]
  obtain ⟨v, out, hv, e1, e2, e3⟩ := key
  refine ⟨?_, ?_, ⟨_, e2, ?_, rfl, ?_⟩, ?_, ?_, ?_⟩
  · rw [e1]
    exact hv
  · intro hic
    rw [e1]
    exact e3 hic
  · rw [e1]
  · rw [e1]
  · simp only [fmapi_handler, hc, ne_eq, not_true_eq_false, if_false, hr, hop, ht]
  · simp only [fmapi_handler, hc, ne_eq, not_true_eq_false, if_false, hr, hop, ht]
  · simp only [fmapi_update, hc, ne_eq, not_true_eq_false, if_false, hr,
      fmapi_update_switch, hop, ht, e2, e1, if_true]

/-- The failing input of C21: a tunnel response with outer return code SUCCESS
whose tunneled message carries return code 2. The inner check yields 2, and
`fmapi_handler` and `fmapi_update` return 0 where the claim has 2. -/
theorem fmapi_tunnel_inner_outcome_witness :
    rsp_tunnel_inner_error.hdr.category = FMMT.RESP ∧
      rsp_tunnel_inner_error.hdr.return_code = FMRC_SUCCESS ∧
      rsp_tunnel_inner_error.hdr.opcode = FMOP.MPC_TMC ∧
      rsp_tunnel_inner_error.obj.mpc_tmc_rsp.type = MCMT.CXLCCI ∧
      rsp_tunnel_inner_error.obj.mpc_tmc_rsp.msg.hdr.return_code = 2 ∧
      (cci_handler rsp_tunnel_inner_error.obj.mpc_tmc_rsp.msg).1 = 2 ∧
      (fmapi_handler req_ld_info_4 rsp_tunnel_inner_error).rv = 0 ∧
      (fmapi_update cxl_switch_zero req_ld_info_4 rsp_tunnel_inner_error).map
        (fun r => r.rv) = some 0 ∧
      (fmapi_handler req_ld_info_4 rsp_tunnel_not_response).rv = 0 := by
  have hw := fmapi_tunnel_inner_outcome cxl_switch_zero req_ld_info_4 rsp_tunnel_inner_error
    rfl (Or.inl rfl) rfl rfl (Or.inr (by decide))
  refine ⟨rfl, rfl, rfl, rfl, rfl, rfl, hw.2.2.2.1, ?_, rfl⟩
  rw [hw.2.2.2.2.2]
  rfl


/-! ### The lock of the Switch State Cache -/

/-- C22 (what the code does): when both checks of `fmapi_update` pass, the
lock is taken before the `switch` and released once at `end`, on every path
through the `switch` (tunnel type mismatch and unknown opcode included), so
every cache write happens with the lock held. When the category or the return
code check fails, the function jumps to `end` before `pthread_mutex_lock`:
the cache is unchanged, and `pthread_mutex_unlock` is called on a lock this
call never acquired. -/
theorem fmapi_update_lock_calls (cxls : cxl_switch) (req : fmapi_req) (rsp : fmapi_rsp) :
    ((rsp.hdr.category ≠ FMMT.RESP ∨
        (rsp.hdr.return_code ≠ FMRC_SUCCESS ∧
          rsp.hdr.return_code ≠ FMRC_BACKGROUND_OP_STARTED)) →
      ∃ r, fmapi_update cxls req rsp = some r ∧ r.cxls = cxls ∧
        r.calls = [sys_call.pthread_mutex_unlock, sys_call.mctp_retire] ∧
        lock_balanced r.calls 0 = false) ∧
      (rsp.hdr.category = FMMT.RESP →
        (rsp.hdr.return_code = FMRC_SUCCESS ∨
          rsp.hdr.return_code = FMRC_BACKGROUND_OP_STARTED) →
        (pointers_valid cxls req rsp → ∃ r, fmapi_update cxls req rsp = some r) ∧
          ∀ r, fmapi_update cxls req rsp = some r →
            r.calls = [sys_call.pthread_mutex_lock, sys_call.pthread_mutex_unlock,
              sys_call.mctp_retire] ∧
            lock_balanced r.calls 0 = true) := by
  constructor
  · intro h
    by_cases hc : rsp.hdr.category = FMMT.RESP
    · have hr : rsp.hdr.return_code ≠ FMRC_SUCCESS ∧
          rsp.hdr.return_code ≠ FMRC_BACKGROUND_OP_STARTED := by
        rcases h with e | e
        · exact absurd hc e
        · exact e
      have e : fmapi_update cxls req rsp =
          some { cxls := cxls, rv := rsp.hdr.return_code,
                 out := [printed.error_rc rsp.hdr.return_code],
                 calls := [sys_call.pthread_mutex_unlock, sys_call.mctp_retire] } := by
        unfold fmapi_update
        rw [if_neg (not_not.mpr hc), if_pos hr]
      exact ⟨_, e, rfl, rfl, rfl⟩
    · have e : fmapi_update cxls req rsp =
          some { cxls := cxls, rv := 1, out := [printed.not_a_response rsp.hdr.category],
                 calls := [sys_call.pthread_mutex_unlock, sys_call.mctp_retire] } := by
        unfold fmapi_update
        rw [if_pos hc]
      exact ⟨_, e, rfl, rfl, rfl⟩
  · intro hc hrc
    have hr : ¬ (rsp.hdr.return_code ≠ FMRC_SUCCESS ∧
        rsp.hdr.return_code ≠ FMRC_BACKGROUND_OP_STARTED) := by
      rcases hrc with e | e <;> simp [e]
    refine ⟨fmapi_update_some cxls req rsp, ?_⟩
    intro r h
    unfold fmapi_update at h
    rw [if_neg (not_not.mpr hc), if_neg hr] at h
    cases hs : fmapi_update_switch cxls req rsp with
    | none => simp [hs] at h
    | some x =>
      obtain ⟨c1, fin, out⟩ := x
      simp only [hs, Option.some.injEq] at h
      subst h
      exact ⟨rfl, rfl⟩

/-- The failing input of C22: a message whose category is REQUEST. The call
list is unlock, retire: a release without an acquisition. A port state
response gives lock, unlock, retire. -/
theorem fmapi_update_lock_calls_witness :
    rsp_not_response.hdr.category ≠ FMMT.RESP ∧
      (fmapi_update cxl_switch_zero (req_zero FMOP.PSC_PORT) rsp_not_response).map
        (fun r => r.calls) = some [sys_call.pthread_mutex_unlock, sys_call.mctp_retire] ∧
      lock_balanced [sys_call.pthread_mutex_unlock, sys_call.mctp_retire] 0 = false ∧
      (fmapi_update cxl_switch_zero (req_zero FMOP.PSC_PORT) rsp_one_port).map
        (fun r => r.calls) =
        some [sys_call.pthread_mutex_lock, sys_call.pthread_mutex_unlock,
          sys_call.mctp_retire] := by
  obtain ⟨r, h1, _, h3, _⟩ :=
    (fmapi_update_lock_calls cxl_switch_zero (req_zero FMOP.PSC_PORT) rsp_not_response).1
      (Or.inl (by decide))
  refine ⟨by decide, ?_, rfl, rfl⟩
  rw [h1]
  exact congrArg some h3


/-! ### The message buffers returned to the free pool -/

theorem fmapi_handler_pushed (req : fmapi_req) (rsp : fmapi_rsp) :
    (fmapi_handler req rsp).pushed = [mctp_msg_ref.req] := by
  unfold fmapi_handler
  split
  · rfl
  · split
    · rfl
    · split <;> first | rfl | (split <;> rfl)

theorem emapi_handler_pushed (mm : mctp_msg_ref) (em : emapi_rsp) :
    (emapi_handler mm em).pushed = [mm] := by
  unfold emapi_handler
  repeat' split
  all_goals rfl

theorem ctrl_handler_pushed (mm : mctp_msg_ref) (mc : mctp_ctrl_msg mctp_ctrl_obj) :
    (ctrl_handler mm mc).pushed = [mm] := by
  unfold ctrl_handler
  repeat' split
  all_goals rfl

/-- C23 (amended): on every exit path each handler pushes exactly one message
buffer on the free pool, the one passed as `mm`: `fmapi_handler` the buffer of
the request (as `run` calls it) and never the buffer of the response,
`emapi_handler` and `ctrl_handler` the buffer they were given, which in `run`
is the response. So for an FM API action the response buffer, and for an
Emulator API or MCTP control action the request buffer, is not returned by the
handler. -/
theorem handlers_push_one_buffer (req : fmapi_req) (rsp : fmapi_rsp) (mm : mctp_msg_ref)
    (em : emapi_rsp) (mc : mctp_ctrl_msg mctp_ctrl_obj) (opts : CLOP → opt)
    (timed_out : Bool) :
    (fmapi_handler req rsp).pushed = [mctp_msg_ref.req] ∧
      (emapi_handler mm em).pushed = [mm] ∧
      (ctrl_handler mm mc).pushed = [mm] ∧
      ((opts CLOP.CMD).set ≠ 0 → (opts CLOP.CMD).val ≠ CLCM_LIST →
        submit_cli_request opts ≠ [] →
        run_pushed (run opts (some (mctp_action.fmapi req rsp)) timed_out) =
            [mctp_msg_ref.req] ∧
          run_pushed (run opts (some (mctp_action.emapi em)) timed_out) =
            [mctp_msg_ref.rsp] ∧
          run_pushed (run opts (some (mctp_action.ctrl mc)) timed_out) =
            [mctp_msg_ref.rsp]) := by
  refine ⟨fmapi_handler_pushed req rsp, emapi_handler_pushed mm em,
    ctrl_handler_pushed mm mc, ?_⟩
  intro h1 h2 h3
  simp only [run, h1, h2, h3, if_false]
  by_cases hn : (opts CLOP.NO_INIT).set = 0
  · simp [hn, run_pushed, fmapi_handler_pushed, emapi_handler_pushed, ctrl_handler_pushed]
  · simp [hn, run_pushed, fmapi_handler_pushed, emapi_handler_pushed, ctrl_handler_pushed]

/-- The bind command run with a port state response: only the request
buffer is pushed. -/
theorem handlers_push_one_buffer_witness :
    (opts_bind CLOP.CMD).set ≠ 0 ∧ (opts_bind CLOP.CMD).val ≠ CLCM_LIST ∧
      submit_cli_request opts_bind ≠ [] ∧
      run_pushed (run opts_bind
        (some (mctp_action.fmapi (req_zero FMOP.PSC_PORT) rsp_one_port)) false) =
        [mctp_msg_ref.req] := by
  have hw := handlers_push_one_buffer (req_zero FMOP.PSC_PORT) rsp_one_port mctp_msg_ref.rsp
    { hdr_len := 0, hdr := { type := EMMT.RSP, opcode := 0, rc := 0, len := 0, a := 0, b := 0 },
      dev := fun _ => { id := 0, name := [] } }
    { hdr := { req := 0, datagram := 0, inst := 0, cmd := 0 },
      obj := { comp_code := 0, set_eid_rsp_eid := 0, get_eid_rsp_eid := 0, uuid := [],
               ver_count := 0, versions := fun _ => 0, type_count := 0, list := fun _ => 0 },
      len := 0 }
    opts_bind false
  exact ⟨by decide, by decide, by decide, (hw.2.2.2 (by decide) (by decide) (by decide)).1⟩

/-- C23 (as stated) fails: for a port state response, on the success path, on
the failing return code path and on the category path, `fmapi_handler` pushes
the request buffer once and the response buffer not at all. -/
theorem fmapi_handler_response_not_pushed :
    (fmapi_handler (req_zero FMOP.PSC_PORT) rsp_one_port).pushed.count mctp_msg_ref.rsp = 0 ∧
      (fmapi_handler (req_zero FMOP.PSC_PORT) rsp_one_port).pushed.count mctp_msg_ref.req = 1 ∧
      (fmapi_handler (req_zero FMOP.PSC_PORT)
        (rsp_zero (rsp_hdr FMOP.PSC_PORT 2))).pushed.count mctp_msg_ref.rsp = 0 ∧
      (fmapi_handler (req_zero FMOP.PSC_PORT) rsp_not_response).pushed.count
        mctp_msg_ref.rsp = 0 := by
  refine ⟨?_, ?_, ?_, ?_⟩ <;> decide

/-! ### The exit code of `main` -/

/-- C24 (amended): `main` returns 0 exactly when `options_parse` returns 0, a
command is set, `mctp_init` yields a transport and `mctp_run` returns 0;
otherwise it returns the value of `options_parse`, 1, 1 or the value of
`mctp_run`. What `run` does has no part in it: when the request cannot be
submitted or times out (`submit_cli_request` returns NULL) or the response
handler returns an error, `main` still returns 0. -/
theorem main_exit_code (parse_rv : Int) (opts : CLOP → opt) (mctp_init_ok : Bool)
    (mctp_run_rv : Int) (delivered : Option mctp_action) (timed_out : Bool) :
    ((main parse_rv opts mctp_init_ok mctp_run_rv delivered timed_out).1 = 0 ↔
        parse_rv = 0 ∧ (opts CLOP.CMD).set ≠ 0 ∧ mctp_init_ok = true ∧ mctp_run_rv = 0) ∧
      (parse_rv ≠ 0 →
        (main parse_rv opts mctp_init_ok mctp_run_rv delivered timed_out).1 = parse_rv) ∧
      (parse_rv = 0 → (opts CLOP.CMD).set ≠ 0 → mctp_init_ok = true → mctp_run_rv ≠ 0 →
        (main parse_rv opts mctp_init_ok mctp_run_rv delivered timed_out).1 = mctp_run_rv) ∧
      (parse_rv = 0 → (opts CLOP.CMD).set ≠ 0 → mctp_init_ok = true → mctp_run_rv = 0 →
        main parse_rv opts mctp_init_ok mctp_run_rv delivered timed_out =
          (0, [main_step.cxls_init, main_step.mctp_init,
            main_step.mctp_set_handler MCMT.CXLFMAPI, main_step.mctp_set_handler MCMT.CSE,
            main_step.mctp_set_handler MCMT.CONTROL,
            main_step.mctp_set_verbosity (opts CLOP.MCTP_VERBOSITY).u64,
            main_step.mctp_run (opts CLOP.TCP_PORT).u16 (opts CLOP.TCP_ADDRESS).u32,
            main_step.run (run opts delivered timed_out), main_step.mctp_stop,
            main_step.mctp_free, main_step.cxls_free, main_step.options_free])) := by
  refine ⟨?_, ?_, ?_, ?_⟩
  · unfold main
    by_cases h1 : parse_rv = 0
    · by_cases h2 : (opts CLOP.CMD).set = 0
      · simp [h1, h2]
      · cases mctp_init_ok
        · simp [h1, h2]
        · by_cases h4 : mctp_run_rv = 0
          · simp [h1, h2, h4]
          · simp [h1, h2, h4]
    · simp [h1]
  · intro h1
    simp [main, h1]
  · intro h1 h2 h3 h4
    simp [main, h1, h2, h3, h4]
  · intro h1 h2 h3 h4
    simp [main, h1, h2, h3, h4]

/-- A bind whose submit call returns NULL after a timeout. -/
theorem main_exit_code_witness :
    (opts_bind CLOP.CMD).set ≠ 0 ∧
      (main 0 opts_bind true 0 none true).1 = 0 ∧
      (main 0 opts_bind true 7 none true).1 = 7 ∧
      (main 3 opts_bind true 0 none true).1 = 3 := by
  have h0 := main_exit_code 0 opts_bind true 0 none true
  have h7 := main_exit_code 0 opts_bind true 7 none true
  have h3 := main_exit_code 3 opts_bind true 0 none true
  exact ⟨by decide, h0.1.mpr ⟨rfl, by decide, rfl, rfl⟩,
    h7.2.2.1 rfl (by decide) rfl (by decide), h3.2.1 (by decide)⟩

/-- C24 (as stated) fails: with options parsed and the transport running,
`main` returns 0 when the submit call of a bind returns NULL after a timeout
(`run` prints the two lines and calls no handler), and when the handler of the
response returns the error code 2. -/
theorem main_returns_zero_on_failed_request :
    (main 0 opts_bind true 0 none true).1 = 0 ∧
      run opts_bind none true =
        [run_step.init_switch,
          run_step.submit_cli_request
            [lib_call.fmapi_fill_vsc_bind 1 3 2 0xFFFF, lib_call.submit_fmapi 0],
          run_step.ma_was_null, run_step.cli_submit_timed_out] ∧
      (main 0 opts_bind true 0 (some action_failed) false).1 = 0 ∧
      handler_rv (run opts_bind (some action_failed) false) = some 2 := by
  refine ⟨rfl, ?_, rfl, ?_⟩
  · rfl
  · rfl


/-! ### The label fields of `print_ports` -/

theorem sprintf_some (buf : Nat → Char) (i : Nat) (s : List Char)
    (h : i + s.length ≤ 110) : sprintf buf i s = some (put buf i (s ++ [NUL])) := by
  unfold sprintf SHOW_PORT_BUF_LEN
  rw [if_pos (by omega)]

theorem put_apply_out (buf : Nat → Char) (i : Nat) (s : List Char) (k : Nat)
    (h : k < i ∨ i + s.length < k) : put buf i (s ++ [NUL]) k = buf k := by
  unfold put
  rw [if_neg]
  simp only [List.length_append, List.length_singleton]
  omega

theorem put_apply_first (buf : Nat → Char) (i : Nat) (c : Char) (s : List Char) :
    put buf i (c :: s) i = c := by
  unfold put
  rw [if_pos ⟨Nat.le_refl i, by simp⟩]
  simp

theorem put_apply_nul (buf : Nat → Char) (i : Nat) (s : List Char) :
    put buf i (s ++ [NUL]) (i + s.length) = NUL := by
  unfold put
  rw [if_pos ⟨by omega, by simp⟩]
  simp [List.getD]

theorem bit_labels_fold (buf : Nat → Char) (i bits : Nat) (c : Char) (n : Nat) :
    ∀ k, (List.range n).foldl
        (fun b v => Function.update b (i + v)
          (if bit_set bits v then Char.ofNat (c.toNat + v) else ' ')) buf k =
      if i ≤ k ∧ k < i + n then
        (if bit_set bits (k - i) then Char.ofNat (c.toNat + (k - i)) else ' ')
      else buf k := by
  induction n with
  | zero =>
    intro k
    rw [if_neg (by omega)]
    rfl
  | succ n ih =>
    intro k
    rw [List.range_succ, List.foldl_append]
    simp only [List.foldl_cons, List.foldl_nil]
    by_cases hk : k = i + n
    · subst hk
      have h2 : i ≤ i + n ∧ i + n < i + (n + 1) := by omega
      have e : i + n - i = n := by omega
      rw [Function.update_same]
      simp only [if_pos h2, e]
    · rw [Function.update_noteq hk, ih k]
      by_cases h1 : i ≤ k ∧ k < i + n
      · have h2 : i ≤ k ∧ k < i + (n + 1) := by omega
        simp only [if_pos h1, if_pos h2]
      · have h2 : ¬ (i ≤ k ∧ k < i + (n + 1)) := by omega
        simp only [if_neg h1, if_neg h2]

theorem bit_labels_apply (buf : Nat → Char) (i bits : Nat) (c : Char) (k : Nat) :
    bit_labels buf i bits c k =
      if i ≤ k ∧ k < i + 8 then
        (if bit_set bits (k - i) then Char.ofNat (c.toNat + (k - i)) else ' ')
      else buf k :=
  bit_labels_fold buf i bits c 8 k

theorem repr_short (n : Nat) (h : n < 65536) : (Nat.repr n).toList.length ≤ 5 :=
  Nat.repr_length n 5 (by decide) (by omega)

theorem map_range_drop_take (f : Nat → Char) (n a b : Nat) (h : a + b ≤ n) :
    (((List.range n).map f).drop a).take b = (List.range b).map (fun j => f (a + j)) := by
  apply List.ext_getElem
  · simp
    omega
  · intro j h1 h2
    simp
theorem col_offsets :
    col_offset 0 = 0 ∧ col_offset 1 = 5 ∧ col_offset 2 = 8 ∧ col_offset 3 = 20 ∧
      col_offset 4 = 28 ∧ col_offset 5 = 32 ∧ col_offset 6 = 37 ∧ col_offset 7 = 47 ∧
      col_offset 8 = 52 ∧ col_offset 9 = 57 ∧ col_offset 10 = 62 ∧ col_offset 11 = 67 ∧
      col_offset 12 = 77 ∧ col_offset 13 = 87 ∧ col_offset 14 = 91 := by
  decide

theorem row_columns_present (S : fmapi_names) (p : fmapi_psc_port_info)
    (hfit : row_fits S p) (hp : p.prsnt ≠ 0) :
    ∃ b1 b2 b3 : Nat → Char,
      row_columns S p =
        some (put (put (bit_labels (put (put b3 57 (S.fmms p.mls ++ [NUL])) 62
          (S.fmms p.cls ++ [NUL])) 67 p.speeds '0') 77 (S.fmls p.ltssm ++ [NUL])) 87
          ((Nat.repr p.lane).toList ++ [NUL])) ∧
      (∃ s, s.length ≤ 5 ∧ b3 = put b2 52 (s ++ [NUL])) ∧
      b2 = put (bit_labels b1 37 p.cv 'A') 47 ((Nat.repr p.mlw).toList ++ [NUL]) := by
  obtain ⟨h1, h2, h3, h4, h5, s1, s2, s3, s4, s5, s6⟩ := hfit
  have r1 := repr_short _ h1
  have r2 := repr_short _ h2
  have r3 := repr_short _ h3
  have r4 : (Nat.repr (p.nlw >>> 4)).toList.length ≤ 5 :=
    repr_short _ (Nat.lt_of_le_of_lt (by
      rw [Nat.shiftRight_eq_div_pow]
      exact Nat.div_le_self _ _) h4)
  have r5 := repr_short _ h5
  obtain ⟨o0, o1, o2, o3, o4, o5, o6, o7, o8, o9, o10, o11, o12, o13, o14⟩ := col_offsets
  unfold row_columns
  simp only [o0, o1, o2, o3, o4, o5, o6, o7, o8, o9, o10, o11, o12, o13, hp,
    if_false, ne_eq, not_false_eq_true, if_true, false_or]
  rw [sprintf_some _ 0 _ (by omega)]
  simp only [Option.some_bind]
  rw [sprintf_some _ 8 _ (by omega)]
  simp only [Option.some_bind]
  rw [sprintf_some _ 20 _ (by omega)]
  simp only [Option.some_bind]
  have e4 : ∃ b, (if ¬p.dt = FMDT_CXL_TYPE_3 ∧ ¬p.dt = FMDT_CXL_TYPE_3_POOLED then
        sprintf (put (put (Function.update (put
          (fun k => if k = SHOW_PORT_BUF_LEN then NUL else ' ') 0
          ((Nat.repr p.ppid).toList ++ [NUL])) 5 '+') 8 (S.fmps p.state ++ [NUL])) 20
          (S.fmdt p.dt ++ [NUL])) 28 ['-']
      else sprintf (put (put (Function.update (put
          (fun k => if k = SHOW_PORT_BUF_LEN then NUL else ' ') 0
          ((Nat.repr p.ppid).toList ++ [NUL])) 5 '+') 8 (S.fmps p.state ++ [NUL])) 20
          (S.fmdt p.dt ++ [NUL])) 28 (Nat.repr p.num_ld).toList) = some b := by
    split
    · rw [sprintf_some _ 28 _ (by simp)]
      exact ⟨_, rfl⟩
    · rw [sprintf_some _ 28 _ (by omega)]
      exact ⟨_, rfl⟩
  obtain ⟨b, hb⟩ := e4
  rw [hb]
  simp only [Option.some_bind]
  rw [sprintf_some _ 32 _ (by omega)]
  simp only [Option.some_bind]
  rw [sprintf_some _ 47 _ (by omega)]
  simp only [Option.some_bind]
  have e8 : ∃ s, s.length ≤ 5 ∧
      (if p.nlw >>> 0 = 0 then
        sprintf (put (bit_labels (put b 32 (S.fmdv p.dv ++ [NUL])) 37 p.cv 'A') 47
          ((Nat.repr p.mlw).toList ++ [NUL])) 52 (Nat.repr p.mlw).toList
      else sprintf (put (bit_labels (put b 32 (S.fmdv p.dv ++ [NUL])) 37 p.cv 'A') 47
          ((Nat.repr p.mlw).toList ++ [NUL])) 52 (Nat.repr (p.nlw >>> 4)).toList) =
        some (put (put (bit_labels (put b 32 (S.fmdv p.dv ++ [NUL])) 37 p.cv 'A') 47
          ((Nat.repr p.mlw).toList ++ [NUL])) 52 (s ++ [NUL])) := by
    split
    · exact ⟨_, r3, sprintf_some _ 52 _ (by omega)⟩
    · exact ⟨_, r4, sprintf_some _ 52 _ (by omega)⟩
  obtain ⟨s, hs, hb8⟩ := e8
  rw [hb8]
  simp only [Option.some_bind]
  rw [sprintf_some _ 57 _ (by omega)]
  simp only [Option.some_bind]
  rw [sprintf_some _ 62 _ (by omega)]
  simp only [Option.some_bind]
  rw [sprintf_some _ 77 _ (by omega)]
  simp only [Option.some_bind]
  rw [sprintf_some _ 87 _ (by omega)]
  exact ⟨_, _, _, rfl, ⟨s, hs, rfl⟩, rfl⟩
theorem row_columns_absent (S : fmapi_names) (p : fmapi_psc_port_info)
    (hfit : row_fits S p) (hp : p.prsnt = 0) :
    row_columns S p =
      some (put (put (put (put (put (put (put (put (put (put (put (put (Function.update (put
        (fun k => if k = SHOW_PORT_BUF_LEN then NUL else ' ') 0
        ((Nat.repr p.ppid).toList ++ [NUL])) 5 '-') 8 (S.fmps p.state ++ [NUL])) 20
        (['-'] ++ [NUL])) 28 (['-'] ++ [NUL])) 32 (['-'] ++ [NUL])) 37 (['-'] ++ [NUL])) 47
        ((Nat.repr p.mlw).toList ++ [NUL])) 52 (['-'] ++ [NUL])) 57 (S.fmms p.mls ++ [NUL])) 62
        (['-'] ++ [NUL])) 67 (['-'] ++ [NUL])) 77 (['-'] ++ [NUL])) 87 (['-'] ++ [NUL])) := by
  obtain ⟨h1, h2, h3, h4, h5, s1, s2, s3, s4, s5, s6⟩ := hfit
  have r1 := repr_short _ h1
  have r3 := repr_short _ h3
  obtain ⟨o0, o1, o2, o3, o4, o5, o6, o7, o8, o9, o10, o11, o12, o13, o14⟩ := col_offsets
  unfold row_columns
  simp only [o0, o1, o2, o3, o4, o5, o6, o7, o8, o9, o10, o11, o12, o13, hp,
    if_false, ne_eq, not_true_eq_false, if_true, true_or]
  rw [sprintf_some _ 0 _ (by omega)]
  simp only [Option.some_bind]
  rw [sprintf_some _ 8 _ (by omega)]
  simp only [Option.some_bind]
  rw [sprintf_some _ 20 _ (by simp)]
  simp only [Option.some_bind]
  rw [sprintf_some _ 28 _ (by simp)]
  simp only [Option.some_bind]
  rw [sprintf_some _ 32 _ (by simp)]
  simp only [Option.some_bind]
  rw [sprintf_some _ 37 _ (by simp)]
  simp only [Option.some_bind]
  rw [sprintf_some _ 47 _ (by omega)]
  simp only [Option.some_bind]
  rw [sprintf_some _ 52 _ (by simp)]
  simp only [Option.some_bind]
  rw [sprintf_some _ 57 _ (by omega)]
  simp only [Option.some_bind]
  rw [sprintf_some _ 62 _ (by simp)]
  simp only [Option.some_bind]
  rw [sprintf_some _ 67 _ (by simp)]
  simp only [Option.some_bind]
  rw [sprintf_some _ 77 _ (by simp)]
  simp only [Option.some_bind]
  rw [sprintf_some _ 87 _ (by simp)]

theorem row_flags_apply (p : fmapi_psc_port_info) (buf : Nat → Char) (k : Nat) (h : k < 91) :
    row_flags p buf k = buf k := by
  have o14 : col_offset 14 = 91 := by decide
  unfold row_flags
  simp only [o14]
  have n0 : k ≠ 91 + 0 := by omega
  have n1 : k ≠ 91 + 1 := by omega
  have n2 : k ≠ 91 + 2 := by omega
  have n3 : k ≠ 91 + 3 := by omega
  split <;> split <;> split <;> split <;>
    simp only [Function.update_noteq n0, Function.update_noteq n1, Function.update_noteq n2,
      Function.update_noteq n3]

theorem label_ne_nul (b : Bool) (n : Nat) (h : n < 8) :
    (if b then Char.ofNat ('A'.toNat + n) else ' ') ≠ NUL ∧
      (if b then Char.ofNat ('0'.toNat + n) else ' ') ≠ NUL := by
  cases b
  · simp only [Bool.false_eq_true, if_false]
    exact ⟨by decide, by decide⟩
  · interval_cases n <;> exact ⟨by decide, by decide⟩
theorem row_line_field (buf : Nat → Char) (a : Nat) (f : List Char) (hf : f.length = 8)
    (ha : a + 8 ≤ 110)
    (h : ∀ j, j < 8 →
      (if buf (a + j) = NUL then ' ' else buf (a + j)) = f.getD j ' ') :
    ((row_line buf).drop a).take 8 = f := by
  unfold row_line SHOW_PORT_BUF_LEN
  rw [map_range_drop_take _ 110 a 8 ha]
  apply List.ext_getElem
  · simp [hf]
  · intro j h1 h2
    have hj : j < 8 := by simpa using h1
    have h3 := h j hj
    have ha2 : a + j < 110 := by omega
    simp only [List.getElem_map, List.getElem_range, ha2, true_and]
    rw [h3, List.getD_eq_getElem?_getD, List.getElem?_eq_getElem h2]
    rfl

theorem dash_field (buf : Nat → Char) (i j : Nat) (hj : j < 8)
    (hb : ∀ k, i + 2 ≤ k → k < i + 8 → buf k = ' ') :
    (if put buf i (['-'] ++ [NUL]) (i + j) = NUL then ' '
      else put buf i (['-'] ++ [NUL]) (i + j)) = ('-' :: List.replicate 7 ' ').getD j ' ' := by
  rcases Nat.eq_zero_or_pos j with h0 | h0
  · subst h0
    rw [Nat.add_zero]
    have e : put buf i (['-'] ++ [NUL]) i = '-' := put_apply_first buf i '-' [NUL]
    rw [e, if_neg (by decide)]
    rfl
  · rcases Nat.eq_or_lt_of_le h0 with h1 | h1
    · subst h1
      have e : put buf i (['-'] ++ [NUL]) (i + 1) = NUL := put_apply_nul buf i ['-']
      rw [e, if_pos rfl]
      rfl
    · have e : put buf i (['-'] ++ [NUL]) (i + j) = ' ' := by
        rw [put_apply_out _ _ _ _ (Or.inr (by simp only [List.length_singleton]; omega))]
        exact hb _ (by omega) (by omega)
      rw [e, if_neg (by decide)]
      interval_cases j <;> rfl

theorem label_field_getD (bits : Nat) (c : Char) (j : Nat) (hj : j < 8) :
    (label_field bits c).getD j ' ' =
      (if bit_set bits j then Char.ofNat (c.toNat + j) else ' ') := by
  unfold label_field
  interval_cases j <;> rfl

theorem bits_field (buf : Nat → Char) (i bits : Nat) (c : Char) (j : Nat) (hj : j < 8)
    (hc : c = 'A' ∨ c = '0') :
    (if bit_labels buf i bits c (i + j) = NUL then ' '
      else bit_labels buf i bits c (i + j)) = (label_field bits c).getD j ' ' := by
  have e : bit_labels buf i bits c (i + j) =
      (if bit_set bits j then Char.ofNat (c.toNat + j) else ' ') := by
    rw [bit_labels_apply, if_pos (show i ≤ i + j ∧ i + j < i + 8 from ⟨by omega, by omega⟩),
      Nat.add_sub_cancel_left]
  rw [label_field_getD _ _ _ hj, e, if_neg]
  rcases hc with hc | hc
  · subst hc
    exact (label_ne_nul _ j hj).1
  · subst hc
    exact (label_ne_nul _ j hj).2

/-- C25: for a record whose names and numbers fit the line buffer,
`print_ports` prints a line of 110 characters. When the record is present, the
8 characters of column 6 (supported CXL versions) are, for each `n` in 0..7,
the label `'A' + n` when bit `n` of `cv` is set and a space otherwise, and the
8 characters of column 11 (supported link speeds) are the same with the label
`'0' + n` and `speeds`. When the record is not present each of the two fields
is "-" followed by spaces. -/
theorem print_ports_label_fields (S : fmapi_names) (p : fmapi_psc_port_info)
    (hfit : row_fits S p) :
    ∃ line, print_ports_row S p = some line ∧ line.length = 110 ∧
      (p.prsnt ≠ 0 →
        (line.drop (col_offset 6)).take 8 = label_field p.cv 'A' ∧
          (line.drop (col_offset 11)).take 8 = label_field p.speeds '0') ∧
      (p.prsnt = 0 →
        (line.drop (col_offset 6)).take 8 = '-' :: List.replicate 7 ' ' ∧
          (line.drop (col_offset 11)).take 8 = '-' :: List.replicate 7 ' ') := by
  have o6 : col_offset 6 = 37 := by decide
  have o11 : col_offset 11 = 67 := by decide
  rw [o6, o11]
  by_cases hp : p.prsnt = 0
  · have hc := row_columns_absent S p hfit hp
    obtain ⟨h1, h2, h3, h4, h5, s1, s2, s3, s4, s5, s6⟩ := hfit
    have r1 := repr_short _ h1
    have r3 := repr_short _ h3
    refine ⟨_, by rw [print_ports_row, hc]; rfl, by simp [row_line, SHOW_PORT_BUF_LEN],
      fun h => absurd hp h, fun _ => ⟨?_, ?_⟩⟩
    · apply row_line_field _ 37 _ (by rfl) (by omega)
      intro j hj
      rw [row_flags_apply _ _ _ (by omega)]
      rw [put_apply_out _ 87 _ _ (Or.inl (by omega)), put_apply_out _ 77 _ _ (Or.inl (by omega)),
        put_apply_out _ 67 _ _ (Or.inl (by omega)), put_apply_out _ 62 _ _ (Or.inl (by omega)),
        put_apply_out _ 57 _ _ (Or.inl (by omega)), put_apply_out _ 52 _ _ (Or.inl (by omega)),
        put_apply_out _ 47 _ _ (Or.inl (by omega))]
      apply dash_field _ 37 j hj
      intro k k1 k2
      have l1 : (['-'] : List Char).length = 1 := rfl
      rw [put_apply_out _ 32 _ _ (Or.inr (by omega)), put_apply_out _ 28 _ _ (Or.inr (by omega)),
        put_apply_out _ 20 _ _ (Or.inr (by omega)), put_apply_out _ 8 _ _ (Or.inr (by omega)),
        Function.update_noteq (by omega), put_apply_out _ 0 _ _ (Or.inr (by omega)),
        if_neg (by unfold SHOW_PORT_BUF_LEN; omega)]
    · apply row_line_field _ 67 _ (by rfl) (by omega)
      intro j hj
      rw [row_flags_apply _ _ _ (by omega)]
      rw [put_apply_out _ 87 _ _ (Or.inl (by omega)), put_apply_out _ 77 _ _ (Or.inl (by omega))]
      apply dash_field _ 67 j hj
      intro k k1 k2
      have l1 : (['-'] : List Char).length = 1 := rfl
      rw [put_apply_out _ 62 _ _ (Or.inr (by omega)), put_apply_out _ 57 _ _ (Or.inr (by omega)),
        put_apply_out _ 52 _ _ (Or.inr (by omega)), put_apply_out _ 47 _ _ (Or.inr (by omega)),
        put_apply_out _ 37 _ _ (Or.inr (by omega)),
        put_apply_out _ 32 _ _ (Or.inr (by omega)), put_apply_out _ 28 _ _ (Or.inr (by omega)),
        put_apply_out _ 20 _ _ (Or.inr (by omega)), put_apply_out _ 8 _ _ (Or.inr (by omega)),
        Function.update_noteq (by omega), put_apply_out _ 0 _ _ (Or.inr (by omega)),
        if_neg (by unfold SHOW_PORT_BUF_LEN; omega)]
  · obtain ⟨b1, b2, b3, hc, ⟨s, hs, e3⟩, e2⟩ := row_columns_present S p hfit hp
    refine ⟨_, by rw [print_ports_row, hc]; rfl, by simp [row_line, SHOW_PORT_BUF_LEN],
      fun _ => ⟨?_, ?_⟩, fun h => absurd h hp⟩
    · apply row_line_field _ 37 _ (by rfl) (by omega)
      intro j hj
      rw [row_flags_apply _ _ _ (by omega)]
      rw [put_apply_out _ 87 _ _ (Or.inl (by omega)), put_apply_out _ 77 _ _ (Or.inl (by omega)),
        bit_labels_apply _ 67, if_neg (show ¬(67 ≤ 37 + j ∧ 37 + j < 67 + 8) by omega),
        put_apply_out _ 62 _ _ (Or.inl (by omega)),
        put_apply_out _ 57 _ _ (Or.inl (by omega)), e3,
        put_apply_out _ 52 _ _ (Or.inl (by omega)), e2,
        put_apply_out _ 47 _ _ (Or.inl (by omega))]
      exact bits_field _ 37 _ 'A' j hj (Or.inl rfl)
    · apply row_line_field _ 67 _ (by rfl) (by omega)
      intro j hj
      rw [row_flags_apply _ _ _ (by omega)]
      rw [put_apply_out _ 87 _ _ (Or.inl (by omega)), put_apply_out _ 77 _ _ (Or.inl (by omega))]
      exact bits_field _ 67 _ '0' j hj (Or.inr rfl)

theorem print_ports_label_fields_witness :
    row_fits fmapi_names_sample { port_info_zero with prsnt := 1, cv := 5, speeds := 3 } ∧
      ∃ line, print_ports_row fmapi_names_sample
          { port_info_zero with prsnt := 1, cv := 5, speeds := 3 } = some line ∧
        line.length = 110 ∧
        ((1 : Nat) ≠ 0 →
          (line.drop (col_offset 6)).take 8 = label_field 5 'A' ∧
            (line.drop (col_offset 11)).take 8 = label_field 3 '0') ∧
        ((1 : Nat) = 0 →
          (line.drop (col_offset 6)).take 8 = '-' :: List.replicate 7 ' ' ∧
            (line.drop (col_offset 11)).take 8 = '-' :: List.replicate 7 ' ') :=
  ⟨by unfold row_fits; decide, print_ports_label_fields fmapi_names_sample
    { port_info_zero with prsnt := 1, cv := 5, speeds := 3 } (by unfold row_fits; decide)⟩

/-! ### The TLP header of the `aer` command -/

theorem strtoul_hex_pair (a b : Char) (ha : is_hex_digit a = true)
    (hb : is_hex_digit b = true) :
    strtoul [a, b] 16 % 256 = 16 * hex_digit a + hex_digit b := by
  have ba := hex_digit_bounds ha
  have bb := hex_digit_bounds hb
  have da := (digit_value_hex ha).2
  have db := (digit_value_hex hb).2
  have hm : a ≠ '-' := char_ne_of_toNat_ne (by
    have : ('-' : Char).toNat = 45 := by decide
    omega)
  have hp : a ≠ '+' := char_ne_of_toNat_ne (by
    have : ('+' : Char).toNat = 43 := by decide
    omega)
  have hx : b ≠ 'x' := char_ne_of_toNat_ne (by
    have : ('x' : Char).toNat = 120 := by decide
    omega)
  have hX : b ≠ 'X' := char_ne_of_toNat_ne (by
    have : ('X' : Char).toNat = 88 := by decide
    omega)
  have hs : skip_0x [a, b] = [a, b] := by simp [skip_0x, hx, hX]
  have hall : ∀ c ∈ [a, b], is_hex_digit c = true := by
    intro c hc
    rcases List.mem_cons.mp hc with e | hc
    · rw [e]; exact ha
    · rw [List.mem_singleton.mp hc]; exact hb
  rw [strtoul_plain a [b] 16 (digit_not_space (by omega)) hm hp]
  simp only [if_true, hs, scan_digits_hex _ _ hall, List.foldl_cons, List.foldl_nil]
  rw [if_neg (by unfold ULONG_MAX; omega)]
  omega

theorem hex_bytes_succ (a b : Char) (rest : List Char) (k : Nat) :
    hex_bytes (a :: b :: rest) (k + 1) =
      (16 * hex_digit a + hex_digit b) :: hex_bytes rest k := by
  unfold hex_bytes
  rw [List.range_succ_eq_map, List.map_cons, List.map_map]
  refine congrArg₂ _ rfl (List.map_congr_left ?_)
  intro i _
  have e1 : 2 * (i + 1) = 2 * i + 1 + 1 := by omega
  have e2 : 2 * (i + 1) + 1 = 2 * i + 1 + 1 + 1 := by omega
  simp only [Function.comp, Nat.succ_eq_add_one, e1, e2, List.getD_cons_succ]

theorem parse_u8_loop_hex (k : Nat) :
    ∀ (w : List Char) (array : List Nat), (∀ c ∈ w, is_hex_digit c = true) →
      w.length = 2 * k → parse_u8_loop w array = some (array ++ hex_bytes w k) := by
  induction k with
  | zero =>
    intro w array _ hk
    have : w = [] := List.length_eq_zero.mp (by omega)
    subst this
    simp [parse_u8_loop, hex_bytes]
  | succ k ih =>
    intro w array hw hk
    match w, hw, hk with
    | [], _, hk => simp at hk
    | [_], _, hk =>
      simp at hk
      omega
    | a :: b :: rest, hw, hk =>
      have ha := hw a (List.mem_cons_self _ _)
      have hb := hw b (List.mem_cons_of_mem _ (List.mem_cons_self _ _))
      have hr : ∀ c ∈ rest, is_hex_digit c = true :=
        fun c hc => hw c (List.mem_cons_of_mem _ (List.mem_cons_of_mem _ hc))
      have hl : rest.length = 2 * k := by
        simp only [List.length_cons] at hk
        omega
      rw [parse_u8_loop, strtoul_hex_pair a b ha hb, ih rest _ hr hl, hex_bytes_succ]
      simp

theorem hex_bytes_length (w : List Char) (k : Nat) : (hex_bytes w k).length = k := by
  simp [hex_bytes]

theorem parse_u8_str_hex (pre w : List Char) (k : Nat)
    (hpre : pre = [] ∨ pre = ['0', 'x'])
    (hw : ∀ c ∈ w, is_hex_digit c = true) (hk : w.length = 2 * k) :
    parse_u8_str (pre ++ w) = some (hex_bytes w k, k) := by
  have key : parse_u8_str (pre ++ w) =
      (parse_u8_loop w []).map (fun array => (array, array.length)) := by
    rcases hpre with e | e
    · subst e
      match w, hw with
      | [], _ => rfl
      | [_], _ => rfl
      | a :: b :: rest, hw =>
        have hb := hex_digit_bounds (hw b (List.mem_cons_of_mem _ (List.mem_cons_self _ _)))
        have hx : b ≠ 'x' := char_ne_of_toNat_ne (by
          have : ('x' : Char).toNat = 120 := by decide
          omega)
        simp [parse_u8_str, hx]
    · subst e
      simp [parse_u8_str]
  rw [key, parse_u8_loop_hex k w [] hw hk]
  simp [hex_bytes_length]

/-- C26: for every string of `2 * k` hexadecimal digits, with or without a
leading `0x`, `parse_u8_str` returns `k` and stores as byte `i` the value of
the digits `2 * i` and `2 * i + 1`. The `--tlp-header` option of `aer` is
stored when `k = 32` and is rejected with the error "Incorrect length of TLP
Header" when `k < 32`. When `k > 32` the bytes from index 32 on are stored
outside the 32 bytes allocated for `o->buf`, before the length is compared:
the run is undefined instead of a rejection. -/
theorem aer_tlp_header (o : opt) (pre w : List Char) (k : Nat)
    (hpre : pre = [] ∨ pre = ['0', 'x'])
    (hw : ∀ c ∈ w, is_hex_digit c = true) (hk : w.length = 2 * k) :
    parse_u8_str (pre ++ w) = some (hex_bytes w k, k) ∧
      (∀ i, i < k → (hex_bytes w k).getD i 0 =
        16 * hex_digit (w.getD (2 * i) '0') + hex_digit (w.getD (2 * i + 1) '0')) ∧
      (k = CLMR_AER_HEADER_LEN →
        pr_aer_header o (pre ++ w) =
          some (aer_header_result.stored
            { o with set := 1, buf := some (hex_bytes w k), num := 32, len := 32 })) ∧
      (k < CLMR_AER_HEADER_LEN →
        pr_aer_header o (pre ++ w) = some aer_header_result.incorrect_length) ∧
      (CLMR_AER_HEADER_LEN < k → pr_aer_header o (pre ++ w) = none) := by
  have hp := parse_u8_str_hex pre w k hpre hw hk
  refine ⟨hp, ?_, ?_, ?_, ?_⟩
  · intro i hi
    simp [hex_bytes, List.getD_eq_getElem?_getD, List.getElem?_map, List.getElem?_range hi]
  · intro h
    subst h
    simp [pr_aer_header, hp, CLMR_AER_HEADER_LEN]
  · intro h
    unfold CLMR_AER_HEADER_LEN at h
    have h1 : k ≤ 32 := by omega
    have h2 : k ≠ 32 := by omega
    simp [pr_aer_header, hp, CLMR_AER_HEADER_LEN, h1, h2]
  · intro h
    unfold CLMR_AER_HEADER_LEN at h
    have h1 : ¬ k ≤ 32 := by omega
    simp [pr_aer_header, hp, CLMR_AER_HEADER_LEN, h1]

/-- Witness of C26 on a header of 33 bytes, `0x` followed by 66 digits `0`. -/
theorem aer_tlp_header_witness :
    (['0', 'x'] = ([] : List Char) ∨ ['0', 'x'] = ['0', 'x']) ∧
      (∀ c ∈ List.replicate 66 '0', is_hex_digit c = true) ∧
      (List.replicate 66 '0').length = 2 * 33 ∧
      parse_u8_str (['0', 'x'] ++ List.replicate 66 '0') =
        some (hex_bytes (List.replicate 66 '0') 33, 33) ∧
      pr_aer_header opt_zero (['0', 'x'] ++ List.replicate 66 '0') = none :=
  have hw : ∀ c ∈ List.replicate 66 '0', is_hex_digit c = true := by
    intro c hc
    rw [List.eq_of_mem_replicate hc]
    decide
  have h := aer_tlp_header opt_zero ['0', 'x'] (List.replicate 66 '0') 33 (Or.inr rfl) hw
    (by simp)
  ⟨Or.inr rfl, hw, by simp, h.1, h.2.2.2.2 (by decide)⟩

/-! ### Range expressions with empty items -/

theorem item_entries_some (it : range_item) : item_entries (some it) = it.values := by
  cases it with
  | scalar w => rfl
  | range lo hi =>
    simp only [item_entries, range_item.values]
    by_cases h : numeral_value lo ≤ numeral_value hi
    · rw [if_pos h, List.range'_eq_map_range]
      have e : numeral_value hi + 1 - numeral_value lo =
          numeral_value hi - numeral_value lo + 1 := by omega
      rw [e]
    · rw [if_neg h]
      have e : numeral_value hi + 1 - numeral_value lo = 0 := by omega
      rw [e]
      rfl

/-- The loop and the flush on an expression that may hold empty items. -/
theorem range_loop_items (items : List (Option range_item))
    (hwf : ∀ it, some it ∈ items → it.wf) (D : List Nat) (n : Nat) :
    ((range_loop (items_text items) { start := -1, tmp := [], dst := D, d := n }).bind
        range_finish).map (fun r => (r.dst, r.d)) =
      some (D ++ items.flatMap item_entries, n + (items.flatMap item_entries).length) := by
  induction items generalizing D n with
  | nil => simp [items_text, range_loop, range_finish]
  | cons it rest ih =>
    cases rest with
    | nil =>
      cases it with
      | none => simp [items_text, item_text, item_entries, range_loop, range_finish]
      | some it =>
        have hit := hwf it (List.mem_cons_self _ _)
        simpa [items_text, item_text, item_entries_some] using range_loop_item_end it hit D n
    | cons it2 rest2 =>
      have e : items_text (it :: it2 :: rest2) =
          item_text it ++ ',' :: items_text (it2 :: rest2) := rfl
      have ih2 := ih (fun x hx => hwf x (List.mem_cons_of_mem _ hx))
      cases it with
      | none =>
        have s : range_loop (',' :: items_text (it2 :: rest2))
            { start := -1, tmp := [], dst := D, d := n } =
            range_loop (items_text (it2 :: rest2))
              { start := -1, tmp := [], dst := D, d := n } := by
          simp [range_loop, range_step]
        rw [e, item_text, List.nil_append, s, ih2]
        simp [item_entries, List.flatMap_cons]
      | some it =>
        have hit := hwf it (List.mem_cons_self _ _)
        rw [e, item_text, range_loop_item_comma it hit D n, ih2]
        simp [List.flatMap_cons, item_entries_some, Nat.add_assoc]

/-- C27: on every well-formed range expression, whose items are separated by
commas and are each empty, a decimal or `0x` hexadecimal scalar up to 255, or a
range `a-b` of two such numerals, `range_to_u8_array` stores the concatenation,
in input order, of each scalar and of each inclusive run `a, a+1, ..., b`, and
returns the number of stored entries; an empty item and a range with `a > b`
contribute no entry. With at most 256 entries the 256 byte buffer of the caller
holds them all. -/
theorem range_to_u8_array_items (items : List (Option range_item))
    (hwf : ∀ it, some it ∈ items → it.wf) (o : opt) :
    range_to_u8_array (items_text items) =
        some (items.flatMap item_entries, (items.flatMap item_entries).length) ∧
      ((items.flatMap item_entries).length ≤ 256 →
        (parse_ppid o (items_text items)).isSome = true) := by
  have h : range_to_u8_array (items_text items) =
      some (items.flatMap item_entries, (items.flatMap item_entries).length) := by
    rw [range_to_u8_array_eq, range_loop_items items hwf [] 0]
    simp
  refine ⟨h, fun hl => ?_⟩
  generalize items.flatMap item_entries = L at h hl
  unfold parse_ppid
  split
  · rw [h]
    simp [hl]
  · rfl

/-- Witness of C27 on the expression `1,,5-3,0x2-4`, which has a scalar, an
empty item, a range with `a > b` and a range with a hexadecimal bound. -/
theorem range_to_u8_array_items_witness :
    (∀ it, some it ∈ [some (range_item.scalar ['1']), none,
        some (range_item.range ['5'] ['3']), some (range_item.range ['0', 'x', '2'] ['4'])] →
        it.wf) ∧
      items_text [some (range_item.scalar ['1']), none,
        some (range_item.range ['5'] ['3']), some (range_item.range ['0', 'x', '2'] ['4'])] =
        "1,,5-3,0x2-4".toList ∧
      range_to_u8_array "1,,5-3,0x2-4".toList = some ([1, 2, 3, 4], 4) ∧
      (parse_ppid opt_zero "1,,5-3,0x2-4".toList).isSome = true := by
  have hwf : ∀ it, some it ∈ [some (range_item.scalar ['1']), none,
      some (range_item.range ['5'] ['3']), some (range_item.range ['0', 'x', '2'] ['4'])] →
      it.wf := by
    intro it hit
    simp only [List.mem_cons, Option.some.injEq, List.mem_singleton, List.mem_nil_iff,
      or_false, reduceCtorEq, false_or] at hit
    rcases hit with e | e | e <;> subst e <;> decide
  have h := range_to_u8_array_items _ hwf opt_zero
  exact ⟨hwf, by decide, h.1, h.2 (by decide)⟩

/-! ### The number of entries against the buffer of the callers -/

theorem expr_text_replicate_succ (it : range_item) (m : Nat) :
    expr_text (List.replicate (m + 2) it) =
      it.text ++ ',' :: expr_text (List.replicate (m + 1) it) := rfl

theorem full_range_text_length (m : Nat) :
    (expr_text (List.replicate (m + 1) full_range)).length = 6 * m + 5 := by
  induction m with
  | zero => rfl
  | succ m ih =>
    rw [expr_text_replicate_succ, List.length_append, List.length_cons, ih]
    have : full_range.text.length = 5 := rfl
    omega

theorem full_range_values_length (m : Nat) :
    (expr_values (List.replicate m full_range)).length = 256 * m := by
  induction m with
  | zero => rfl
  | succ m ih =>
    have e : expr_values (List.replicate (m + 1) full_range) =
        full_range.values ++ expr_values (List.replicate m full_range) := by
      simp [expr_values, List.replicate_succ, List.flatMap_cons]
    have l : full_range.values.length = 256 := by
      simp [full_range, range_item.values, numeral_value, decimal_value]
    rw [e, List.length_append, ih, l]
    omega

/-- C28: the expression of `m` items `0-255` has `6 * m - 1` characters and
makes `range_to_u8_array` store and return `256 * m` entries. From two items
on, while the text stays within 255 characters (`m ≤ 42`), the entries run
past the 256 bytes that the callers allocate: the claim that a text of at most
255 characters gives at most 256 entries does not hold of the code. -/
theorem range_to_u8_array_exceeds_buffer (m : Nat) (h2 : 2 ≤ m) (h42 : m ≤ 42) (o : opt) :
    (expr_text (List.replicate m full_range)).length ≤ 255 ∧
      range_to_u8_array (expr_text (List.replicate m full_range)) =
        some (expr_values (List.replicate m full_range), 256 * m) ∧
      256 < 256 * m ∧
      parse_ppid o (expr_text (List.replicate m full_range)) = none := by
  obtain ⟨k, rfl⟩ : ∃ k, m = k + 2 := ⟨m - 2, by omega⟩
  have hwf : ∀ it ∈ List.replicate (k + 2) full_range, it.wf := by
    intro it hit
    rw [List.eq_of_mem_replicate hit]
    decide
  have h := range_to_u8_array_expr _ hwf
  rw [full_range_values_length] at h
  refine ⟨by rw [full_range_text_length (k + 1)]; omega, h, by omega, ?_⟩
  unfold parse_ppid
  rw [h]
  have hany : ((expr_text (List.replicate (k + 2) full_range)).take 256).any
      (fun c => c = ',' || c = '-') = true := by
    rw [expr_text_replicate_succ]
    simp [full_range, range_item.text]
  rw [if_pos hany]
  have n : ¬ 256 * (k + 2) ≤ 256 := by omega
  simp only [n, if_false]

/-- Witness of C28 on the text `0-255,0-255` of 11 characters, which stores
512 entries. -/
theorem range_to_u8_array_exceeds_buffer_witness :
    2 ≤ 2 ∧ 2 ≤ 42 ∧
      expr_text (List.replicate 2 full_range) = "0-255,0-255".toList ∧
      "0-255,0-255".toList.length ≤ 255 ∧
      (range_to_u8_array "0-255,0-255".toList).map Prod.snd = some 512 ∧
      parse_ppid opt_zero "0-255,0-255".toList = none :=
  have h := range_to_u8_array_exceeds_buffer 2 (by decide) (by decide) opt_zero
  ⟨by decide, by decide, by decide, by decide, by rw [show "0-255,0-255".toList =
    expr_text (List.replicate 2 full_range) by decide, h.2.1]; rfl, h.2.2.2⟩

/-! ### Tunneled responses for a port without MLD record -/

theorem with_mld_absent (cxls : cxl_switch) (ppid : Nat) (f : cxl_mld → cxl_mld)
    (hm : (cxls.ports ppid).mld = none) : with_mld cxls ppid f = none := by
  unfold with_mld
  rw [hm]

theorem fmapi_update_tunnel_undefined (cxls : cxl_switch) (req : fmapi_req) (rsp : fmapi_rsp)
    (hc : rsp.hdr.category = FMMT.RESP)
    (hrc : rsp.hdr.return_code = FMRC_SUCCESS ∨
      rsp.hdr.return_code = FMRC_BACKGROUND_OP_STARTED)
    (hop : rsp.hdr.opcode = FMOP.MPC_TMC)
    (ht : rsp.obj.mpc_tmc_rsp.type = MCMT.CXLCCI)
    (h : cci_update cxls req.obj.mpc_tmc_req.ppid rsp.obj.mpc_tmc_rsp.msg = none) :
    fmapi_update cxls req rsp = none := by
  have hr : ¬ (rsp.hdr.return_code ≠ FMRC_SUCCESS ∧
      rsp.hdr.return_code ≠ FMRC_BACKGROUND_OP_STARTED) := by
    rcases hrc with e | e <;> simp [e]
  have hs : fmapi_update_switch cxls req rsp = none := by
    unfold fmapi_update_switch
    rw [hop]
    simp only [ht, ne_eq, not_true_eq_false, if_false, h]
  unfold fmapi_update
  rw [if_neg (not_not.mpr hc), if_neg hr, hs]

theorem cci_update_checked (cxls : cxl_switch) (ppid : Nat) (msg : cci_msg)
    (hic : msg.hdr.category = FMMT.RESP)
    (hirc : msg.hdr.return_code = FMRC_SUCCESS ∨
      msg.hdr.return_code = FMRC_BACKGROUND_OP_STARTED) :
    cci_update cxls ppid msg =
      (cci_update_switch cxls ppid msg).map (fun c => { cxls := c, rv := 0, out := [] }) := by
  have hr : ¬ (msg.hdr.return_code ≠ FMRC_SUCCESS ∧
      msg.hdr.return_code ≠ FMRC_BACKGROUND_OP_STARTED) := by
    rcases hirc with e | e <;> simp [e]
  unfold cci_update
  rw [if_neg (not_not.mpr hic), if_neg hr]
  cases cci_update_switch cxls ppid msg <;> rfl

/-- C29: a tunneled response that passes the category and return code checks,
for a port without MLD record (`p->mld` is NULL). The cases of `cci_update` for
LD allocations get, QoS control get and set, and QoS status store through the
NULL pointer `mld`; the cases for LD allocations set, QoS bandwidth allocation
and QoS bandwidth limit do so in a loop, for every response that lists at least
one entry, and leave the cache unchanged only when the response lists none. The
claim that the absent record is not accessed does not hold of the code. -/
theorem cci_update_absent_mld (cxls : cxl_switch) (req : fmapi_req) (rsp : fmapi_rsp)
    (hc : rsp.hdr.category = FMMT.RESP)
    (hrc : rsp.hdr.return_code = FMRC_SUCCESS ∨
      rsp.hdr.return_code = FMRC_BACKGROUND_OP_STARTED)
    (hop : rsp.hdr.opcode = FMOP.MPC_TMC)
    (ht : rsp.obj.mpc_tmc_rsp.type = MCMT.CXLCCI)
    (hic : rsp.obj.mpc_tmc_rsp.msg.hdr.category = FMMT.RESP)
    (hirc : rsp.obj.mpc_tmc_rsp.msg.hdr.return_code = FMRC_SUCCESS ∨
      rsp.obj.mpc_tmc_rsp.msg.hdr.return_code = FMRC_BACKGROUND_OP_STARTED)
    (hm : (cxls.ports req.obj.mpc_tmc_req.ppid).mld = none) :
    (rsp.obj.mpc_tmc_rsp.msg.hdr.opcode ∈
        [FMOP.MCC_ALLOC_GET, FMOP.MCC_QOS_CTRL_GET, FMOP.MCC_QOS_CTRL_SET,
          FMOP.MCC_QOS_STAT] →
      cci_update cxls req.obj.mpc_tmc_req.ppid rsp.obj.mpc_tmc_rsp.msg = none ∧
        fmapi_update cxls req rsp = none) ∧
      (rsp.obj.mpc_tmc_rsp.msg.hdr.opcode = FMOP.MCC_ALLOC_SET →
        (rsp.obj.mpc_tmc_rsp.msg.obj.mcc_alloc_set_rsp.num ≠ 0 →
          cci_update cxls req.obj.mpc_tmc_req.ppid rsp.obj.mpc_tmc_rsp.msg = none ∧
            fmapi_update cxls req rsp = none) ∧
        (rsp.obj.mpc_tmc_rsp.msg.obj.mcc_alloc_set_rsp.num = 0 →
          cci_update cxls req.obj.mpc_tmc_req.ppid rsp.obj.mpc_tmc_rsp.msg =
            some { cxls := cxls, rv := 0, out := [] })) ∧
      (rsp.obj.mpc_tmc_rsp.msg.hdr.opcode ∈
          [FMOP.MCC_QOS_BW_ALLOC_GET, FMOP.MCC_QOS_BW_ALLOC_SET] →
        (rsp.obj.mpc_tmc_rsp.msg.obj.mcc_qos_bw_alloc.num ≠ 0 →
          cci_update cxls req.obj.mpc_tmc_req.ppid rsp.obj.mpc_tmc_rsp.msg = none ∧
            fmapi_update cxls req rsp = none) ∧
        (rsp.obj.mpc_tmc_rsp.msg.obj.mcc_qos_bw_alloc.num = 0 →
          cci_update cxls req.obj.mpc_tmc_req.ppid rsp.obj.mpc_tmc_rsp.msg =
            some { cxls := cxls, rv := 0, out := [] })) ∧
      (rsp.obj.mpc_tmc_rsp.msg.hdr.opcode ∈
          [FMOP.MCC_QOS_BW_LIMIT_GET, FMOP.MCC_QOS_BW_LIMIT_SET] →
        (rsp.obj.mpc_tmc_rsp.msg.obj.mcc_qos_bw_limit.num ≠ 0 →
          cci_update cxls req.obj.mpc_tmc_req.ppid rsp.obj.mpc_tmc_rsp.msg = none ∧
            fmapi_update cxls req rsp = none) ∧
        (rsp.obj.mpc_tmc_rsp.msg.obj.mcc_qos_bw_limit.num = 0 →
          cci_update cxls req.obj.mpc_tmc_req.ppid rsp.obj.mpc_tmc_rsp.msg =
            some { cxls := cxls, rv := 0, out := [] })) := by
  have hu := fmapi_update_tunnel_undefined cxls req rsp hc hrc hop ht
  have hk := cci_update_checked cxls req.obj.mpc_tmc_req.ppid rsp.obj.mpc_tmc_rsp.msg hic hirc
  have hw := fun f => with_mld_absent cxls req.obj.mpc_tmc_req.ppid f hm
  refine ⟨fun h => ?_, fun h => ⟨fun hn => ?_, fun hn => ?_⟩,
    fun h => ⟨fun hn => ?_, fun hn => ?_⟩, fun h => ⟨fun hn => ?_, fun hn => ?_⟩⟩
  · have e : cci_update cxls req.obj.mpc_tmc_req.ppid rsp.obj.mpc_tmc_rsp.msg = none := by
      simp only [List.mem_cons, List.mem_singleton, List.mem_nil_iff, or_false] at h
      rw [hk]
      rcases h with h | h | h | h <;> simp only [cci_update_switch, h, hw, Option.map_none']
    exact ⟨e, hu e⟩
  · have e : cci_update cxls req.obj.mpc_tmc_req.ppid rsp.obj.mpc_tmc_rsp.msg = none := by
      rw [hk]
      simp only [cci_update_switch, h, hw, hn, if_false, Option.map_none']
    exact ⟨e, hu e⟩
  · rw [hk]
    simp only [cci_update_switch, h, hn, if_true, Option.map_some']
  · have e : cci_update cxls req.obj.mpc_tmc_req.ppid rsp.obj.mpc_tmc_rsp.msg = none := by
      simp only [List.mem_cons, List.mem_singleton, List.mem_nil_iff, or_false] at h
      rw [hk]
      rcases h with h | h <;> simp only [cci_update_switch, h, hw, hn, if_false, Option.map_none']
    exact ⟨e, hu e⟩
  · simp only [List.mem_cons, List.mem_singleton, List.mem_nil_iff, or_false] at h
    rw [hk]
    rcases h with h | h <;> simp only [cci_update_switch, h, hn, if_true, Option.map_some']
  · have e : cci_update cxls req.obj.mpc_tmc_req.ppid rsp.obj.mpc_tmc_rsp.msg = none := by
      simp only [List.mem_cons, List.mem_singleton, List.mem_nil_iff, or_false] at h
      rw [hk]
      rcases h with h | h <;> simp only [cci_update_switch, h, hw, hn, if_false, Option.map_none']
    exact ⟨e, hu e⟩
  · simp only [List.mem_cons, List.mem_singleton, List.mem_nil_iff, or_false] at h
    rw [hk]
    rcases h with h | h <;> simp only [cci_update_switch, h, hn, if_true, Option.map_some']

/-- Witness of C29: a tunneled QoS status response for port 4 of a cache in
which no port has an MLD record. -/
theorem cci_update_absent_mld_witness :
    rsp_tunnel_qos_stat.hdr.category = FMMT.RESP ∧
      rsp_tunnel_qos_stat.hdr.return_code = FMRC_SUCCESS ∧
      rsp_tunnel_qos_stat.hdr.opcode = FMOP.MPC_TMC ∧
      rsp_tunnel_qos_stat.obj.mpc_tmc_rsp.type = MCMT.CXLCCI ∧
      rsp_tunnel_qos_stat.obj.mpc_tmc_rsp.msg.hdr.category = FMMT.RESP ∧
      rsp_tunnel_qos_stat.obj.mpc_tmc_rsp.msg.hdr.return_code = FMRC_SUCCESS ∧
      rsp_tunnel_qos_stat.obj.mpc_tmc_rsp.msg.hdr.opcode = FMOP.MCC_QOS_STAT ∧
      (cxl_switch_zero.ports req_ld_info_4.obj.mpc_tmc_req.ppid).mld = none ∧
      cci_update cxl_switch_zero 4 rsp_tunnel_qos_stat.obj.mpc_tmc_rsp.msg = none ∧
      fmapi_update cxl_switch_zero req_ld_info_4 rsp_tunnel_qos_stat = none :=
  have h := (cci_update_absent_mld cxl_switch_zero req_ld_info_4 rsp_tunnel_qos_stat rfl
    (Or.inl rfl) rfl rfl rfl (Or.inl rfl) rfl).1 (by decide)
  ⟨rfl, rfl, rfl, rfl, rfl, rfl, rfl, rfl, h.1, h.2⟩

/-! ### The names of the options -/

theorem clop_in_table (n : Nat) (h : n < 39) :
    ∃ s, clop (n : Int) = some (some s) ∧ STR_CLOP[n]? = some s := by
  have hl : n < STR_CLOP.length := h
  refine ⟨STR_CLOP[n], ?_, List.getElem?_eq_getElem hl⟩
  unfold clop CLOP_MAX
  rw [if_neg (by omega), if_neg (by omega), Int.toNat_ofNat, List.getElem?_eq_getElem hl]
  rfl

theorem clop_past_table (n : Nat) (h1 : 39 ≤ n) (h2 : n < 42) : clop (n : Int) = none := by
  have hl : STR_CLOP.length ≤ n := h1
  unfold clop CLOP_MAX
  rw [if_neg (by omega), if_neg (by omega), Int.toNat_ofNat, List.getElem?_eq_none hl]
  rfl

/-- C30: the table `STR_CLOP` has 39 entries, for the options of value 0 to 38,
and `CLOP_MAX` is 42. For `0 ≤ u < 39`, `clop(u)` returns entry `u` of the
table; for `u ≥ CLOP_MAX` it returns NULL. For `39 ≤ u < CLOP_MAX`, which are
the values of `CLOP_LIMIT`, `CLOP_TCP_ADDRESS` and `CLOP_NO_INIT`, `clop(u)`
reads `STR_CLOP[u]` outside the table, and so does the loop of
`print_options_array`: the table does not have an entry for every
enumerator. -/
theorem clop_name_table (u : Int) :
    STR_CLOP.length = 39 ∧ CLOP_MAX = 42 ∧
      (0 ≤ u → u < 39 → ∃ s, clop u = some (some s) ∧ STR_CLOP[u.toNat]? = some s) ∧
      (39 ≤ u → u < CLOP_MAX → clop u = none) ∧
      (CLOP_MAX ≤ u → clop u = some none) ∧
      (∀ k : CLOP, 0 ≤ k.value ∧ k.value < CLOP_MAX ∧
        (clop k.value = none ↔ k = CLOP.LIMIT ∨ k = CLOP.TCP_ADDRESS ∨ k = CLOP.NO_INIT)) ∧
      print_options_maxlen = none := by
  refine ⟨rfl, rfl, ?_, ?_, ?_, ?_, ?_⟩
  · intro h0 h1
    obtain ⟨n, rfl⟩ := Int.eq_ofNat_of_zero_le h0
    exact clop_in_table n (by omega)
  · intro h0 h1
    unfold CLOP_MAX at h1
    obtain ⟨n, rfl⟩ := Int.eq_ofNat_of_zero_le (by omega : 0 ≤ u)
    exact clop_past_table n (by omega) (by omega)
  · intro h
    unfold clop
    rw [if_pos h]
  · intro k
    cases k <;> decide
  · decide

/-- Witness of C30 at `u = 39`, the value of `CLOP_LIMIT`. -/
theorem clop_name_table_witness :
    (39 : Int) ≤ 39 ∧ (39 : Int) < CLOP_MAX ∧ CLOP.LIMIT.value = 39 ∧ clop 39 = none :=
  ⟨by decide, by decide, rfl, (clop_name_table 39).2.2.2.1 (by decide) (by decide)⟩

/-! ### The return code BACKGROUND_OP_STARTED: the response is still stored -/

/-- C4 (what the code does): when the pointers that the response makes
`fmapi_update` dereference are valid, the first application yields a cache,
the second application to that cache yields a cache too, and the two caches
are equal; more generally, whenever the first application yields a cache the
second one does and leaves it as it is, for every opcode, the tunneled MLD
opcodes included, and for every header. But the first application does not
yield a cache for every cache state and valid response: a tunneled QoS status
response for a port without MLD record stores through the NULL pointer `mld`,
and an LD config space read with a register index outside the buffer of the
logical device stores outside that buffer. On these inputs there is no cache
after one application, so the equation of the claim does not hold of the
code. -/
theorem fmapi_update_idempotent (cxls : cxl_switch) (req : fmapi_req) (rsp : fmapi_rsp) :
    (pointers_valid cxls req rsp →
        ∃ r1 r2, fmapi_update cxls req rsp = some r1 ∧
          fmapi_update r1.cxls req rsp = some r2 ∧ r2.cxls = r1.cxls) ∧
      (∀ r1, fmapi_update cxls req rsp = some r1 →
        ∃ r2, fmapi_update r1.cxls req rsp = some r2 ∧ r2.cxls = r1.cxls) ∧
      (rsp.hdr.category = FMMT.RESP →
        (rsp.hdr.return_code = FMRC_SUCCESS ∨
          rsp.hdr.return_code = FMRC_BACKGROUND_OP_STARTED) →
        rsp.hdr.opcode = FMOP.MPC_TMC → rsp.obj.mpc_tmc_rsp.type = MCMT.CXLCCI →
        rsp.obj.mpc_tmc_rsp.msg.hdr.category = FMMT.RESP →
        (rsp.obj.mpc_tmc_rsp.msg.hdr.return_code = FMRC_SUCCESS ∨
          rsp.obj.mpc_tmc_rsp.msg.hdr.return_code = FMRC_BACKGROUND_OP_STARTED) →
        rsp.obj.mpc_tmc_rsp.msg.hdr.opcode = FMOP.MCC_QOS_STAT →
        (cxls.ports req.obj.mpc_tmc_req.ppid).mld = none →
        fmapi_update cxls req rsp = none) ∧
      (rsp.hdr.category = FMMT.RESP →
        (rsp.hdr.return_code = FMRC_SUCCESS ∨
          rsp.hdr.return_code = FMRC_BACKGROUND_OP_STARTED) →
        rsp.hdr.opcode = FMOP.MPC_CFG → req.obj.mpc_cfg_req.type = FMCT_READ →
        req.obj.mpc_cfg_req.fdbe &&& 0x01 ≠ 0 →
        SIZEOF_PCLN_CFG ≤ ((req.obj.mpc_cfg_req.ext <<< 8) ||| req.obj.mpc_cfg_req.reg) →
        fmapi_update cxls req rsp = none) := by
  have second : ∀ r1, fmapi_update cxls req rsp = some r1 →
      ∃ r2, fmapi_update r1.cxls req rsp = some r2 ∧ r2.cxls = r1.cxls := by
    intro r1 h
    by_cases hc : rsp.hdr.category ≠ FMMT.RESP
    · simp only [fmapi_update, if_pos hc, Option.some.injEq] at h ⊢
      subst h
      exact ⟨_, rfl, rfl⟩
    · by_cases hr : rsp.hdr.return_code ≠ FMRC_SUCCESS ∧
          rsp.hdr.return_code ≠ FMRC_BACKGROUND_OP_STARTED
      · simp only [fmapi_update, if_neg hc, if_pos hr, Option.some.injEq] at h ⊢
        subst h
        exact ⟨_, rfl, rfl⟩
      · simp only [fmapi_update, if_neg hc, if_neg hr] at h ⊢
        cases hs : fmapi_update_switch cxls req rsp with
        | none => simp [hs] at h
        | some x =>
          obtain ⟨c1, fin, out⟩ := x
          simp only [hs, Option.some.injEq] at h
          subst h
          obtain ⟨y, hy, ey⟩ := fmapi_update_switch_idem cxls req rsp _ hs
          obtain ⟨c2, fin2, out2⟩ := y
          simp only at hy ey
          simp only [hy]
          exact ⟨_, rfl, ey⟩
  refine ⟨fun hp => ?_, second, ?_, ?_⟩
  · obtain ⟨r1, h1⟩ := fmapi_update_some cxls req rsp hp
    obtain ⟨r2, h2, e2⟩ := second r1 h1
    exact ⟨r1, r2, h1, h2, e2⟩
  · intro hc hrc hop ht hic hirc hiop hm
    apply fmapi_update_tunnel_undefined cxls req rsp hc hrc hop ht
    rw [cci_update_checked cxls _ _ hic hirc]
    simp only [cci_update_switch, hiop, with_mld_absent cxls _ _ hm, Option.map_none']
  · intro hc hrc hop hty hbit hout
    have hr : ¬ (rsp.hdr.return_code ≠ FMRC_SUCCESS ∧
        rsp.hdr.return_code ≠ FMRC_BACKGROUND_OP_STARTED) := by
      rcases hrc with e | e <;> simp [e]
    have hu : mpc_cfg_update cxls req.obj.mpc_cfg_req rsp.obj.mpc_cfg_rsp.data = none := by
      rw [mpc_cfg_update_eq]
      simp only [mld_cfg_store_outside _ _ _ _ _ hout, if_pos hbit, ite_self]
    unfold fmapi_update
    rw [if_neg (not_not.mpr hc), if_neg hr]
    simp only [fmapi_update_switch, hop, hty, if_true, hu]

/-- The device info response for port 4 applied twice to the zero cache gives
the cache of one application; the QoS status response for port 4 applied to
the zero cache, in which port 4 has no MLD record, gives no cache. -/
theorem fmapi_update_idempotent_witness :
    pointers_valid cxl_switch_zero req_ld_info_4 rsp_ld_info_8 ∧
      (∃ r1 r2, fmapi_update cxl_switch_zero req_ld_info_4 rsp_ld_info_8 = some r1 ∧
        fmapi_update r1.cxls req_ld_info_4 rsp_ld_info_8 = some r2 ∧ r2.cxls = r1.cxls) ∧
      rsp_tunnel_qos_stat.hdr.category = FMMT.RESP ∧
      rsp_tunnel_qos_stat.hdr.return_code = FMRC_SUCCESS ∧
      rsp_tunnel_qos_stat.obj.mpc_tmc_rsp.msg.hdr.category = FMMT.RESP ∧
      rsp_tunnel_qos_stat.obj.mpc_tmc_rsp.msg.hdr.return_code = FMRC_SUCCESS ∧
      (cxl_switch_zero.ports req_ld_info_4.obj.mpc_tmc_req.ppid).mld = none ∧
      fmapi_update cxl_switch_zero req_ld_info_4 rsp_tunnel_qos_stat = none :=
  ⟨Or.inr rfl,
    (fmapi_update_idempotent cxl_switch_zero req_ld_info_4 rsp_ld_info_8).1 (Or.inr rfl),
    rfl, rfl, rfl, rfl, rfl,
    (fmapi_update_idempotent cxl_switch_zero req_ld_info_4 rsp_tunnel_qos_stat).2.2.1
      rfl (Or.inl rfl) rfl rfl rfl (Or.inl rfl) rfl rfl⟩

/-! ### The port that a tunneled request is addressed at -/

/-- A port id argument without comma and dash is stored as a scalar. -/
theorem parse_ppid_scalar (o : opt) (arg : List Char)
    (h : (arg.take 256).any (fun c => c = ',' || c = '-') = false) :
    parse_ppid o arg = some { o with set := 1, u8 := hexordec_to_ul arg % 256 } := by
  unfold parse_ppid
  rw [if_neg (by rw [h]; decide)]

/-- A port id argument with a comma or a dash is stored as a list: the option
is set, the scalar field keeps the value it had. -/
theorem parse_ppid_list (o o1 : opt) (arg : List Char)
    (h : (arg.take 256).any (fun c => c = ',' || c = '-') = true)
    (hp : parse_ppid o arg = some o1) :
    o1.set = 1 ∧ o1.u8 = o.u8 ∧
      ∃ dst d, range_to_u8_array arg = some (dst, d) ∧ o1.num = d ∧
        o1.buf = some (dst ++ List.replicate (256 - d) 0) := by
  unfold parse_ppid at hp
  rw [if_pos h] at hp
  cases hr : range_to_u8_array arg with
  | none => simp [hr] at hp
  | some x =>
    obtain ⟨dst, d⟩ := x
    simp only [hr] at hp
    by_cases hd : d ≤ 256
    · rw [if_pos hd, Option.some.injEq] at hp
      subst hp
      exact ⟨rfl, rfl, dst, d, rfl, rfl, rfl⟩
    · rw [if_neg hd] at hp
      cases hp

/-- The calls of an MLD command that needs no list, in terms of the port id
option alone. -/
theorem submit_cli_request_mld (opts : CLOP → opt)
    (hcmd : is_mld_command (opts CLOP.CMD).val = true)
    (hqa : (opts CLOP.CMD).val = CLCM_SET_QOS_ALLOCATED → (opts CLOP.QOS_ALLOCATED).set ≠ 0)
    (hql : (opts CLOP.CMD).val = CLCM_SET_QOS_LIMIT → (opts CLOP.QOS_LIMIT).set ≠ 0) :
    ∃ inner, writes_sub inner = true ∧
      submit_cli_request opts =
        [inner, lib_call.fmapi_fill_mpc_tmc (opts CLOP.PPID).u8 MCMT.CXLCCI,
          lib_call.submit_fmapi 0] := by
  have hr : (opts CLOP.CMD).val = 14 ∨ (opts CLOP.CMD).val = 15 ∨
      (opts CLOP.CMD).val = 16 ∨ (opts CLOP.CMD).val = 17 ∨ (opts CLOP.CMD).val = 19 ∨
      (opts CLOP.CMD).val = 20 ∨ (opts CLOP.CMD).val = 21 ∨ (opts CLOP.CMD).val = 22 ∨
      (opts CLOP.CMD).val = 23 ∨ (opts CLOP.CMD).val = 24 := by
    exact of_decide_eq_true hcmd
  rcases hr with h | h | h | h | h | h | h | h | h | h
  · simp only [submit_cli_request, h]
    refine ⟨_, ?_, rfl⟩
    rfl
  · have hs := hqa h
    simp only [submit_cli_request, h, if_neg hs]
    refine ⟨_, ?_, rfl⟩
    rfl
  · simp only [submit_cli_request, h]
    refine ⟨_, ?_, rfl⟩
    rfl
  · have hs := hql h
    simp only [submit_cli_request, h, if_neg hs]
    refine ⟨_, ?_, rfl⟩
    rfl
  · simp only [submit_cli_request, h]
    refine ⟨_, ?_, rfl⟩
    rfl
  · simp only [submit_cli_request, h]
    refine ⟨_, ?_, rfl⟩
    rfl
  · simp only [submit_cli_request, h]
    refine ⟨_, ?_, rfl⟩
    rfl
  · simp only [submit_cli_request, h]
    refine ⟨_, ?_, rfl⟩
    rfl
  · simp only [submit_cli_request, h]
    refine ⟨_, ?_, rfl⟩
    rfl
  · simp only [submit_cli_request, h]
    refine ⟨_, ?_, rfl⟩
    rfl

/-- C19 (what the code does): for every MLD command (show and set LD
allocations, show LD info, show and set QoS allocated, control and limit, show
QoS status; the two set commands with a list only when the list is given)
`submit_cli_request` makes exactly three calls: a fill of the inner request
into `sub`, then `fmapi_fill_mpc_tmc` that wraps `sub` with the tag
`MCMT_CXLCCI`, the tag that `fmapi_handler` and `fmapi_update` accept in a
tunnel response, then `submit_fmapi`. The tunnel is addressed at
`opts[CLOP_PPID].u8`. For a port id argument written as a number that is the
selected port. For a port id argument with a comma or a dash the parser sets
the option and stores the listed ports in `buf`, but never writes `u8`: the
last call of the parser lets the options through and the tunnel is addressed
at port 0, whatever ports the argument selects. -/
theorem submit_cli_request_tunnel (opts : CLOP → opt)
    (hcmd : is_mld_command (opts CLOP.CMD).val = true)
    (hqa : (opts CLOP.CMD).val = CLCM_SET_QOS_ALLOCATED → (opts CLOP.QOS_ALLOCATED).set ≠ 0)
    (hql : (opts CLOP.CMD).val = CLCM_SET_QOS_LIMIT → (opts CLOP.QOS_LIMIT).set ≠ 0) :
    (∃ inner, writes_sub inner = true ∧
        submit_cli_request opts =
          [inner, lib_call.fmapi_fill_mpc_tmc (opts CLOP.PPID).u8 MCMT.CXLCCI,
            lib_call.submit_fmapi 0]) ∧
      (∀ (req : fmapi_req) (rsp : fmapi_rsp), rsp.hdr.category = FMMT.RESP →
        (rsp.hdr.return_code = FMRC_SUCCESS ∨
          rsp.hdr.return_code = FMRC_BACKGROUND_OP_STARTED) →
        rsp.hdr.opcode = FMOP.MPC_TMC →
        ((fmapi_handler req rsp).rv = 0 ↔ rsp.obj.mpc_tmc_rsp.type = MCMT.CXLCCI) ∧
          ∀ (cxls : cxl_switch) (r : fmapi_update_result),
            fmapi_update cxls req rsp = some r →
            (r.rv = 0 ↔ rsp.obj.mpc_tmc_rsp.type = MCMT.CXLCCI)) ∧
      (∀ arg : List Char, (arg.take 256).any (fun c => c = ',' || c = '-') = false →
        opts CLOP.PPID = { opt_zero with set := 1, u8 := hexordec_to_ul arg % 256 } ∧
          parse_ppid opt_zero arg = some (opts CLOP.PPID) →
        ∃ inner, writes_sub inner = true ∧
          submit_cli_request opts =
            [inner, lib_call.fmapi_fill_mpc_tmc (hexordec_to_ul arg % 256) MCMT.CXLCCI,
              lib_call.submit_fmapi 0]) ∧
      (∀ arg : List Char, (arg.take 256).any (fun c => c = ',' || c = '-') = true →
        parse_ppid opt_zero arg = some (opts CLOP.PPID) →
        (opts CLOP.PPID).set = 1 ∧
          (∃ dst d, range_to_u8_array arg = some (dst, d) ∧ (opts CLOP.PPID).num = d ∧
            (opts CLOP.PPID).buf = some (dst ++ List.replicate (256 - d) 0)) ∧
          ∃ inner, writes_sub inner = true ∧
            submit_cli_request opts =
              [inner, lib_call.fmapi_fill_mpc_tmc 0 MCMT.CXLCCI,
                lib_call.submit_fmapi 0]) := by
  have hb := submit_cli_request_mld opts hcmd hqa hql
  refine ⟨hb, ?_, ?_, ?_⟩
  · intro req rsp hc hrc hop
    have hr : ¬ (rsp.hdr.return_code ≠ FMRC_SUCCESS ∧
        rsp.hdr.return_code ≠ FMRC_BACKGROUND_OP_STARTED) := by
      rcases hrc with e | e <;> simp [e]
    constructor
    · by_cases ht : rsp.obj.mpc_tmc_rsp.type = MCMT.CXLCCI
      · simp [fmapi_handler, hc, hr, hop, ht]
      · simp [fmapi_handler, hc, hr, hop, ht]
    · intro cxls r h
      by_cases ht : rsp.obj.mpc_tmc_rsp.type = MCMT.CXLCCI
      · have := fmapi_update_rv_zero cxls req rsp hc hrc (Or.inr ⟨hop, ht⟩) r h
        simp [this, ht]
      · simp only [fmapi_update, hc, ne_eq, not_true_eq_false, if_false, hr,
          fmapi_update_switch, hop, ht, not_false_eq_true, if_true,
          Option.some.injEq] at h
        subst h
        simp [ht]
  · intro arg _ hp
    have e : (opts CLOP.PPID).u8 = hexordec_to_ul arg % 256 := by rw [hp.1]
    rw [e] at hb
    exact hb
  · intro arg ha hp
    obtain ⟨h1, h2, h3⟩ := parse_ppid_list opt_zero (opts CLOP.PPID) arg ha hp
    have e : (opts CLOP.PPID).u8 = 0 := h2
    rw [e] at hb
    exact ⟨h1, h3, hb⟩

/-- The command line `show ld info -p 4-4` selects port 4. The parser stores
the list `[4]`, leaves `u8` at 0 and lets the options through, and the tunnel
is addressed at port 0. With `-p 4` it is addressed at port 4. -/
theorem submit_cli_request_tunnel_witness :
    opts_mld CLCM_SHOW_LD_INFO "4-4".toList =
        some (opts_cmd_with CLCM_SHOW_LD_INFO CLOP.PPID opt_ppid_list_4) ∧
      is_mld_command (opts_cmd_with CLCM_SHOW_LD_INFO CLOP.PPID opt_ppid_list_4 CLOP.CMD).val =
        true ∧
      ("4-4".toList.take 256).any (fun c => c = ',' || c = '-') = true ∧
      opt_ppid_list_4.set = 1 ∧ opt_ppid_list_4.num = 1 ∧
      opt_ppid_list_4.buf.map (fun b => b.take 1) = some [4] ∧ opt_ppid_list_4.u8 = 0 ∧
      (key_end none (opts_cmd_with CLCM_SHOW_LD_INFO CLOP.PPID opt_ppid_list_4)).isSome =
        true ∧
      submit_cli_request (opts_cmd_with CLCM_SHOW_LD_INFO CLOP.PPID opt_ppid_list_4) =
        [lib_call.fmapi_fill_mcc_get_info, lib_call.fmapi_fill_mpc_tmc 0 MCMT.CXLCCI,
          lib_call.submit_fmapi 0] ∧
      (∃ inner, writes_sub inner = true ∧
        submit_cli_request (opts_cmd_with CLCM_SHOW_LD_INFO CLOP.PPID opt_ppid_list_4) =
          [inner, lib_call.fmapi_fill_mpc_tmc 0 MCMT.CXLCCI, lib_call.submit_fmapi 0]) ∧
      opts_mld CLCM_SHOW_LD_INFO "4".toList =
        some (opts_cmd_with CLCM_SHOW_LD_INFO CLOP.PPID { opt_zero with set := 1, u8 := 4 }) ∧
      submit_cli_request
          (opts_cmd_with CLCM_SHOW_LD_INFO CLOP.PPID { opt_zero with set := 1, u8 := 4 }) =
        [lib_call.fmapi_fill_mcc_get_info, lib_call.fmapi_fill_mpc_tmc 4 MCMT.CXLCCI,
          lib_call.submit_fmapi 0] := by
  have p1 : parse_ppid opt_zero "4-4".toList = some opt_ppid_list_4 := rfl
  have hw := submit_cli_request_tunnel
    (opts_cmd_with CLCM_SHOW_LD_INFO CLOP.PPID opt_ppid_list_4)
    rfl (fun h => absurd h (by decide)) (fun h => absurd h (by decide))
  obtain ⟨_, _, inner, hi, hs⟩ := hw.2.2.2 "4-4".toList (by decide) p1
  have e : submit_cli_request (opts_cmd_with CLCM_SHOW_LD_INFO CLOP.PPID opt_ppid_list_4) =
      [lib_call.fmapi_fill_mcc_get_info, lib_call.fmapi_fill_mpc_tmc 0 MCMT.CXLCCI,
        lib_call.submit_fmapi 0] := rfl
  exact ⟨rfl, rfl, by decide, rfl, rfl, rfl, rfl, rfl, e, ⟨inner, hi, hs⟩, rfl, rfl⟩

/-! ### Absent parameters: the parser and the builder -/

end Jack
